import Mathlib

/-
Verification development for the job orchestration subsystem of the
Ai-Avatar backend (src/backend/app): the job registry and queue
(jobs.py), the worker loop and its content-addressed result cache
(worker.py), the generator dispatch factory (pipeline/factory.py), the
submission and result endpoints (api.py), and the audio normalization
helpers (tts_service.py).

Modelling conventions:
- Python byte strings and file contents are `List Nat` (one Nat per byte).
- Python text strings are `List Nat` of Unicode code points; `cp` builds
  them from Lean string literals.
- `json.dumps(v, sort_keys := True, separators := (comma, colon),
  ensure_ascii := True)` is modelled byte-exactly by `dumps`.
- SHA-256 is modelled as a collision-free coding: `cache_key` returns the
  exact byte stream fed to the hasher in `_cache_key` (worker.py).  Two
  digests are equal iff the streams are equal, and distinct streams give
  distinct digests up to SHA-256 collisions, so all cache-key claims are
  settled at the stream level.
- Floats (pydantic settings fields such as svd_noise_aug_strength) are
  carried as the byte string of their Python repr, which is what
  json.dumps writes for them; Python repr of floats is injective.
-/

namespace AvatarSpec

/-- Code points of a Lean string literal, used to embed Python text strings
as `List Nat`. -/
def cp (s : String) : List Nat := s.data.map Char.toNat

/-- Strict lexicographic order on code-point strings: the order Python uses
to compare `str` values, hence the order of `sort_keys=True`. -/
def lexLtB : List Nat → List Nat → Bool
  | [], [] => false
  | [], _ :: _ => true
  | _ :: _, [] => false
  | a :: as, b :: bs => a < b || (a == b && lexLtB as bs)

/-- Reflexive closure of `lexLtB`. -/
def lexLeB (a b : List Nat) : Bool := lexLtB a b || a == b

mutual
/-- A JSON value, as produced by `json.loads` on the request options and as
built for the backend-config dict in `_cache_key` (worker.py).  `jnum`
carries the repr bytes of a Python float; `jint` a Python int. -/
inductive JVal : Type where
  | jnull : JVal
  | jbool (b : Bool) : JVal
  | jint (n : Int) : JVal
  | jnum (r : List Nat) : JVal
  | jstr (s : List Nat) : JVal
  | jarr (xs : JList) : JVal
  | jobj (fs : JFields) : JVal
/-- A list of JSON values (payload of a JSON array). -/
inductive JList : Type where
  | nil : JList
  | cons (v : JVal) (tl : JList) : JList
/-- The fields of a JSON object, in insertion order. -/
inductive JFields : Type where
  | nil : JFields
  | cons (k : List Nat) (v : JVal) (tl : JFields) : JFields
end

deriving instance DecidableEq for JVal, JList, JFields

/-- Convert an association list into `JFields`. -/
def listToF : List (List Nat × JVal) → JFields
  | [] => .nil
  | (k, v) :: tl => .cons k v (listToF tl)

/-- Convert `JFields` into an association list. -/
def fToList : JFields → List (List Nat × JVal)
  | .nil => []
  | .cons k v tl => (k, v) :: fToList tl

/-- Key order on object fields: compare the key strings the way Python
compares `str` values. -/
def keyLe (a b : List Nat × JVal) : Prop := lexLeB a.1 b.1 = true

instance : DecidableRel keyLe := fun a b => decEq (lexLeB a.1 b.1) true

/-- Strict key order on object fields. -/
def keyLt (a b : List Nat × JVal) : Prop := lexLtB a.1 b.1 = true

instance : DecidableRel keyLt := fun a b => decEq (lexLtB a.1 b.1) true

/-- Sort object fields by key: the effect of `sort_keys=True`. -/
def sortFields (l : List (List Nat × JVal)) : List (List Nat × JVal) :=
  List.insertionSort keyLe l

mutual
/-- Canonicalize a JSON value: sort every object by key at every depth,
which is exactly what `json.dumps(..., sort_keys=True)` serializes. -/
def canon : JVal → JVal
  | .jnull => .jnull
  | .jbool b => .jbool b
  | .jint n => .jint n
  | .jnum r => .jnum r
  | .jstr s => .jstr s
  | .jarr xs => .jarr (canonL xs)
  | .jobj fs => .jobj (listToF (sortFields (fToList (canonF fs))))
termination_by structural v => v
/-- Canonicalize each value of a JSON array. -/
def canonL : JList → JList
  | .nil => .nil
  | .cons v tl => .cons (canon v) (canonL tl)
termination_by structural xs => xs
/-- Canonicalize each value of a JSON object, keeping field order. -/
def canonF : JFields → JFields
  | .nil => .nil
  | .cons k v tl => .cons k (canon v) (canonF tl)
termination_by structural fs => fs
end

/-- Lowercase-hex digit as an ASCII byte, as used by Python json escapes. -/
def hx (d : Nat) : Nat := if d < 10 then 48 + d else 87 + d

/-- Four lowercase hex digits of a number below 0x10000. -/
def hex4 (n : Nat) : List Nat :=
  [hx (n / 4096 % 16), hx (n / 256 % 16), hx (n / 16 % 16), hx (n % 16)]

/-- The bytes Python json (ensure_ascii=True) writes for one character of a
string: the printable ASCII range is written literally, the two-character
escapes mirror ESCAPE_DCT, everything else becomes a backslash-u escape,
with a surrogate pair for code points above 0xFFFF. -/
def escChar (c : Nat) : List Nat :=
  if c = 34 then [92, 34]
  else if c = 92 then [92, 92]
  else if c = 10 then [92, 110]
  else if c = 13 then [92, 114]
  else if c = 9 then [92, 116]
  else if c = 8 then [92, 98]
  else if c = 12 then [92, 102]
  else if c < 32 then 92 :: 117 :: hex4 c
  else if c < 127 then [c]
  else if c < 65536 then 92 :: 117 :: hex4 c
  else
    (92 :: 117 :: hex4 (55296 + (c - 65536) / 1024)) ++
      (92 :: 117 :: hex4 (56320 + (c - 65536) % 1024))

/-- JSON string-body escaping, character by character. -/
def escape : List Nat → List Nat
  | [] => []
  | c :: cs => escChar c ++ escape cs

/-- Little-endian decimal digit bytes of `n`, with `fuel` bounding the
recursion depth (any `fuel ≥ n` gives the full digit string). -/
def natReprAux : Nat → Nat → List Nat
  | 0, _ => []
  | fuel + 1, n => if n = 0 then [] else (48 + n % 10) :: natReprAux fuel (n / 10)

/-- Decimal ASCII digits of a natural number, most significant first. -/
def natRepr (n : Nat) : List Nat :=
  if n = 0 then [48] else (natReprAux n n).reverse

/-- Decimal ASCII bytes of a Python int, as json.dumps writes it. -/
def intRepr (n : Int) : List Nat :=
  if n < 0 then 45 :: natRepr n.natAbs else natRepr n.natAbs

mutual
/-- Serialize a canonicalized JSON value exactly as
`json.dumps(v, separators=(",", ":"), ensure_ascii=True)` does (no added
whitespace; object fields in list order). -/
def ser : JVal → List Nat
  | .jnull => [110, 117, 108, 108]
  | .jbool true => [116, 114, 117, 101]
  | .jbool false => [102, 97, 108, 115, 101]
  | .jint n => intRepr n
  | .jnum r => r
  | .jstr s => 34 :: (escape s ++ [34])
  | .jarr xs => 91 :: (serL xs ++ [93])
  | .jobj fs => 123 :: (serF fs ++ [125])
termination_by structural v => v
/-- Serialize array items, comma separated. -/
def serL : JList → List Nat
  | .nil => []
  | .cons v .nil => ser v
  | .cons v (.cons w tl) => ser v ++ (44 :: serL (.cons w tl))
termination_by structural xs => xs
/-- Serialize object fields, comma separated, each as quoted key, colon,
value. -/
def serF : JFields → List Nat
  | .nil => []
  | .cons k v .nil => (34 :: (escape k ++ [34, 58])) ++ ser v
  | .cons k v (.cons k2 v2 tl) =>
      (34 :: (escape k ++ [34, 58])) ++ ser v ++ (44 :: serF (.cons k2 v2 tl))
termination_by structural fs => fs
end

/-- Value of one lowercase-hex digit byte, the partial inverse of `hx`. -/
def unhex (x : Nat) : Option Nat :=
  if 48 ≤ x ∧ x ≤ 57 then some (x - 48)
  else if 97 ≤ x ∧ x ≤ 102 then some (x - 87)
  else none

/-- Value of four hex digit bytes, the partial inverse of `hex4`. -/
def unhex4 (a b c d : Nat) : Option Nat :=
  match unhex a, unhex b, unhex c, unhex d with
  | some w, some x, some y, some z => some (4096 * w + 256 * x + 16 * y + z)
  | _, _, _, _ => none

/-- One-token decoder for the json string escaping: reads the bytes of one
escaped character (including a surrogate pair) and returns the code point
with the remaining bytes.  Used only to prove `escape` injective. -/
def descape1 : List Nat → Option (Nat × List Nat)
  | [] => none
  | x :: rest =>
    if x ≠ 92 then some (x, rest)
    else
      match rest with
      | [] => none
      | y :: rest2 =>
        if y = 34 then some (34, rest2)
        else if y = 92 then some (92, rest2)
        else if y = 110 then some (10, rest2)
        else if y = 114 then some (13, rest2)
        else if y = 116 then some (9, rest2)
        else if y = 98 then some (8, rest2)
        else if y = 102 then some (12, rest2)
        else if y = 117 then
          match rest2 with
          | a :: b :: c :: d :: rest3 =>
            match unhex4 a b c d with
            | none => none
            | some n =>
              if 55296 ≤ n ∧ n ≤ 56319 then
                match rest3 with
                | 92 :: 117 :: e :: f :: g :: h :: rest4 =>
                  match unhex4 e f g h with
                  | none => none
                  | some m =>
                    if 56320 ≤ m ∧ m ≤ 57343 then
                      some (65536 + (n - 55296) * 1024 + (m - 56320), rest4)
                    else none
                | _ => none
              else some (n, rest3)
          | _ => none
        else none

/-- One-token UTF-8 decoder: reads the bytes of one encoded code point and
returns it with the remaining bytes.  Used only to prove `utf8`
injective. -/
def utf8d1 : List Nat → Option (Nat × List Nat)
  | [] => none
  | c :: rest =>
    if c < 128 then some (c, rest)
    else if c < 224 then
      match rest with
      | x :: rest2 => some ((c - 192) * 64 + (x - 128), rest2)
      | [] => none
    else if c < 240 then
      match rest with
      | x :: y :: rest2 => some ((c - 224) * 4096 + (x - 128) * 64 + (y - 128), rest2)
      | _ => none
    else
      match rest with
      | x :: y :: z :: rest2 =>
          some ((c - 240) * 262144 + (x - 128) * 4096 + (y - 128) * 64 + (z - 128), rest2)
      | _ => none

/-- Value of a little-endian decimal digit byte string, the inverse of
`natReprAux`.  Used only to prove `natRepr` injective. -/
def decodeRev : List Nat → Nat
  | [] => 0
  | d :: ds => (d - 48) + 10 * decodeRev ds

/-- All members are Unicode scalar values (no surrogates), as the code
points of a Python str always are. -/
def ValidCps (s : List Nat) : Prop :=
  ∀ c ∈ s, c < 55296 ∨ (57343 < c ∧ c < 1114112)

/-- Validity of an optional string setting. -/
def ValidCpsOpt : Option (List Nat) → Prop
  | some s => ValidCps s
  | none => True

/-- All members are below the Unicode code-point bound. -/
def ValidCodes (s : List Nat) : Prop := ∀ c ∈ s, c < 1114112

/-- Two JSON scalar values of the same shape, with valid string contents:
the shapes for which single-value serialization is injective. -/
def FlatPair : JVal → JVal → Prop
  | .jnull, .jnull => True
  | .jbool _, .jbool _ => True
  | .jint _, .jint _ => True
  | .jnum _, .jnum _ => True
  | .jstr a, .jstr b => ValidCps a ∧ ValidCps b
  | _, _ => False

/-- Byte-exact model of `json.dumps(v, sort_keys=True, separators=(",", ":"))`. -/
def dumps (v : JVal) : List Nat := ser (canon v)

/-- `dumps` of a JSON object given as an association list. -/
def dumpsObj (l : List (List Nat × JVal)) : List Nat := dumps (.jobj (listToF l))

/-- UTF-8 bytes of one code point. -/
def utf8Enc (c : Nat) : List Nat :=
  if c < 128 then [c]
  else if c < 2048 then [192 + c / 64, 128 + c % 64]
  else if c < 65536 then [224 + c / 4096, 128 + c / 64 % 64, 128 + c % 64]
  else [240 + c / 262144, 128 + c / 4096 % 64, 128 + c / 64 % 64, 128 + c % 64]

/-- UTF-8 encoding of a code-point string: Python `str.encode("utf-8")`. -/
def utf8 : List Nat → List Nat
  | [] => []
  | c :: cs => utf8Enc c ++ utf8 cs

/-- The configuration object of config.py (class Settings) restricted to the
fields the core reads.  String-valued fields are code-point strings;
`Path` fields are carried as their `str()` rendering; float fields are
carried as their Python repr bytes. -/
structure Settings where
  generator_backend : List Nat
  enable_cache : Bool
  video_fps : Int
  video_size : Int
  sadtalker_repo_dir : List Nat
  sadtalker_python : Option (List Nat)
  sadtalker_size : Int
  sadtalker_preprocess : List Nat
  sadtalker_enhancer : Option (List Nat)
  svd_model : List Nat
  svd_revision : Option (List Nat)
  svd_variant : Option (List Nat)
  svd_local_files_only : Bool
  svd_device : Option (List Nat)
  svd_dtype : List Nat
  svd_width : Int
  svd_height : Int
  svd_fps : Int
  svd_num_frames : Int
  svd_num_inference_steps : Int
  svd_motion_bucket_id : Int
  svd_noise_aug_strength : List Nat
  svd_min_guidance_scale : List Nat
  svd_max_guidance_scale : List Nat
  svd_decode_chunk_size : Int
  svd_seed : Option Int
  svd_enable_attention_slicing : Bool
  svd_enable_vae_slicing : Bool
  svd_enable_vae_tiling : Bool
  svd_enable_cpu_offload : Bool
  svd_extend_to_audio : Bool
  svd_extend_strategy : List Nat
  svd_auto_downscale : Bool
  svd_mps_max_pixels : Int
  svd_encode_crf : Int
  svd_enable_xformers : Bool
deriving DecidableEq

/-- An optional string setting as a JSON value (None becomes null). -/
def optStr : Option (List Nat) → JVal
  | some s => .jstr s
  | none => .jnull

/-- An optional int setting as a JSON value (None becomes null). -/
def optInt : Option Int → JVal
  | some n => .jint n
  | none => .jnull

/-- The `backend_cfg` dict built inside `_cache_key` (worker.py lines
29 to 66): the sadtalker fields for backend "sadtalker", the svd fields for
backend "svd", and the empty dict for every other backend, including
"mock". -/
def backend_cfg (s : Settings) : List (List Nat × JVal) :=
  if s.generator_backend = cp "sadtalker" then
    [ (cp "sadtalker_repo_dir", .jstr s.sadtalker_repo_dir),
      (cp "sadtalker_python", optStr s.sadtalker_python),
      (cp "sadtalker_size", .jint s.sadtalker_size),
      (cp "sadtalker_preprocess", .jstr s.sadtalker_preprocess),
      (cp "sadtalker_enhancer", optStr s.sadtalker_enhancer) ]
  else if s.generator_backend = cp "svd" then
    [ (cp "svd_model", .jstr s.svd_model),
      (cp "svd_revision", optStr s.svd_revision),
      (cp "svd_variant", optStr s.svd_variant),
      (cp "svd_local_files_only", .jbool s.svd_local_files_only),
      (cp "svd_device", optStr s.svd_device),
      (cp "svd_dtype", .jstr s.svd_dtype),
      (cp "svd_width", .jint s.svd_width),
      (cp "svd_height", .jint s.svd_height),
      (cp "svd_fps", .jint s.svd_fps),
      (cp "svd_num_frames", .jint s.svd_num_frames),
      (cp "svd_num_inference_steps", .jint s.svd_num_inference_steps),
      (cp "svd_motion_bucket_id", .jint s.svd_motion_bucket_id),
      (cp "svd_noise_aug_strength", .jnum s.svd_noise_aug_strength),
      (cp "svd_min_guidance_scale", .jnum s.svd_min_guidance_scale),
      (cp "svd_max_guidance_scale", .jnum s.svd_max_guidance_scale),
      (cp "svd_decode_chunk_size", .jint s.svd_decode_chunk_size),
      (cp "svd_seed", optInt s.svd_seed),
      (cp "svd_enable_attention_slicing", .jbool s.svd_enable_attention_slicing),
      (cp "svd_enable_vae_slicing", .jbool s.svd_enable_vae_slicing),
      (cp "svd_enable_vae_tiling", .jbool s.svd_enable_vae_tiling),
      (cp "svd_enable_cpu_offload", .jbool s.svd_enable_cpu_offload),
      (cp "svd_extend_to_audio", .jbool s.svd_extend_to_audio),
      (cp "svd_extend_strategy", .jstr s.svd_extend_strategy),
      (cp "svd_auto_downscale", .jbool s.svd_auto_downscale),
      (cp "svd_mps_max_pixels", .jint s.svd_mps_max_pixels) ]
  else []

/-- Byte-exact model of `_cache_key` (worker.py lines 23 to 74): the stream
of bytes fed to the SHA-256 hasher.  File contents appear as whole byte
strings (the source stream-hashes them in chunks, which feeds the same
bytes).  The digest is identified with this stream (collision-free model
of SHA-256), so digest equality is stream equality. -/
def cache_key (s : Settings) (imageBytes audioBytes : List Nat)
    (options : List (List Nat × JVal)) : List Nat :=
  (cp "avatar-video:v1" ++ [0]) ++ (cp "backend" ++ [0]) ++ utf8 s.generator_backend
    ++ (0 :: (cp "backend-config" ++ [0])) ++ dumpsObj (backend_cfg s)
    ++ (cp "image" ++ [0]) ++ imageBytes
    ++ (0 :: (cp "audio" ++ [0])) ++ audioBytes
    ++ (0 :: (cp "options" ++ [0])) ++ dumpsObj options

/-- The frame size the mock generator actually renders at
(mock_generator.py line 35): the video_size request option if present,
else the video_size settings default.  Witnesses that video_size is a
configuration field meaningful to the mock backend. -/
def mockEffectiveSize (s : Settings) (options : List (List Nat × JVal)) : Int :=
  match options.lookup (cp "video_size") with
  | some (.jint n) => n
  | _ => s.video_size

/-- The frame rate the mock generator actually renders at
(mock_generator.py line 36). -/
def mockEffectiveFps (s : Settings) (options : List (List Nat × JVal)) : Int :=
  match options.lookup (cp "video_fps") with
  | some (.jint n) => n
  | _ => s.video_fps

/-- Job status (models.py JobStatus). -/
inductive JobStatus : Type where
  | queued
  | running
  | succeeded
  | failed
deriving DecidableEq

/-- One in-memory job row (jobs.py Job dataclass), with the filesystem
state the worker reads fused in: the input files are carried as their byte
content (each job exclusively owns its upload paths), and `outputFile`
models the file at output_video_path (`none` = missing, `some n` = present
with size `n` bytes).  Timestamps are readings of a logical clock. -/
structure Job where
  status : JobStatus
  progress : ℚ
  message : Option String
  error : Option String
  createdAt : Nat
  updatedAt : Nat
  imageBytes : List Nat
  audioBytes : List Nat
  options : List (List Nat × JVal)
  outputFile : Option Nat
deriving DecidableEq

/-- The JobStore map, an association list from job id to row; the store
lock serializes all operations, so each operation is a pure function of
the map. -/
abbrev Registry := List (String × Job)

/-- Replace the row of `jobId` (present by assumption of use). -/
def replaceEntry : Registry → String → Job → Registry
  | [], _, _ => []
  | (k, v) :: tl, jobId, j =>
      if k = jobId then (k, j) :: tl else (k, v) :: replaceEntry tl jobId j

/-- JobStore.create (jobs.py lines 39 to 65): insert a fresh row with
status queued, progress 0.0, message "Queued", no error, and both
timestamps at the current clock reading. -/
def store_create (reg : Registry) (jobId : String) (imageBytes audioBytes : List Nat)
    (options : List (List Nat × JVal)) (now : Nat) : Job × Registry :=
  let job : Job :=
    { status := .queued, progress := 0, message := some "Queued", error := none,
      createdAt := now, updatedAt := now, imageBytes := imageBytes,
      audioBytes := audioBytes, options := options, outputFile := none }
  (job, (jobId, job) :: reg)

/-- JobStore.update (jobs.py lines 71 to 93): partial update under the
store lock.  An unknown id returns none and leaves the map untouched.  A
known id overwrites exactly the supplied fields, bumps updated_at to the
current clock reading, and leaves error in place when no error argument is
supplied (an error can be overwritten but never cleared). -/
def store_update (reg : Registry) (jobId : String) (status : Option JobStatus)
    (progress : Option ℚ) (message : Option String) (error : Option String)
    (now : Nat) : Option Job × Registry :=
  match reg.lookup jobId with
  | none => (none, reg)
  | some job =>
      let j : Job :=
        { job with
          status := status.getD job.status,
          progress := progress.getD job.progress,
          message := match message with | some m => some m | none => job.message,
          error := match error with | some e => some e | none => job.error,
          updatedAt := now }
      (some j, replaceEntry reg jobId j)

/-- The arguments of one job_store.update call issued by the worker loop
or by a progress callback. -/
structure UpdateCall where
  status : Option JobStatus
  progress : Option ℚ
  message : Option String
  error : Option String
deriving DecidableEq

/-- The observable behavior of one `generator.generate` invocation,
abstracting the external backend behind the dispatch contract of
pipeline/base.py: `genError` is the stringified raised exception (none for
a normal return), `callbacks` the progress_cb invocations it issued,
`outputFile` the state it leaves the output file in.  `storeFails` models
`shutil.copyfile` into the cache raising (worker.py line 118) and
`persistFails` models `persist_job_meta` raising in the finally block
(worker.py line 125, jobs.py lines 125 to 141). -/
structure GenBehavior where
  genError : Option String
  callbacks : List (ℚ × String)
  outputFile : Option Nat
  storeFails : Bool
  storeFailMsg : String
  persistFails : Bool
  persistFailMsg : String
deriving DecidableEq

/-- The artifact cache directory: association list from digest to the
size of the stored artifact file. -/
abbrev CacheDir := List (List Nat × Nat)

/-- The state threaded through the worker loop: the registry, the cache
directory, the ordered list of update calls applied so far (tagged with
the id they target), the ids for which `generate` was invoked, the
pending exception that escaped the loop body (none while the loop is
alive), and the logical clock. -/
structure WorkerState where
  reg : Registry
  cache : CacheDir
  log : List (String × UpdateCall)
  genInvoked : List String
  crashed : Option String
  clock : Nat
deriving DecidableEq

/-- The update call of worker.py line 92: mark the job running. -/
def runningCall : UpdateCall := ⟨some .running, some (1 / 100), some "Starting", none⟩

/-- The first update call of the cache-hit path (worker.py line 102). -/
def cacheHitCall : UpdateCall := ⟨none, some 1, some "Ready (cache hit)", none⟩

/-- The second update call of the cache-hit path (worker.py line 103). -/
def cacheHitSuccCall : UpdateCall := ⟨some .succeeded, none, none, none⟩

/-- The update call after a successful generation (worker.py line 119). -/
def readyCall : UpdateCall := ⟨some .succeeded, some 1, some "Ready", none⟩

/-- The update call of the exception handler (worker.py line 121). -/
def failedCall (e : String) : UpdateCall := ⟨some .failed, some 1, some "Failed", some e⟩

/-- The log entries contributed by a sequence of progress callbacks. -/
def cbEntries (jobId : String) (cbs : List (ℚ × String)) : List (String × UpdateCall) :=
  cbs.map (fun pm => (jobId, ⟨none, some pm.1, some pm.2, none⟩))

/-- The terminal update call of the generate path, as a function of the
generate outcome and the cache/store environment (worker.py lines
114 to 121). -/
def missTerminalCall (s : Settings) (gb : GenBehavior) : UpdateCall :=
  match gb.genError with
  | some e => failedCall e
  | none =>
    match s.enable_cache, gb.outputFile with
    | true, some _ => if gb.storeFails then failedCall gb.storeFailMsg else readyCall
    | _, _ => readyCall

/-- Apply one job_store.update call from the worker, logging it. -/
def applyUpdate (st : WorkerState) (jobId : String) (u : UpdateCall) : WorkerState :=
  { st with
    reg := (store_update st.reg jobId u.status u.progress u.message u.error st.clock).2,
    log := st.log ++ [(jobId, u)],
    clock := st.clock + 1 }

/-- Set the output-file state of the row of `jobId` (a filesystem write to
the path owned by that job, not a registry update). -/
def setOutputFile (st : WorkerState) (jobId : String) (sz : Option Nat) : WorkerState :=
  { st with
    reg := match st.reg.lookup jobId with
      | none => st.reg
      | some job => replaceEntry st.reg jobId { job with outputFile := sz } }

/-- Record that generate was invoked for a job id. -/
def markGenInvoked (st : WorkerState) (jobId : String) : WorkerState :=
  { st with genInvoked := st.genInvoked ++ [jobId] }

/-- Store an artifact of size `n` into the cache directory under `key`
(worker.py lines 114 to 118). -/
def cacheStore (st : WorkerState) (key : List Nat) (n : Nat) : WorkerState :=
  { st with cache := (key, n) :: st.cache }

/-- An exception escaped the loop body (persist failure in the finally
block): the worker loop terminates. -/
def noteCrash (st : WorkerState) (msg : String) : WorkerState :=
  { st with crashed := some msg }

/-- Apply the progress callbacks relayed into the registry by
progress_cb (worker.py lines 87 to 90): progress and message only, never
a status. -/
def applyCallbacks (st : WorkerState) (jobId : String) : List (ℚ × String) → WorkerState
  | [] => st
  | (p, m) :: rest => applyCallbacks (applyUpdate st jobId ⟨none, some p, some m, none⟩) jobId rest

/-- One pass of the worker loop body for a dequeued id (worker.py lines
82 to 125).  Fetch the job (skip silently if absent); mark it running;
with caching enabled compute the fingerprint and serve a nonempty cached
artifact by copying it to the output path and finishing succeeded without
invoking generate; otherwise invoke generate, then on normal return store
a present output into the cache (when enabled) and finish succeeded; any
exception raised in the try block finishes the job failed with progress
1.0, message "Failed" and the stringified cause; finally persist the
metadata snapshot, whose own exception escapes the loop (`crashed`). -/
def workerIter (s : Settings) (st : WorkerState) (jobId : String) (gb : GenBehavior) :
    WorkerState :=
  match st.reg.lookup jobId with
  | none => st
  | some job =>
    let st := applyUpdate st jobId runningCall
    let key := cache_key s job.imageBytes job.audioBytes job.options
    let cachedSize := st.cache.lookup key
    let st :=
      if s.enable_cache && (match cachedSize with | some n => decide (0 < n) | none => false) then
        let st := setOutputFile st jobId cachedSize
        let st := applyUpdate st jobId cacheHitCall
        applyUpdate st jobId cacheHitSuccCall
      else
        let st := markGenInvoked st jobId
        let st := applyCallbacks st jobId gb.callbacks
        let st := setOutputFile st jobId gb.outputFile
        match gb.genError with
        | some e => applyUpdate st jobId (failedCall e)
        | none =>
          match s.enable_cache, gb.outputFile with
          | true, some n =>
            if gb.storeFails then
              applyUpdate st jobId (failedCall gb.storeFailMsg)
            else
              applyUpdate (cacheStore st key n) jobId readyCall
          | _, _ => applyUpdate st jobId readyCall
    if gb.persistFails then noteCrash st gb.persistFailMsg else st

/-- The worker loop draining a queue of dequeued ids (worker.py lines 81
to 125): one job at a time, in FIFO order; an exception escaping the loop
body (a persist failure) terminates the loop, leaving the rest of the
queue unprocessed. -/
def runWorker (s : Settings) : List (String × GenBehavior) → WorkerState → WorkerState
  | [], st => st
  | (jobId, gb) :: rest, st =>
      match st.crashed with
      | some _ => st
      | none => runWorker s rest (workerIter s st jobId gb)

/-- Code points Python str.strip removes: ASCII whitespace and the most
common further Unicode whitespace (sufficient for backend-name
normalization; the full Unicode table adds only more such points). -/
def isPySpace (c : Nat) : Bool :=
  c = 32 || (9 ≤ c && c ≤ 13) || (28 ≤ c && c ≤ 31) || c = 133 || c = 160

/-- Python str.strip(): drop leading and trailing whitespace. -/
def pyStrip (s : List Nat) : List Nat :=
  ((s.dropWhile isPySpace).reverse.dropWhile isPySpace).reverse

/-- ASCII lowercasing of one code point (Python str.lower restricted to
ASCII; the recognized backend names are ASCII). -/
def asciiLower (c : Nat) : Nat := if 65 ≤ c ∧ c ≤ 90 then c + 32 else c

/-- Python str.lower() on a code-point string, ASCII range. -/
def pyLower (s : List Nat) : List Nat := s.map asciiLower

/-- The generator variants of pipeline/factory.py. -/
inductive GeneratorKind : Type where
  | mock
  | sadtalker
  | wav2lip
  | svdControlnet
deriving DecidableEq

/-- The name normalization in build_generator (factory.py line 11):
`(backend_name or "mock").strip().lower()` — an empty name falls back to
"mock" before trimming and lowercasing. -/
def normalizeBackendName (backendName : List Nat) : List Nat :=
  pyLower (pyStrip (if backendName = [] then cp "mock" else backendName))

/-- The name-to-variant table of build_generator (factory.py lines 12 to
20), applied to the already-normalized name. -/
def dispatch_generator (name : List Nat) : Except String GeneratorKind :=
  if name = cp "mock" then .ok .mock
  else if name = cp "sadtalker" then .ok .sadtalker
  else if name = cp "wav2lip" then .ok .wav2lip
  else if name = cp "svd" ∨ name = cp "svd+controlnet" ∨ name = cp "controlnet" then
    .ok .svdControlnet
  else .error "Unknown generator backend"

/-- build_generator (factory.py lines 10 to 20): pure dispatch from the
normalized backend name to a variant; any other name raises ValueError. -/
def build_generator (backendName : List Nat) : Except String GeneratorKind :=
  dispatch_generator (normalizeBackendName backendName)

/-- The recognized variant names of factory.py, as written in its
dispatch table. -/
def recognizedVariantNames : List (List Nat) :=
  [cp "mock", cp "sadtalker", cp "wav2lip", cp "svd", cp "svd+controlnet", cp "controlnet"]

/-- worker_loop entry (worker.py lines 77 to 78): the generator is built
from the configured backend name before the loop starts; a construction
error escapes worker_loop before any id is dequeued, otherwise the loop
drains the queue. -/
def worker_loop (s : Settings) (queue : List (String × GenBehavior)) (st : WorkerState) :
    Except String WorkerState :=
  match build_generator s.generator_backend with
  | .error e => .error e
  | .ok _ => .ok (runWorker s queue st)

/-- The raw options form field of a submission, as seen by _safe_options
(api.py lines 18 to 27): absent or empty, undecodable JSON, decodable but
not an object, or a JSON object. -/
inductive OptionsForm : Type where
  | absent
  | invalidJson
  | nonObject
  | obj (fields : List (List Nat × JVal))
deriving DecidableEq

/-- _safe_options (api.py lines 18 to 27). -/
def safe_options : OptionsForm → Except String (List (List Nat × JVal))
  | .absent => .ok []
  | .invalidJson => .error "Invalid options JSON"
  | .nonObject => .error "Options must be a JSON object"
  | .obj l => .ok l

/-- External collaborators of the audio-preparation path: whether ffmpeg
is on PATH, whether TTS synthesis raises, whether the ffmpeg conversion
subprocess exits nonzero. -/
structure TtsEnv where
  ffmpegAvailable : Bool
  ttsFails : Bool
  convertFails : Bool
deriving DecidableEq

/-- The final component of a slash-separated path. -/
def baseName (name : List Nat) : List Nat :=
  (name.reverse.takeWhile (fun c => c ≠ 47)).reverse

/-- The dot-extension of a path component: the part from the last dot,
empty when the dot is absent, leading, or trailing (pathlib rule). -/
def suffixOfBase (bn : List Nat) : List Nat :=
  let tail := bn.reverse.takeWhile (fun c => c ≠ 46)
  if tail.length = 0 then []
  else if tail.length + 1 < bn.length then 46 :: tail.reverse
  else []

/-- Python pathlib suffix of a path given as code points. -/
def pathSuffix (name : List Nat) : List Nat := suffixOfBase (baseName name)

/-- _maybe_convert_to_wav (tts_service.py lines 12 to 43): a path already
carrying a .wav suffix (case-insensitive) is returned as is; without
ffmpeg on PATH the ORIGINAL path is returned unconverted; otherwise ffmpeg
transcodes to the wav output path, and a nonzero exit raises. -/
def maybe_convert_to_wav (env : TtsEnv) (inputPath outputPath : List Nat) :
    Except String (List Nat) :=
  if pyLower (pathSuffix inputPath) = cp ".wav" then .ok inputPath
  else if env.ffmpegAvailable = false then .ok inputPath
  else if env.convertFails then .error "ffmpeg audio conversion failed"
  else .ok outputPath

/-- ensure_audio_for_request (tts_service.py lines 46 to 71): nonempty
text is synthesized to uploads/audio.wav (errors become a 500); otherwise
an uploaded audio file is saved under its own suffix (defaulting to .wav)
and passed through _maybe_convert_to_wav (errors become a 500); with
neither, a 400 is raised. -/
def ensure_audio_for_request (env : TtsEnv) (uploadsDir : List Nat)
    (text : Option (List Nat)) (audioFilename : Option (List Nat)) :
    Except String (List Nat) :=
  if text.getD [] ≠ [] then
    if env.ttsFails then .error "TTS failed"
    else .ok (uploadsDir ++ cp "/audio.wav")
  else
    match audioFilename with
    | some fn =>
      if fn ≠ [] then
        let sfx := pathSuffix fn
        let sfx := if sfx = [] then cp ".wav" else sfx
        let audioPath := uploadsDir ++ cp "/audio" ++ sfx
        match maybe_convert_to_wav env audioPath (uploadsDir ++ cp "/audio.wav") with
        | .ok p => .ok p
        | .error _ => .error "Audio preprocessing failed"
      else .error "Audio is required"
    | none => .error "Audio is required"

deriving instance DecidableEq for Except

/-- What the submission endpoint did: the response (job id or HTTP error
detail), whether a registry row was created, and whether an id was
enqueued. -/
structure SubmitResult where
  response : Except String String
  jobCreated : Bool
  enqueued : Bool
deriving DecidableEq

/-- create_job (api.py lines 31 to 81) in source order: require an image
filename; require exactly one of nonempty-after-strip text or an uploaded
audio file; parse options; save the image; prepare the audio (TTS or
save-and-convert); only then create the registry row and enqueue the id.
Every rejection happens before the row exists and before anything is
enqueued. -/
def create_job (env : TtsEnv) (uploadsDir : List Nat) (jobId : String)
    (imageFilename : Option (List Nat)) (text : Option (List Nat))
    (audioFilename : Option (List Nat)) (optionsRaw : OptionsForm) : SubmitResult :=
  if imageFilename.getD [] = [] then ⟨.error "Image file is required", false, false⟩
  else
    let has_text := decide (pyStrip (text.getD []) ≠ [])
    let has_audio := decide (audioFilename.getD [] ≠ [])
    if has_text = has_audio then ⟨.error "Provide exactly one of: text or audio", false, false⟩
    else
      match safe_options optionsRaw with
      | .error e => ⟨.error e, false, false⟩
      | .ok _ =>
        match ensure_audio_for_request env uploadsDir
            (if has_text then some (pyStrip (text.getD [])) else none)
            (if has_audio then audioFilename else none) with
        | .error e => ⟨.error e, false, false⟩
        | .ok _ => ⟨.ok jobId, true, true⟩

/-- The response of the result endpoint. -/
inductive ResultResp : Type where
  | notFound
  | notReady (st : JobStatus)
  | resultMissing
  | fileResp
deriving DecidableEq

/-- get_job_result (api.py lines 109 to 125): 404 for an unknown id, 409
"not ready" for any status other than succeeded, 500 "result file missing"
when the job succeeded but the output file is gone, and the file itself
when the job succeeded and the file exists. -/
def get_job_result (reg : Registry) (jobId : String) : ResultResp :=
  match reg.lookup jobId with
  | none => .notFound
  | some job =>
    if job.status ≠ .succeeded then .notReady job.status
    else if job.outputFile = none then .resultMissing
    else .fileResp

/-- The update calls the worker applied to one job id, in order. -/
def logFor (st : WorkerState) (jobId : String) : List UpdateCall :=
  (st.log.filter (fun e => e.1 = jobId)).map (fun e => e.2)

/-- The status values the worker wrote to one job id, in order (updates
that carry no status, such as progress callbacks, contribute nothing). -/
def statusTrace (st : WorkerState) (jobId : String) : List JobStatus :=
  (logFor st jobId).filterMap UpdateCall.status

/-- The default configuration of config.py with the mock backend, used as
a concrete configuration in witnesses. -/
def mockSettings : Settings :=
  { generator_backend := cp "mock", enable_cache := true, video_fps := 25, video_size := 512,
    sadtalker_repo_dir := cp "third_party/SadTalker", sadtalker_python := none,
    sadtalker_size := 256, sadtalker_preprocess := cp "crop", sadtalker_enhancer := none,
    svd_model := cp "stabilityai/stable-video-diffusion-img2vid-xt", svd_revision := none,
    svd_variant := some (cp "fp16"), svd_local_files_only := false, svd_device := none,
    svd_dtype := cp "auto", svd_width := 1024, svd_height := 576, svd_fps := 7,
    svd_num_frames := 14, svd_num_inference_steps := 25, svd_motion_bucket_id := 127,
    svd_noise_aug_strength := cp "0.02", svd_min_guidance_scale := cp "1.0",
    svd_max_guidance_scale := cp "3.0", svd_decode_chunk_size := 8, svd_seed := none,
    svd_enable_attention_slicing := true, svd_enable_vae_slicing := true,
    svd_enable_vae_tiling := false, svd_enable_cpu_offload := false,
    svd_extend_to_audio := true, svd_extend_strategy := cp "freeze",
    svd_auto_downscale := true, svd_mps_max_pixels := 147456, svd_encode_crf := 18,
    svd_enable_xformers := true }

/-- A generate invocation that returns normally, reports one callback,
and leaves a 10-byte output file; nothing fails. -/
def gbOk : GenBehavior :=
  { genError := none, callbacks := [(1 / 2, "halfway")], outputFile := some 10,
    storeFails := false, storeFailMsg := "", persistFails := false, persistFailMsg := "" }

/-- A two-job registry with identical submitted content, used as a
concrete scenario in witnesses. -/
def regAB : Registry :=
  (store_create (store_create [] "a" [1, 2] [3, 4] [] 0).2 "b" [1, 2] [3, 4] [] 0).2

/-- A fresh worker state over `regAB`. -/
def stAB : WorkerState :=
  { reg := regAB, cache := [], log := [], genInvoked := [], crashed := none, clock := 1 }

/-- A generation environment whose generate succeeds but whose
persist_job_meta call in the finally block raises (for instance the meta
file cannot be written). -/
def gbPersistFail : GenBehavior :=
  { genError := none, callbacks := [], outputFile := some 10, storeFails := false,
    storeFailMsg := "", persistFails := true, persistFailMsg := "disk full" }

/-- A generation environment whose generate call raises. -/
def gbGenErr : GenBehavior :=
  { genError := some "boom", callbacks := [], outputFile := none, storeFails := false,
    storeFailMsg := "", persistFails := false, persistFailMsg := "" }

/-- The default configuration with the mock generator defaults changed:
a different default frame size and frame rate for the still-image muxer
(config.py video_size / video_fps). -/
def mockSettingsAlt : Settings :=
  { mockSettings with video_size := 256, video_fps := 30 }

/-- A configuration with the sadtalker backend selected, parameterized by
the five sadtalker fields `_cache_key` hashes (worker.py lines 29 to 36);
every other field keeps the config.py default. -/
def sadS (rd : List Nat) (py : Option (List Nat)) (sz : Int) (pre : List Nat)
    (enh : Option (List Nat)) : Settings :=
  { mockSettings with
    generator_backend := cp "sadtalker",
    sadtalker_repo_dir := rd, sadtalker_python := py, sadtalker_size := sz,
    sadtalker_preprocess := pre, sadtalker_enhancer := enh }

/-- A configuration with the svd backend selected, parameterized by the
twenty-five svd fields `_cache_key` hashes (worker.py lines 37 to 64);
every other field keeps the config.py default. -/
def svdS (m : List Nat) (rev vr : Option (List Nat)) (lfo : Bool)
    (dev : Option (List Nat)) (dt : List Nat) (wd ht fps nf nis mbi : Int)
    (nas mings maxgs : List Nat) (dcs : Int) (sd : Option Int)
    (eas evs evt eco exa : Bool) (es : List Nat) (ad : Bool) (mmp : Int) : Settings :=
  { mockSettings with
    generator_backend := cp "svd",
    svd_model := m, svd_revision := rev, svd_variant := vr, svd_local_files_only := lfo,
    svd_device := dev, svd_dtype := dt, svd_width := wd, svd_height := ht, svd_fps := fps,
    svd_num_frames := nf, svd_num_inference_steps := nis, svd_motion_bucket_id := mbi,
    svd_noise_aug_strength := nas, svd_min_guidance_scale := mings,
    svd_max_guidance_scale := maxgs, svd_decode_chunk_size := dcs, svd_seed := sd,
    svd_enable_attention_slicing := eas, svd_enable_vae_slicing := evs,
    svd_enable_vae_tiling := evt, svd_enable_cpu_offload := eco,
    svd_extend_to_audio := exa, svd_extend_strategy := es, svd_auto_downscale := ad,
    svd_mps_max_pixels := mmp }

lemma lookup_replaceEntry_other (reg : Registry) (jobId other : String) (j : Job)
    (h : other ≠ jobId) : (replaceEntry reg jobId j).lookup other = reg.lookup other := by
  induction reg with
  | nil => rfl
  | cons e tl ih =>
    obtain ⟨k, v⟩ := e
    by_cases hk : k = jobId
    · subst hk
      have hne : (other == k) = false := by simp [h]
      simp [replaceEntry, List.lookup, hne]
    · simp only [replaceEntry, if_neg hk]
      by_cases ho : other = k
      · subst ho
        simp [List.lookup]
      · have hne : (other == k) = false := by simp [ho]
        simp [List.lookup, hne, ih]

lemma lookup_replaceEntry_self (reg : Registry) (jobId : String) (j j0 : Job)
    (h : reg.lookup jobId = some j0) :
    (replaceEntry reg jobId j).lookup jobId = some j := by
  induction reg with
  | nil => simp [List.lookup] at h
  | cons e tl ih =>
    obtain ⟨k, v⟩ := e
    by_cases hk : k = jobId
    · subst hk
      simp [replaceEntry, List.lookup]
    · have hne : (jobId == k) = false := by simp [Ne.symm hk]
      simp only [replaceEntry, if_neg hk]
      simp only [List.lookup, hne] at h ⊢
      exact ih h

/-- C8: a registry update with an unknown id returns none and leaves every
row unchanged; with a known id it changes exactly the supplied fields plus
updated_at (always set to the call-time clock), leaves all other fields
and all other rows unchanged, and never clears an error that was set. -/
theorem store_update_contract (reg : Registry) (jobId : String)
    (status : Option JobStatus) (progress : Option ℚ) (message error : Option String)
    (now : Nat) :
    (reg.lookup jobId = none →
      store_update reg jobId status progress message error now = (none, reg)) ∧
    (∀ job, reg.lookup jobId = some job →
      ∃ j, store_update reg jobId status progress message error now
            = (some j, replaceEntry reg jobId j)
        ∧ ((store_update reg jobId status progress message error now).2).lookup jobId = some j
        ∧ j.status = status.getD job.status
        ∧ j.progress = progress.getD job.progress
        ∧ j.message = (match message with | some m => some m | none => job.message)
        ∧ j.error = (match error with | some e => some e | none => job.error)
        ∧ j.updatedAt = now
        ∧ j.createdAt = job.createdAt
        ∧ j.imageBytes = job.imageBytes
        ∧ j.audioBytes = job.audioBytes
        ∧ j.options = job.options
        ∧ j.outputFile = job.outputFile
        ∧ (job.error.isSome → j.error.isSome)
        ∧ (∀ other, other ≠ jobId →
            ((store_update reg jobId status progress message error now).2).lookup other
              = reg.lookup other)) := by
  constructor
  · intro h
    simp [store_update, h]
  · intro job h
    simp only [store_update, h]
    refine ⟨_, rfl, ?_, rfl, rfl, rfl, rfl, rfl, rfl, rfl, rfl, rfl, rfl, ?_, ?_⟩
    · exact lookup_replaceEntry_self reg jobId _ job h
    · intro he
      cases error with
      | some e => rfl
      | none =>
        cases h0 : job.error with
        | some e0 => simp [h0]
        | none => simp [h0] at he
    · intro other ho
      exact lookup_replaceEntry_other reg jobId other _ ho

/-- Closed witness for the registry update contract: a concrete known-id
update changes the supplied fields, keeps the error, and leaves the other
row alone. -/
theorem store_update_contract_witness :
    ∃ j, store_update regAB "a" (some .failed) none none none 5
          = (some j, replaceEntry regAB "a" j)
      ∧ j.status = JobStatus.failed ∧ j.updatedAt = 5 := by
  obtain ⟨j, h1, _, h3, _, _, _, h7, _⟩ :=
    (store_update_contract regAB "a" (some .failed) none none none 5).2
      (store_create [] "a" [1, 2] [3, 4] [] 0).1 (by decide)
  exact ⟨j, h1, h3, h7⟩

/-- C9: result fetching for an existing job distinguishes three exclusive
outcomes: 409 not-ready exactly when the status is not succeeded, 500
result-missing exactly when the job succeeded but its output file is
absent, and the file response exactly when the job succeeded and the file
exists; the not-ready and missing failures are distinct responses. -/
theorem result_fetch_contract (reg : Registry) (jobId : String) (job : Job)
    (hjob : reg.lookup jobId = some job) :
    (get_job_result reg jobId = .notReady job.status ↔ job.status ≠ .succeeded)
    ∧ (get_job_result reg jobId = .resultMissing
        ↔ (job.status = .succeeded ∧ job.outputFile = none))
    ∧ (get_job_result reg jobId = .fileResp
        ↔ (job.status = .succeeded ∧ job.outputFile ≠ none))
    ∧ (∀ st, ResultResp.notReady st ≠ ResultResp.resultMissing) := by
  simp only [get_job_result, hjob]
  by_cases hs : job.status = .succeeded
  · by_cases hf : job.outputFile = none
    · simp [hs, hf]
    · simp [hs, hf]
  · simp [hs]

/-- Closed witness for the result-fetch contract: a running job is
reported not ready, not missing. -/
theorem result_fetch_contract_witness :
    get_job_result [("a", { (store_create [] "a" [] [] [] 0).1 with status := .running })] "a"
      = .notReady .running := by
  have h := (result_fetch_contract
    [("a", { (store_create [] "a" [] [] [] 0).1 with status := .running })] "a"
    { (store_create [] "a" [] [] [] 0).1 with status := .running } (by decide)).1
  exact h.mpr (by decide)

/-- C5: a submission where the presence of nonempty-after-strip text
coincides with the presence of an uploaded audio file (both present or
both absent) is rejected with a validation error, with no registry row
created and nothing enqueued. -/
theorem submission_exactly_one_speech_source (env : TtsEnv) (uploadsDir : List Nat)
    (jobId : String) (imageFilename text audioFilename : Option (List Nat))
    (optionsRaw : OptionsForm)
    (h : (pyStrip (text.getD []) ≠ []) ↔ (audioFilename.getD [] ≠ [])) :
    ∃ e, create_job env uploadsDir jobId imageFilename text audioFilename optionsRaw
      = ⟨.error e, false, false⟩ := by
  unfold create_job
  by_cases hi : imageFilename.getD [] = []
  · exact ⟨"Image file is required", by simp [hi]⟩
  · have hb : decide (pyStrip (text.getD []) ≠ []) = decide (audioFilename.getD [] ≠ []) :=
      decide_eq_decide.mpr h
    exact ⟨"Provide exactly one of: text or audio", by simp [hi, hb]⟩

/-- Closed witness for C5: supplying both text and audio is rejected
before job creation. -/
theorem submission_exactly_one_speech_source_witness :
    ∃ e, create_job ⟨true, false, false⟩ (cp "uploads/j") "j" (some (cp "face.png"))
      (some (cp "hello")) (some (cp "voice.wav")) .absent = ⟨.error e, false, false⟩ :=
  submission_exactly_one_speech_source ⟨true, false, false⟩ (cp "uploads/j") "j"
    (some (cp "face.png")) (some (cp "hello")) (some (cp "voice.wav")) .absent (by decide)

/-- C10: generator construction trims and lowercases the configured name,
and a missing or empty name silently falls back to the mock still-image
muxer instead of raising; both the empty string and " MOCK " select the
mock variant, and every name is dispatched purely through its normalized
form. -/
theorem backend_name_normalization_and_fallback :
    build_generator (cp "") = .ok .mock
    ∧ build_generator (cp " MOCK ") = .ok .mock
    ∧ (∀ name, build_generator name = dispatch_generator (normalizeBackendName name))
    ∧ normalizeBackendName (cp "") = cp "mock"
    ∧ normalizeBackendName (cp " MOCK ") = cp "mock" :=
  ⟨by decide, by decide, fun _ => rfl, by decide, by decide⟩

/-- C7 counterexample: the empty backend name is not one of the recognized
variant names, yet generator construction silently returns the mock
variant instead of raising a configuration error. -/
theorem empty_backend_name_builds_mock :
    cp "" ∉ recognizedVariantNames ∧ build_generator (cp "") = .ok .mock := by
  constructor
  · decide
  · decide

/-- C7 (amended): generator construction raises exactly for the names
whose normalization (empty falls back to "mock", then strip and
lowercase) is outside the recognized table; the error escapes worker_loop
before any id is dequeued, so no job ever reaches running under a bad
name; and construction is a pure function of the normalized name. -/
theorem unknown_backend_raises_at_config_time :
    (∀ name, (∃ e, build_generator name = .error e)
        ↔ normalizeBackendName name ∉ recognizedVariantNames)
    ∧ (∀ s queue st e, build_generator s.generator_backend = .error e →
        worker_loop s queue st = .error e)
    ∧ (∀ name1 name2, normalizeBackendName name1 = normalizeBackendName name2 →
        build_generator name1 = build_generator name2) := by
  refine ⟨?_, ?_, ?_⟩
  · intro name
    unfold build_generator dispatch_generator recognizedVariantNames
    set n := normalizeBackendName name with hn
    by_cases h1 : n = cp "mock"
    · simp +decide [h1]
    · by_cases h2 : n = cp "sadtalker"
      · simp +decide [h2]
      · by_cases h3 : n = cp "wav2lip"
        · simp +decide [h3]
        · by_cases h4 : n = cp "svd"
          · simp +decide [h4]
          · by_cases h5 : n = cp "svd+controlnet"
            · simp +decide [h5]
            · by_cases h6 : n = cp "controlnet"
              · simp +decide [h6]
              · simp [h1, h2, h3, h4, h5, h6]
  · intro s queue st e h
    simp [worker_loop, h]
  · intro name1 name2 h
    unfold build_generator
    rw [h]

/-- Closed witness for C7 (amended): an unrecognized backend name makes
worker_loop fail at construction, before any dequeue. -/
theorem unknown_backend_raises_witness :
    worker_loop { mockSettings with generator_backend := cp "bogus" } [("a", gbOk)] stAB
      = .error "Unknown generator backend" :=
  unknown_backend_raises_at_config_time.2.1
    { mockSettings with generator_backend := cp "bogus" } [("a", gbOk)] stAB
    "Unknown generator backend" (by decide)

lemma takeWhile_append_stop {p : Nat → Bool} (l r : List Nat) (a : Nat)
    (h : ∀ x ∈ l, p x = true) (ha : p a = false) :
    (l ++ a :: r).takeWhile p = l := by
  induction l with
  | nil => simp [List.takeWhile_cons, ha]
  | cons x xs ih =>
    have hx : p x = true := h x (by simp)
    simp only [List.cons_append, List.takeWhile_cons, hx]
    rw [ih (fun y hy => h y (by simp [hy]))]
    simp

lemma baseName_append (d bn : List Nat) (h : (47 : Nat) ∉ bn) :
    baseName (d ++ 47 :: bn) = bn := by
  unfold baseName
  rw [List.reverse_append, List.reverse_cons, List.append_assoc]
  simp only [List.singleton_append]
  rw [takeWhile_append_stop]
  · exact List.reverse_reverse bn
  · intro x hx
    have : x ∈ bn := List.mem_reverse.mp hx
    simp only [decide_eq_true_eq]
    intro he
    exact h (he ▸ this)
  · simp

lemma pathSuffix_dir_audio_wav (d : List Nat) :
    pathSuffix (d ++ cp "/audio.wav") = cp ".wav" := by
  have h : cp "/audio.wav" = 47 :: cp "audio.wav" := by decide
  unfold pathSuffix
  rw [h, baseName_append d (cp "audio.wav") (by decide)]
  decide

lemma maybe_convert_to_wav_ok (env : TtsEnv) (inp out p : List Nat)
    (hff : env.ffmpegAvailable = true)
    (h : maybe_convert_to_wav env inp out = .ok p) :
    (p = inp ∧ pyLower (pathSuffix inp) = cp ".wav") ∨ p = out := by
  unfold maybe_convert_to_wav at h
  split at h
  · next hc =>
    left
    simp only [Except.ok.injEq] at h
    exact ⟨h.symm, hc⟩
  · rw [hff, if_neg (by simp : ¬(true = false))] at h
    split at h
    · exact absurd h (by simp)
    · right
      simp only [Except.ok.injEq] at h
      exact h.symm

/-- C6 (amended): when ffmpeg is available on PATH, every audio path that
ensure_audio_for_request hands to the job carries a .wav suffix
(case-insensitively): synthesized text lands in audio.wav, wav-named
uploads pass through unchanged, and every other upload is transcoded into
audio.wav, with conversion failures surfacing as errors rather than as
non-WAV paths.  Without ffmpeg a non-WAV upload is returned unconverted,
as the counterexample shows, so the availability hypothesis is what the
code actually requires. -/
theorem audio_wav_normalization (env : TtsEnv) (uploadsDir : List Nat)
    (text audioFilename : Option (List Nat)) (p : List Nat)
    (hff : env.ffmpegAvailable = true)
    (hok : ensure_audio_for_request env uploadsDir text audioFilename = .ok p) :
    pyLower (pathSuffix p) = cp ".wav" := by
  unfold ensure_audio_for_request at hok
  split at hok
  · split at hok
    · exact absurd hok (by simp)
    · obtain rfl : uploadsDir ++ cp "/audio.wav" = p := by
        simpa using hok
      rw [pathSuffix_dir_audio_wav]
      decide
  · cases audioFilename with
    | none => exact absurd hok (by simp)
    | some fn =>
      simp only at hok
      split at hok
      · cases hmc : maybe_convert_to_wav env
            (uploadsDir ++ cp "/audio" ++ if pathSuffix fn = [] then cp ".wav" else pathSuffix fn)
            (uploadsDir ++ cp "/audio.wav") with
        | ok q =>
          rw [hmc] at hok
          simp only [Except.ok.injEq] at hok
          subst hok
          rcases maybe_convert_to_wav_ok env _ _ q hff hmc with ⟨rfl, hsfx⟩ | rfl
          · exact hsfx
          · rw [pathSuffix_dir_audio_wav]
            decide
        | error e =>
          rw [hmc] at hok
          exact absurd hok (by simp)
      · exact absurd hok (by simp)

/-- Closed witness for C6 (amended): with ffmpeg available, an .mp3 upload
yields the transcoded audio.wav path, whose suffix is .wav. -/
theorem audio_wav_normalization_witness :
    pyLower (pathSuffix (cp "uploads/j1/audio.wav")) = cp ".wav" :=
  audio_wav_normalization ⟨true, false, false⟩ (cp "uploads/j1") none
    (some (cp "voice.mp3")) (cp "uploads/j1/audio.wav") rfl (by decide)

lemma natReprAux_decode : ∀ fuel n, n ≤ fuel → decodeRev (natReprAux fuel n) = n := by
  intro fuel
  induction fuel with
  | zero =>
    intro n h
    interval_cases n
    rfl
  | succ f ih =>
    intro n h
    by_cases h0 : n = 0
    · subst h0
      simp [natReprAux, decodeRev]
    · have hlt : n / 10 ≤ f := by omega
      simp only [natReprAux, if_neg h0, decodeRev]
      rw [ih _ hlt]
      omega

lemma natReprAux_ne_nil (n : Nat) (h : n ≠ 0) : natReprAux n n ≠ [] := by
  cases n with
  | zero => exact absurd rfl h
  | succ m => simp [natReprAux]

lemma natReprAux_mem {fuel n x : Nat} (h : x ∈ natReprAux fuel n) : 48 ≤ x ∧ x ≤ 57 := by
  induction fuel generalizing n with
  | zero => simp [natReprAux] at h
  | succ f ih =>
    by_cases h0 : n = 0
    · simp [natReprAux, h0] at h
    · simp only [natReprAux, if_neg h0, List.mem_cons] at h
      rcases h with rfl | h
      · omega
      · exact ih h

lemma natRepr_inj {a b : Nat} (h : natRepr a = natRepr b) : a = b := by
  unfold natRepr at h
  by_cases ha : a = 0 <;> by_cases hb : b = 0
  · omega
  · rw [if_pos ha, if_neg hb] at h
    have h2 : natReprAux b b = [48] := by
      have := congrArg List.reverse h
      simpa using this.symm
    have hb0 := natReprAux_decode b b le_rfl
    rw [h2] at hb0
    simp [decodeRev] at hb0
    omega
  · rw [if_neg ha, if_pos hb] at h
    have h2 : natReprAux a a = [48] := by
      have := congrArg List.reverse h
      simpa using this
    have ha0 := natReprAux_decode a a le_rfl
    rw [h2] at ha0
    simp [decodeRev] at ha0
    omega
  · rw [if_neg ha, if_neg hb] at h
    have h2 : natReprAux a a = natReprAux b b := by
      have := congrArg List.reverse h
      simpa using this
    have hda := natReprAux_decode a a le_rfl
    rw [h2, natReprAux_decode b b le_rfl] at hda
    omega

lemma natRepr_head (n : Nat) : ∃ h t, natRepr n = h :: t ∧ 48 ≤ h ∧ h ≤ 57 := by
  unfold natRepr
  by_cases h0 : n = 0
  · exact ⟨48, [], by simp [h0], by omega, by omega⟩
  · cases hr : (natReprAux n n).reverse with
    | nil =>
      exact absurd (by simpa using congrArg List.reverse hr) (natReprAux_ne_nil n h0)
    | cons x t =>
      refine ⟨x, t, by simp [h0, hr], ?_, ?_⟩
      · have hx : x ∈ natReprAux n n := by
          rw [← List.mem_reverse, hr]
          simp
        exact (natReprAux_mem hx).1
      · have hx : x ∈ natReprAux n n := by
          rw [← List.mem_reverse, hr]
          simp
        exact (natReprAux_mem hx).2

lemma intRepr_inj {a b : Int} (h : intRepr a = intRepr b) : a = b := by
  unfold intRepr at h
  by_cases ha : a < 0 <;> by_cases hb : b < 0
  · rw [if_pos ha, if_pos hb] at h
    simp only [List.cons.injEq, true_and] at h
    have := natRepr_inj h
    omega
  · rw [if_pos ha, if_neg hb] at h
    obtain ⟨hd, t, ht, h1, h2⟩ := natRepr_head b.natAbs
    rw [ht] at h
    simp only [List.cons.injEq] at h
    omega
  · rw [if_neg ha, if_pos hb] at h
    obtain ⟨hd, t, ht, h1, h2⟩ := natRepr_head a.natAbs
    rw [ht] at h
    simp only [List.cons.injEq] at h
    omega
  · rw [if_neg ha, if_neg hb] at h
    have := natRepr_inj h
    omega

lemma intRepr_head (n : Int) : ∃ h t, intRepr n = h :: t ∧ 45 ≤ h ∧ h ≤ 57 := by
  unfold intRepr
  by_cases hn : n < 0
  · rw [if_pos hn]
    exact ⟨45, _, rfl, by omega, by omega⟩
  · rw [if_neg hn]
    obtain ⟨hd, t, ht, h1, h2⟩ := natRepr_head n.natAbs
    exact ⟨hd, t, ht, by omega, h2⟩

lemma unhex_hx {d : Nat} (h : d < 16) : unhex (hx d) = some d := by
  interval_cases d <;> rfl

lemma unhex4_hex4 {n : Nat} (h : n < 65536) :
    unhex4 (hx (n / 4096 % 16)) (hx (n / 256 % 16)) (hx (n / 16 % 16)) (hx (n % 16))
      = some n := by
  unfold unhex4
  rw [unhex_hx (by omega), unhex_hx (by omega), unhex_hx (by omega), unhex_hx (by omega)]
  show some (4096 * (n / 4096 % 16) + 256 * (n / 256 % 16) + 16 * (n / 16 % 16) + n % 16)
    = some n
  exact congrArg some (by omega)

lemma descape1_u (n : Nat) (t : List Nat) (hn : n < 65536)
    (hns : ¬(55296 ≤ n ∧ n ≤ 56319)) :
    descape1 (92 :: 117 :: (hex4 n ++ t)) = some (n, t) := by
  have hs : hex4 n ++ t
      = hx (n / 4096 % 16) :: hx (n / 256 % 16) :: hx (n / 16 % 16) :: hx (n % 16) :: t := by
    simp [hex4]
  rw [hs]
  simp only [descape1]
  norm_num
  rw [unhex4_hex4 hn]
  simp only [if_neg hns]

lemma descape1_surrogate (n m : Nat) (t : List Nat)
    (hn : 55296 ≤ n ∧ n ≤ 56319) (hm : 56320 ≤ m ∧ m ≤ 57343) :
    descape1 (92 :: 117 :: (hex4 n ++ (92 :: 117 :: (hex4 m ++ t))))
      = some (65536 + (n - 55296) * 1024 + (m - 56320), t) := by
  have hs : hex4 n ++ (92 :: 117 :: (hex4 m ++ t))
      = hx (n / 4096 % 16) :: hx (n / 256 % 16) :: hx (n / 16 % 16) :: hx (n % 16) ::
        92 :: 117 :: hx (m / 4096 % 16) :: hx (m / 256 % 16) :: hx (m / 16 % 16) ::
        hx (m % 16) :: t := by
    simp [hex4]
  rw [hs]
  simp only [descape1]
  norm_num
  rw [unhex4_hex4 (by omega : n < 65536)]
  simp only [if_pos hn]
  rw [unhex4_hex4 (by omega : m < 65536)]
  simp only [if_pos hm]

lemma descape1_escChar (c : Nat) (t : List Nat)
    (hv : c < 55296 ∨ (57343 < c ∧ c < 1114112)) :
    descape1 (escChar c ++ t) = some (c, t) := by
  unfold escChar
  by_cases h1 : c = 34
  · subst h1; rfl
  rw [if_neg h1]
  by_cases h2 : c = 92
  · subst h2; rfl
  rw [if_neg h2]
  by_cases h3 : c = 10
  · subst h3; rfl
  rw [if_neg h3]
  by_cases h4 : c = 13
  · subst h4; rfl
  rw [if_neg h4]
  by_cases h5 : c = 9
  · subst h5; rfl
  rw [if_neg h5]
  by_cases h6 : c = 8
  · subst h6; rfl
  rw [if_neg h6]
  by_cases h7 : c = 12
  · subst h7; rfl
  rw [if_neg h7]
  by_cases h8 : c < 32
  · rw [if_pos h8]
    exact descape1_u c t (by omega) (by omega)
  rw [if_neg h8]
  by_cases h9 : c < 127
  · rw [if_pos h9]
    have : ([c] ++ t) = c :: t := rfl
    rw [this]
    simp only [descape1]
    rw [if_pos (by omega : c ≠ 92)]
  rw [if_neg h9]
  by_cases h10 : c < 65536
  · rw [if_pos h10]
    exact descape1_u c t h10 (by omega)
  · rw [if_neg h10]
    have hsplit :
        (92 :: 117 :: hex4 (55296 + (c - 65536) / 1024)) ++
            (92 :: 117 :: hex4 (56320 + (c - 65536) % 1024)) ++ t
          = 92 :: 117 :: (hex4 (55296 + (c - 65536) / 1024) ++
              (92 :: 117 :: (hex4 (56320 + (c - 65536) % 1024) ++ t))) := by
      simp
    rw [hsplit, descape1_surrogate _ _ t (by omega) (by omega)]
    exact congrArg (fun k => some (k, t)) (by omega)

set_option maxHeartbeats 1000000 in
lemma escChar_ne_nil (c : Nat) : escChar c ≠ [] := by
  unfold escChar
  split_ifs <;> exact List.cons_ne_nil _ _

lemma escape_inj : ∀ {s1 s2 : List Nat}, ValidCps s1 → ValidCps s2 →
    escape s1 = escape s2 → s1 = s2 := by
  intro s1
  induction s1 with
  | nil =>
    intro s2 _ hv2 h
    cases s2 with
    | nil => rfl
    | cons c t =>
      exfalso
      have : escChar c ++ escape t = [] := h.symm
      exact escChar_ne_nil c (List.append_eq_nil.mp this).1
  | cons c1 t1 ih =>
    intro s2 hv1 hv2 h
    cases s2 with
    | nil =>
      exfalso
      have : escChar c1 ++ escape t1 = [] := h
      exact escChar_ne_nil c1 (List.append_eq_nil.mp this).1
    | cons c2 t2 =>
      have d1 := descape1_escChar c1 (escape t1) (hv1 c1 (by simp))
      have d2 := descape1_escChar c2 (escape t2) (hv2 c2 (by simp))
      have h0 : escChar c1 ++ escape t1 = escChar c2 ++ escape t2 := h
      rw [h0, d2] at d1
      simp only [Option.some.injEq, Prod.mk.injEq] at d1
      obtain ⟨rfl, he⟩ := d1
      have := ih (fun x hx => hv1 x (by simp [hx])) (fun x hx => hv2 x (by simp [hx])) he.symm
      rw [this]

lemma utf8d1_enc (c : Nat) (t : List Nat) (h : c < 1114112) :
    utf8d1 (utf8Enc c ++ t) = some (c, t) := by
  unfold utf8Enc
  by_cases h1 : c < 128
  · rw [if_pos h1]
    show utf8d1 (c :: t) = some (c, t)
    simp only [utf8d1]
    rw [if_pos h1]
  rw [if_neg h1]
  by_cases h2 : c < 2048
  · rw [if_pos h2]
    show utf8d1 ((192 + c / 64) :: (128 + c % 64) :: t) = some (c, t)
    simp only [utf8d1]
    rw [if_neg (by omega), if_pos (by omega)]
    exact congrArg (fun k => some (k, t)) (by omega)
  rw [if_neg h2]
  by_cases h3 : c < 65536
  · rw [if_pos h3]
    show utf8d1 ((224 + c / 4096) :: (128 + c / 64 % 64) :: (128 + c % 64) :: t)
      = some (c, t)
    simp only [utf8d1]
    rw [if_neg (by omega), if_neg (by omega), if_pos (by omega)]
    exact congrArg (fun k => some (k, t)) (by omega)
  · rw [if_neg h3]
    show utf8d1 ((240 + c / 262144) :: (128 + c / 4096 % 64) :: (128 + c / 64 % 64) ::
        (128 + c % 64) :: t) = some (c, t)
    simp only [utf8d1]
    rw [if_neg (by omega), if_neg (by omega), if_neg (by omega)]
    exact congrArg (fun k => some (k, t)) (by omega)

lemma utf8Enc_ne_nil (c : Nat) : utf8Enc c ≠ [] := by
  unfold utf8Enc
  split_ifs <;> exact List.cons_ne_nil _ _

lemma utf8_inj : ∀ {s1 s2 : List Nat}, ValidCodes s1 → ValidCodes s2 →
    utf8 s1 = utf8 s2 → s1 = s2 := by
  intro s1
  induction s1 with
  | nil =>
    intro s2 _ hv2 h
    cases s2 with
    | nil => rfl
    | cons c t =>
      exfalso
      have : utf8Enc c ++ utf8 t = [] := h.symm
      exact utf8Enc_ne_nil c (List.append_eq_nil.mp this).1
  | cons c1 t1 ih =>
    intro s2 hv1 hv2 h
    cases s2 with
    | nil =>
      exfalso
      have : utf8Enc c1 ++ utf8 t1 = [] := h
      exact utf8Enc_ne_nil c1 (List.append_eq_nil.mp this).1
    | cons c2 t2 =>
      have d1 := utf8d1_enc c1 (utf8 t1) (hv1 c1 (by simp))
      have d2 := utf8d1_enc c2 (utf8 t2) (hv2 c2 (by simp))
      have h0 : utf8Enc c1 ++ utf8 t1 = utf8Enc c2 ++ utf8 t2 := h
      rw [h0, d2] at d1
      simp only [Option.some.injEq, Prod.mk.injEq] at d1
      obtain ⟨rfl, he⟩ := d1
      have := ih (fun x hx => hv1 x (by simp [hx])) (fun x hx => hv2 x (by simp [hx])) he.symm
      rw [this]

lemma utf8_null_free {s : List Nat} (h : (0 : Nat) ∉ s) : (0 : Nat) ∉ utf8 s := by
  induction s with
  | nil => simp [utf8]
  | cons c cs ih =>
    have hc : c ≠ 0 := fun he => h (by simp [he])
    simp only [utf8, List.mem_append, not_or]
    refine ⟨?_, ih (fun hm => h (by simp [hm]))⟩
    unfold utf8Enc
    split_ifs <;> intro hm <;> simp only [List.mem_cons, List.not_mem_nil, or_false] at hm <;>
      omega

lemma append_null_inj : ∀ {a c b d : List Nat}, (0 : Nat) ∉ a → (0 : Nat) ∉ c →
    a ++ 0 :: b = c ++ 0 :: d → a = c ∧ b = d := by
  intro a
  induction a with
  | nil =>
    intro c b d _ hc h
    cases c with
    | nil => simpa using h
    | cons x xs =>
      exfalso
      simp only [List.nil_append, List.cons_append, List.cons.injEq] at h
      exact hc (by simp [← h.1])
  | cons x xs ih =>
    intro c b d ha hc h
    cases c with
    | nil =>
      exfalso
      simp only [List.cons_append, List.nil_append, List.cons.injEq] at h
      exact ha (by simp [h.1])
    | cons y ys =>
      simp only [List.cons_append, List.cons.injEq] at h
      obtain ⟨rfl, h2⟩ := h
      obtain ⟨h3, h4⟩ := ih (fun hm => ha (by simp [hm])) (fun hm => hc (by simp [hm])) h2
      exact ⟨by rw [h3], h4⟩

lemma lexLtB_asymm : ∀ a b : List Nat, lexLtB a b = true → lexLtB b a = true → False := by
  intro a
  induction a with
  | nil =>
    intro b h1 h2
    cases b <;> simp [lexLtB] at h1 h2
  | cons x xs ih =>
    intro b h1 h2
    cases b with
    | nil => simp [lexLtB] at h1
    | cons y ys =>
      simp only [lexLtB, Bool.or_eq_true, Bool.and_eq_true, beq_iff_eq,
        decide_eq_true_eq] at h1 h2
      rcases h1 with h1 | ⟨e1, r1⟩ <;> rcases h2 with h2 | ⟨e2, r2⟩
      · omega
      · omega
      · omega
      · exact ih ys r1 r2

lemma lexLtB_trans : ∀ a b c : List Nat, lexLtB a b = true → lexLtB b c = true →
    lexLtB a c = true := by
  intro a
  induction a with
  | nil =>
    intro b c h1 h2
    cases b with
    | nil => simp [lexLtB] at h1
    | cons y ys =>
      cases c with
      | nil => simp [lexLtB] at h2
      | cons z zs => simp [lexLtB]
  | cons x xs ih =>
    intro b c h1 h2
    cases b with
    | nil => simp [lexLtB] at h1
    | cons y ys =>
      cases c with
      | nil => simp [lexLtB] at h2
      | cons z zs =>
        simp only [lexLtB, Bool.or_eq_true, Bool.and_eq_true, beq_iff_eq,
          decide_eq_true_eq] at h1 h2 ⊢
        rcases h1 with h1 | ⟨e1, r1⟩ <;> rcases h2 with h2 | ⟨e2, r2⟩
        · left; omega
        · left; omega
        · left; omega
        · right; exact ⟨by omega, ih ys zs r1 r2⟩

lemma lexLtB_irrefl : ∀ a : List Nat, lexLtB a a = false := by
  intro a
  induction a with
  | nil => rfl
  | cons x xs ih => simp [lexLtB, ih]

lemma lexLeB_cons_same (x : Nat) (xs ys : List Nat) :
    lexLeB (x :: xs) (x :: ys) = lexLeB xs ys := by
  simp [lexLeB, lexLtB]

lemma lexLeB_total : ∀ a b : List Nat, lexLeB a b = true ∨ lexLeB b a = true := by
  intro a
  induction a with
  | nil =>
    intro b
    cases b <;> simp [lexLeB, lexLtB]
  | cons x xs ih =>
    intro b
    cases b with
    | nil => right; simp [lexLeB, lexLtB]
    | cons y ys =>
      rcases Nat.lt_trichotomy x y with h | h | h
      · left; simp [lexLeB, lexLtB, h]
      · subst h
        rw [lexLeB_cons_same, lexLeB_cons_same]
        exact ih ys
      · right; simp [lexLeB, lexLtB, h]

lemma lexLeB_trans (a b c : List Nat) (h1 : lexLeB a b = true) (h2 : lexLeB b c = true) :
    lexLeB a c = true := by
  simp only [lexLeB, Bool.or_eq_true, beq_iff_eq] at h1 h2 ⊢
  rcases h1 with h1 | rfl <;> rcases h2 with h2 | rfl
  · left; exact lexLtB_trans _ _ _ h1 h2
  · left; exact h1
  · left; exact h2
  · right; rfl

lemma lexLtB_of_le_ne {a b : List Nat} (h : lexLeB a b = true) (hne : a ≠ b) :
    lexLtB a b = true := by
  simp only [lexLeB, Bool.or_eq_true, beq_iff_eq] at h
  rcases h with h | rfl
  · exact h
  · exact absurd rfl hne

instance : IsTotal (List Nat × JVal) keyLe := ⟨fun a b => lexLeB_total a.1 b.1⟩

instance : IsTrans (List Nat × JVal) keyLe := ⟨fun a b c => lexLeB_trans a.1 b.1 c.1⟩

instance : IsAntisymm (List Nat × JVal) keyLt :=
  ⟨fun a b h1 h2 => (lexLtB_asymm a.1 b.1 h1 h2).elim⟩

lemma sortFields_perm (l : List (List Nat × JVal)) : List.Perm (sortFields l) l :=
  List.perm_insertionSort _ _

lemma sortFields_sorted (l : List (List Nat × JVal)) : (sortFields l).Sorted keyLe :=
  List.sorted_insertionSort _ _

lemma sorted_strict_of_nodup : ∀ {l : List (List Nat × JVal)}, l.Sorted keyLe →
    (l.map Prod.fst).Nodup → l.Sorted keyLt := by
  intro l
  induction l with
  | nil => simp
  | cons e tl ih =>
    intro hs hn
    rw [List.sorted_cons] at hs ⊢
    simp only [List.map_cons, List.nodup_cons] at hn
    refine ⟨?_, ih hs.2 hn.2⟩
    intro b hb
    apply lexLtB_of_le_ne (hs.1 b hb)
    intro he
    exact hn.1 (he ▸ List.mem_map_of_mem Prod.fst hb)

lemma nodup_keys_of_strict {l : List (List Nat × JVal)} (hs : l.Sorted keyLt) :
    (l.map Prod.fst).Nodup := by
  rw [List.Nodup, List.pairwise_map]
  refine hs.imp ?_
  intro a b h he
  rw [keyLt, he] at h
  rw [lexLtB_irrefl] at h
  exact Bool.false_ne_true h

lemma nodup_keys_perm {l1 l2 : List (List Nat × JVal)} (h : List.Perm l1 l2)
    (hn : (l1.map Prod.fst).Nodup) : (l2.map Prod.fst).Nodup :=
  ((h.map Prod.fst).nodup_iff).mp hn

lemma sortFields_eq_of_perm {l1 l2 : List (List Nat × JVal)} (hp : List.Perm l1 l2)
    (hn : (l1.map Prod.fst).Nodup) : sortFields l1 = sortFields l2 := by
  refine @List.eq_of_perm_of_sorted _ keyLt _ _ _
    ((sortFields_perm l1).trans (hp.trans (sortFields_perm l2).symm)) ?_ ?_
  · exact sorted_strict_of_nodup (sortFields_sorted l1)
      (nodup_keys_perm (sortFields_perm l1).symm hn)
  · exact sorted_strict_of_nodup (sortFields_sorted l2)
      (nodup_keys_perm (sortFields_perm l2).symm (nodup_keys_perm hp hn))

lemma sortFields_eq_self {l : List (List Nat × JVal)} (hs : l.Sorted keyLt) :
    sortFields l = l := by
  refine @List.eq_of_perm_of_sorted _ keyLt _ _ _ (sortFields_perm l) ?_ hs
  exact sorted_strict_of_nodup (sortFields_sorted l)
    (nodup_keys_perm (sortFields_perm l).symm (nodup_keys_of_strict hs))

lemma fToList_listToF : ∀ l : List (List Nat × JVal), fToList (listToF l) = l := by
  intro l
  induction l with
  | nil => rfl
  | cons e tl ih =>
    obtain ⟨k, v⟩ := e
    simp [listToF, fToList, ih]

lemma canonF_listToF : ∀ l : List (List Nat × JVal),
    canonF (listToF l) = listToF (l.map (fun e => (e.1, canon e.2))) := by
  intro l
  induction l with
  | nil => rfl
  | cons e tl ih =>
    obtain ⟨k, v⟩ := e
    simp [listToF, canonF, ih]

lemma dumpsObj_eq (l : List (List Nat × JVal)) :
    dumpsObj l
      = 123 :: (serF (listToF (sortFields (l.map (fun e => (e.1, canon e.2))))) ++ [125]) := by
  unfold dumpsObj dumps
  rw [show canon (.jobj (listToF l))
      = .jobj (listToF (sortFields (fToList (canonF (listToF l))))) from rfl]
  rw [canonF_listToF, fToList_listToF]
  rfl

lemma map_fst_canonE (l : List (List Nat × JVal)) :
    (l.map (fun e => (e.1, canon e.2))).map Prod.fst = l.map Prod.fst := by
  induction l with
  | nil => rfl
  | cons e tl ih => simp [ih]

lemma dumpsObj_perm {l1 l2 : List (List Nat × JVal)} (hp : List.Perm l1 l2)
    (hn : (l1.map Prod.fst).Nodup) : dumpsObj l1 = dumpsObj l2 := by
  rw [dumpsObj_eq, dumpsObj_eq]
  have h1 : ((l1.map (fun e => (e.1, canon e.2))).map Prod.fst).Nodup := by
    rw [map_fst_canonE]
    exact hn
  rw [sortFields_eq_of_perm (hp.map _) h1]

lemma append_mid_cancel {A B x y : List Nat} (h : A ++ (x ++ B) = A ++ (y ++ B)) : x = y :=
  List.append_cancel_right (List.append_cancel_left h)

lemma applyUpdate_cache (st : WorkerState) (jobId : String) (u : UpdateCall) :
    (applyUpdate st jobId u).cache = st.cache := rfl

lemma applyUpdate_genInvoked (st : WorkerState) (jobId : String) (u : UpdateCall) :
    (applyUpdate st jobId u).genInvoked = st.genInvoked := rfl

lemma applyUpdate_crashed (st : WorkerState) (jobId : String) (u : UpdateCall) :
    (applyUpdate st jobId u).crashed = st.crashed := rfl

lemma applyUpdate_log (st : WorkerState) (jobId : String) (u : UpdateCall) :
    (applyUpdate st jobId u).log = st.log ++ [(jobId, u)] := rfl

lemma applyUpdate_reg_other (st : WorkerState) (jobId other : String) (u : UpdateCall)
    (h : other ≠ jobId) :
    (applyUpdate st jobId u).reg.lookup other = st.reg.lookup other := by
  simp only [applyUpdate, store_update]
  cases hl : st.reg.lookup jobId with
  | none => rfl
  | some j => exact lookup_replaceEntry_other _ _ _ _ h

lemma applyUpdate_reg_self (st : WorkerState) (jobId : String) (u : UpdateCall) (j : Job)
    (hl : st.reg.lookup jobId = some j) :
    ∃ j2, (applyUpdate st jobId u).reg.lookup jobId = some j2
      ∧ j2.status = u.status.getD j.status
      ∧ j2.progress = u.progress.getD j.progress
      ∧ j2.message = (match u.message with | some m => some m | none => j.message)
      ∧ j2.error = (match u.error with | some e => some e | none => j.error)
      ∧ j2.outputFile = j.outputFile
      ∧ j2.imageBytes = j.imageBytes
      ∧ j2.audioBytes = j.audioBytes
      ∧ j2.options = j.options := by
  simp only [applyUpdate, store_update, hl]
  exact ⟨_, lookup_replaceEntry_self _ _ _ _ hl, rfl, rfl, rfl, rfl, rfl, rfl, rfl, rfl⟩

lemma setOutputFile_cache (st : WorkerState) (jobId : String) (sz : Option Nat) :
    (setOutputFile st jobId sz).cache = st.cache := rfl

lemma setOutputFile_genInvoked (st : WorkerState) (jobId : String) (sz : Option Nat) :
    (setOutputFile st jobId sz).genInvoked = st.genInvoked := rfl

lemma setOutputFile_crashed (st : WorkerState) (jobId : String) (sz : Option Nat) :
    (setOutputFile st jobId sz).crashed = st.crashed := rfl

lemma setOutputFile_log (st : WorkerState) (jobId : String) (sz : Option Nat) :
    (setOutputFile st jobId sz).log = st.log := rfl

lemma setOutputFile_clock (st : WorkerState) (jobId : String) (sz : Option Nat) :
    (setOutputFile st jobId sz).clock = st.clock := rfl

lemma setOutputFile_reg_other (st : WorkerState) (jobId other : String) (sz : Option Nat)
    (h : other ≠ jobId) :
    (setOutputFile st jobId sz).reg.lookup other = st.reg.lookup other := by
  simp only [setOutputFile]
  cases hl : st.reg.lookup jobId with
  | none => rfl
  | some j => exact lookup_replaceEntry_other _ _ _ _ h

lemma setOutputFile_reg_self (st : WorkerState) (jobId : String) (sz : Option Nat) (j : Job)
    (hl : st.reg.lookup jobId = some j) :
    (setOutputFile st jobId sz).reg.lookup jobId = some { j with outputFile := sz } := by
  simp only [setOutputFile, hl]
  exact lookup_replaceEntry_self _ _ _ _ hl

lemma markGenInvoked_cache (st : WorkerState) (jobId : String) :
    (markGenInvoked st jobId).cache = st.cache := rfl

lemma markGenInvoked_crashed (st : WorkerState) (jobId : String) :
    (markGenInvoked st jobId).crashed = st.crashed := rfl

lemma markGenInvoked_log (st : WorkerState) (jobId : String) :
    (markGenInvoked st jobId).log = st.log := rfl

lemma markGenInvoked_reg (st : WorkerState) (jobId : String) :
    (markGenInvoked st jobId).reg = st.reg := rfl

lemma markGenInvoked_genInvoked (st : WorkerState) (jobId : String) :
    (markGenInvoked st jobId).genInvoked = st.genInvoked ++ [jobId] := rfl

lemma cacheStore_reg (st : WorkerState) (key : List Nat) (n : Nat) :
    (cacheStore st key n).reg = st.reg := rfl

lemma cacheStore_log (st : WorkerState) (key : List Nat) (n : Nat) :
    (cacheStore st key n).log = st.log := rfl

lemma cacheStore_genInvoked (st : WorkerState) (key : List Nat) (n : Nat) :
    (cacheStore st key n).genInvoked = st.genInvoked := rfl

lemma cacheStore_crashed (st : WorkerState) (key : List Nat) (n : Nat) :
    (cacheStore st key n).crashed = st.crashed := rfl

lemma cacheStore_cache (st : WorkerState) (key : List Nat) (n : Nat) :
    (cacheStore st key n).cache = (key, n) :: st.cache := rfl

lemma noteCrash_cache (st : WorkerState) (msg : String) :
    (noteCrash st msg).cache = st.cache := rfl

lemma noteCrash_log (st : WorkerState) (msg : String) :
    (noteCrash st msg).log = st.log := rfl

lemma noteCrash_genInvoked (st : WorkerState) (msg : String) :
    (noteCrash st msg).genInvoked = st.genInvoked := rfl

lemma noteCrash_reg (st : WorkerState) (msg : String) :
    (noteCrash st msg).reg = st.reg := rfl

lemma noteCrash_crashed (st : WorkerState) (msg : String) :
    (noteCrash st msg).crashed = some msg := rfl

lemma applyCallbacks_facts : ∀ (cbs : List (ℚ × String)) (st : WorkerState) (jobId : String),
    (applyCallbacks st jobId cbs).cache = st.cache
    ∧ (applyCallbacks st jobId cbs).genInvoked = st.genInvoked
    ∧ (applyCallbacks st jobId cbs).crashed = st.crashed
    ∧ (applyCallbacks st jobId cbs).log = st.log ++ cbEntries jobId cbs
    ∧ (∀ other, other ≠ jobId →
        (applyCallbacks st jobId cbs).reg.lookup other = st.reg.lookup other)
    ∧ (∀ j, st.reg.lookup jobId = some j →
        ∃ j2, (applyCallbacks st jobId cbs).reg.lookup jobId = some j2
          ∧ j2.status = j.status ∧ j2.error = j.error ∧ j2.outputFile = j.outputFile
          ∧ j2.imageBytes = j.imageBytes ∧ j2.audioBytes = j.audioBytes
          ∧ j2.options = j.options) := by
  intro cbs
  induction cbs with
  | nil =>
    intro st jobId
    refine ⟨rfl, rfl, rfl, by simp [applyCallbacks, cbEntries], fun other _ => rfl, ?_⟩
    intro j hl
    exact ⟨j, hl, rfl, rfl, rfl, rfl, rfl, rfl⟩
  | cons pm rest ih =>
    intro st jobId
    obtain ⟨p, m⟩ := pm
    have hstep := ih (applyUpdate st jobId ⟨none, some p, some m, none⟩) jobId
    refine ⟨?_, ?_, ?_, ?_, ?_, ?_⟩
    · rw [show applyCallbacks st jobId ((p, m) :: rest)
          = applyCallbacks (applyUpdate st jobId ⟨none, some p, some m, none⟩) jobId rest
          from rfl]
      rw [hstep.1, applyUpdate_cache]
    · rw [show applyCallbacks st jobId ((p, m) :: rest)
          = applyCallbacks (applyUpdate st jobId ⟨none, some p, some m, none⟩) jobId rest
          from rfl]
      rw [hstep.2.1, applyUpdate_genInvoked]
    · rw [show applyCallbacks st jobId ((p, m) :: rest)
          = applyCallbacks (applyUpdate st jobId ⟨none, some p, some m, none⟩) jobId rest
          from rfl]
      rw [hstep.2.2.1, applyUpdate_crashed]
    · rw [show applyCallbacks st jobId ((p, m) :: rest)
          = applyCallbacks (applyUpdate st jobId ⟨none, some p, some m, none⟩) jobId rest
          from rfl]
      rw [hstep.2.2.2.1, applyUpdate_log]
      simp [cbEntries]
    · intro other ho
      rw [show applyCallbacks st jobId ((p, m) :: rest)
          = applyCallbacks (applyUpdate st jobId ⟨none, some p, some m, none⟩) jobId rest
          from rfl]
      rw [hstep.2.2.2.2.1 other ho, applyUpdate_reg_other _ _ _ _ ho]
    · intro j hl
      rw [show applyCallbacks st jobId ((p, m) :: rest)
          = applyCallbacks (applyUpdate st jobId ⟨none, some p, some m, none⟩) jobId rest
          from rfl]
      obtain ⟨j1, hj1, hs1, hp1, hm1, he1, ho1, hi1, ha1, hop1⟩ :=
        applyUpdate_reg_self st jobId ⟨none, some p, some m, none⟩ j hl
      obtain ⟨j2, hj2, hs2, he2, hof2, hi2, ha2, hop2⟩ := hstep.2.2.2.2.2 j1 hj1
      exact ⟨j2, hj2, by rw [hs2]; exact hs1.trans rfl, by rw [he2]; exact he1.trans rfl,
        by rw [hof2, ho1], by rw [hi2, hi1], by rw [ha2, ha1], by rw [hop2, hop1]⟩

lemma workerIter_absent (s : Settings) (st : WorkerState) (jobId : String) (gb : GenBehavior)
    (hl : st.reg.lookup jobId = none) : workerIter s st jobId gb = st := by
  unfold workerIter
  rw [hl]

lemma workerIter_hit (s : Settings) (st : WorkerState) (jobId : String) (gb : GenBehavior)
    (j : Job) (n : Nat)
    (hl : st.reg.lookup jobId = some j)
    (hc : s.enable_cache = true)
    (hk : st.cache.lookup (cache_key s j.imageBytes j.audioBytes j.options) = some n)
    (hn : 0 < n) :
    (workerIter s st jobId gb).cache = st.cache
    ∧ (workerIter s st jobId gb).genInvoked = st.genInvoked
    ∧ (workerIter s st jobId gb).log
        = st.log ++ [(jobId, runningCall), (jobId, cacheHitCall), (jobId, cacheHitSuccCall)]
    ∧ (workerIter s st jobId gb).crashed
        = (if gb.persistFails then some gb.persistFailMsg else st.crashed)
    ∧ (∃ j2, (workerIter s st jobId gb).reg.lookup jobId = some j2
        ∧ j2.status = .succeeded ∧ j2.progress = 1 ∧ j2.outputFile = some n)
    ∧ (∀ other, other ≠ jobId →
        (workerIter s st jobId gb).reg.lookup other = st.reg.lookup other) := by
  have hbody : workerIter s st jobId gb
      = (if gb.persistFails then
          noteCrash (applyUpdate (applyUpdate (setOutputFile (applyUpdate st jobId runningCall)
              jobId (some n)) jobId cacheHitCall) jobId cacheHitSuccCall) gb.persistFailMsg
        else
          applyUpdate (applyUpdate (setOutputFile (applyUpdate st jobId runningCall) jobId
              (some n)) jobId cacheHitCall) jobId cacheHitSuccCall) := by
    unfold workerIter
    rw [hl]
    simp only [applyUpdate_cache, hk, hc, decide_eq_true hn, Bool.and_self, if_true]
  set st1 := applyUpdate st jobId runningCall with hst1
  set st2 := setOutputFile st1 jobId (some n) with hst2
  set st3 := applyUpdate st2 jobId cacheHitCall with hst3
  set st4 := applyUpdate st3 jobId cacheHitSuccCall with hst4
  have hcache : st4.cache = st.cache := by
    rw [hst4, hst3, hst2, hst1, applyUpdate_cache, applyUpdate_cache, setOutputFile_cache,
      applyUpdate_cache]
  have hgen : st4.genInvoked = st.genInvoked := by
    rw [hst4, hst3, hst2, hst1, applyUpdate_genInvoked, applyUpdate_genInvoked,
      setOutputFile_genInvoked, applyUpdate_genInvoked]
  have hlog : st4.log
      = st.log ++ [(jobId, runningCall), (jobId, cacheHitCall), (jobId, cacheHitSuccCall)] := by
    rw [hst4, applyUpdate_log, hst3, applyUpdate_log, hst2, setOutputFile_log, hst1,
      applyUpdate_log]
    simp
  have hcrash : st4.crashed = st.crashed := by
    rw [hst4, hst3, hst2, hst1, applyUpdate_crashed, applyUpdate_crashed,
      setOutputFile_crashed, applyUpdate_crashed]
  have hself : ∃ j2, st4.reg.lookup jobId = some j2
      ∧ j2.status = .succeeded ∧ j2.progress = 1 ∧ j2.outputFile = some n := by
    obtain ⟨j1, hj1, _, _, _, _, ho1, _, _, _⟩ :=
      applyUpdate_reg_self st jobId runningCall j hl
    have hj2 := setOutputFile_reg_self st1 jobId (some n) j1 hj1
    obtain ⟨j3, hj3, hs3, hp3, _, _, ho3, _, _, _⟩ :=
      applyUpdate_reg_self st2 jobId cacheHitCall _ hj2
    obtain ⟨j4, hj4, hs4, hp4, _, _, ho4, _, _, _⟩ :=
      applyUpdate_reg_self st3 jobId cacheHitSuccCall _ hj3
    refine ⟨j4, hj4, ?_, ?_, ?_⟩
    · rw [hs4, hs3]
      rfl
    · rw [hp4, hp3]
      rfl
    · rw [ho4, ho3]
  have hother : ∀ other, other ≠ jobId → st4.reg.lookup other = st.reg.lookup other := by
    intro other ho
    rw [hst4, applyUpdate_reg_other _ _ _ _ ho, hst3, applyUpdate_reg_other _ _ _ _ ho,
      hst2, setOutputFile_reg_other _ _ _ _ ho, hst1, applyUpdate_reg_other _ _ _ _ ho]
  cases hpf : gb.persistFails with
  | true =>
    rw [hbody, if_pos hpf]
    exact ⟨hcache, hgen, hlog, by simp [noteCrash_crashed], hself, hother⟩
  | false =>
    rw [hbody, if_neg (by simp [hpf])]
    exact ⟨hcache, hgen, hlog, by simp [hcrash], hself, hother⟩

lemma workerIter_miss (s : Settings) (st : WorkerState) (jobId : String) (gb : GenBehavior)
    (j : Job)
    (hl : st.reg.lookup jobId = some j)
    (hmiss : (s.enable_cache &&
        (match st.cache.lookup (cache_key s j.imageBytes j.audioBytes j.options) with
         | some n => decide (0 < n)
         | none => false)) = false) :
    (workerIter s st jobId gb).genInvoked = st.genInvoked ++ [jobId]
    ∧ (workerIter s st jobId gb).log
        = st.log ++ [(jobId, runningCall)] ++ cbEntries jobId gb.callbacks
          ++ [(jobId, missTerminalCall s gb)]
    ∧ (workerIter s st jobId gb).crashed
        = (if gb.persistFails then some gb.persistFailMsg else st.crashed)
    ∧ (workerIter s st jobId gb).cache
        = (match gb.genError, s.enable_cache, gb.outputFile, gb.storeFails with
           | none, true, some n, false =>
              (cache_key s j.imageBytes j.audioBytes j.options, n) :: st.cache
           | _, _, _, _ => st.cache)
    ∧ (∃ j2, (workerIter s st jobId gb).reg.lookup jobId = some j2
        ∧ j2.status = (missTerminalCall s gb).status.getD .running
        ∧ j2.error = (match (missTerminalCall s gb).error with
            | some e => some e
            | none => j.error)
        ∧ j2.outputFile = gb.outputFile)
    ∧ (∀ other, other ≠ jobId →
        (workerIter s st jobId gb).reg.lookup other = st.reg.lookup other) := by
  have hbody : workerIter s st jobId gb
      = (let st4 := setOutputFile (applyCallbacks (markGenInvoked
           (applyUpdate st jobId runningCall) jobId) jobId gb.callbacks) jobId gb.outputFile
         let st5 :=
           match gb.genError with
           | some e => applyUpdate st4 jobId (failedCall e)
           | none =>
             match s.enable_cache, gb.outputFile with
             | true, some n =>
               if gb.storeFails then applyUpdate st4 jobId (failedCall gb.storeFailMsg)
               else
                 applyUpdate
                   (cacheStore st4 (cache_key s j.imageBytes j.audioBytes j.options) n)
                   jobId readyCall
             | _, _ => applyUpdate st4 jobId readyCall
         if gb.persistFails then noteCrash st5 gb.persistFailMsg else st5) := by
    unfold workerIter
    rw [hl]
    simp only [applyUpdate_cache]
    rw [hmiss]
    simp only [Bool.false_eq_true, if_false]
  rw [hbody]
  clear hbody
  simp only []
  set st4 := setOutputFile (applyCallbacks (markGenInvoked
    (applyUpdate st jobId runningCall) jobId) jobId gb.callbacks) jobId gb.outputFile with hst4
  have hcb := applyCallbacks_facts gb.callbacks
    (markGenInvoked (applyUpdate st jobId runningCall) jobId) jobId
  have h4cache : st4.cache = st.cache := by
    rw [hst4, setOutputFile_cache, hcb.1, markGenInvoked_cache, applyUpdate_cache]
  have h4gen : st4.genInvoked = st.genInvoked ++ [jobId] := by
    rw [hst4, setOutputFile_genInvoked, hcb.2.1, markGenInvoked_genInvoked,
      applyUpdate_genInvoked]
  have h4crash : st4.crashed = st.crashed := by
    rw [hst4, setOutputFile_crashed, hcb.2.2.1, markGenInvoked_crashed, applyUpdate_crashed]
  have h4log : st4.log = st.log ++ [(jobId, runningCall)] ++ cbEntries jobId gb.callbacks := by
    rw [hst4, setOutputFile_log, hcb.2.2.2.1, markGenInvoked_log, applyUpdate_log]
  have h4other : ∀ other, other ≠ jobId → st4.reg.lookup other = st.reg.lookup other := by
    intro other ho
    rw [hst4, setOutputFile_reg_other _ _ _ _ ho, hcb.2.2.2.2.1 other ho, markGenInvoked_reg,
      applyUpdate_reg_other _ _ _ _ ho]
  have h4self : ∃ j4, st4.reg.lookup jobId = some j4 ∧ j4.outputFile = gb.outputFile
      ∧ j4.error = j.error := by
    obtain ⟨j1, hj1, _, _, _, he1, _, _, _, _⟩ := applyUpdate_reg_self st jobId runningCall j hl
    have hj1b : (markGenInvoked (applyUpdate st jobId runningCall) jobId).reg.lookup jobId
        = some j1 := by rw [markGenInvoked_reg]; exact hj1
    obtain ⟨j2, hj2, _, he2, _, _, _, _⟩ := hcb.2.2.2.2.2 j1 hj1b
    refine ⟨_, setOutputFile_reg_self _ jobId gb.outputFile j2 hj2, rfl, ?_⟩
    show j2.error = j.error
    rw [he2]
    exact he1.trans rfl
  obtain ⟨j4, hj4, hof4, herr4⟩ := h4self
  have hterm : ∀ (stx : WorkerState) (call : UpdateCall),
      stx.reg = st4.reg →
      (∃ j5, (applyUpdate stx jobId call).reg.lookup jobId = some j5
        ∧ j5.status = call.status.getD j4.status
        ∧ j5.error = (match call.error with | some e => some e | none => j.error)
        ∧ j5.outputFile = gb.outputFile)
      ∧ (∀ other, other ≠ jobId →
          (applyUpdate stx jobId call).reg.lookup other = stx.reg.lookup other) := by
    intro stx call hregs
    obtain ⟨j5, hj5, hs5, _, _, he5, hof5, _, _, _⟩ :=
      applyUpdate_reg_self stx jobId call j4 (by rw [hregs, hj4])
    refine ⟨⟨j5, hj5, hs5, ?_, by rw [hof5, hof4]⟩,
      fun other ho => applyUpdate_reg_other _ _ _ _ ho⟩
    rw [he5, herr4]
  have hstatus_some : ∀ x, (missTerminalCall s gb).status = x → x.isSome = true := by
    intro x hx
    revert hx
    unfold missTerminalCall
    cases gb.genError <;> cases s.enable_cache <;> cases gb.outputFile <;> intro hx <;>
      revert hx <;> (try split_ifs) <;> intro hx <;> rw [← hx] <;> rfl
  have hfin : ∀ (stx : WorkerState) (call : UpdateCall),
        stx.reg = st4.reg → stx.genInvoked = st4.genInvoked →
        stx.log = st4.log → stx.crashed = st4.crashed →
        missTerminalCall s gb = call →
        ((if gb.persistFails then noteCrash (applyUpdate stx jobId call) gb.persistFailMsg
          else applyUpdate stx jobId call).genInvoked = st.genInvoked ++ [jobId]
        ∧ (if gb.persistFails then noteCrash (applyUpdate stx jobId call) gb.persistFailMsg
          else applyUpdate stx jobId call).log
            = st.log ++ [(jobId, runningCall)] ++ cbEntries jobId gb.callbacks
              ++ [(jobId, missTerminalCall s gb)]
        ∧ (if gb.persistFails then noteCrash (applyUpdate stx jobId call) gb.persistFailMsg
          else applyUpdate stx jobId call).crashed
            = (if gb.persistFails then some gb.persistFailMsg else st.crashed)
        ∧ (if gb.persistFails then noteCrash (applyUpdate stx jobId call) gb.persistFailMsg
          else applyUpdate stx jobId call).cache = stx.cache
        ∧ (∃ j2, (if gb.persistFails then
              noteCrash (applyUpdate stx jobId call) gb.persistFailMsg
            else applyUpdate stx jobId call).reg.lookup jobId = some j2
            ∧ j2.status = (missTerminalCall s gb).status.getD .running
            ∧ j2.error = (match (missTerminalCall s gb).error with
                | some e => some e
                | none => j.error)
            ∧ j2.outputFile = gb.outputFile)
        ∧ (∀ other, other ≠ jobId →
            (if gb.persistFails then noteCrash (applyUpdate stx jobId call) gb.persistFailMsg
              else applyUpdate stx jobId call).reg.lookup other = st.reg.lookup other)) := by
      intro stx call hr hgi hlg hcr hmt
      obtain ⟨⟨j5, hj5, hs5, he5, hof5⟩, hothers⟩ := hterm stx call hr
      have hstat : j5.status = (missTerminalCall s gb).status.getD .running := by
        rw [hs5, ← hmt]
        cases hmc : (missTerminalCall s gb).status with
        | none =>
          have := hstatus_some none hmc
          simp at this
        | some x => rfl
      have herr : j5.error = (match (missTerminalCall s gb).error with
          | some e => some e | none => j.error) := by
        rw [he5, ← hmt]
      by_cases hpf : gb.persistFails = true
      · simp only [if_pos hpf]
        refine ⟨?_, ?_, ?_, ?_, ⟨j5, ?_, hstat, herr, hof5⟩, ?_⟩
        · rw [noteCrash_genInvoked, applyUpdate_genInvoked, hgi, h4gen]
        · rw [noteCrash_log, applyUpdate_log, hlg, h4log, hmt]
        · rw [noteCrash_crashed]
        · rw [noteCrash_cache, applyUpdate_cache]
        · rw [noteCrash_reg]
          exact hj5
        · intro other ho
          rw [noteCrash_reg, hothers other ho, hr, h4other other ho]
      · simp only [if_neg hpf]
        refine ⟨?_, ?_, ?_, ?_, ⟨j5, hj5, hstat, herr, hof5⟩, ?_⟩
        · rw [applyUpdate_genInvoked, hgi, h4gen]
        · rw [applyUpdate_log, hlg, h4log, hmt]
        · rw [applyUpdate_crashed, hcr, h4crash]
        · rw [applyUpdate_cache]
        · intro other ho
          rw [hothers other ho, hr, h4other other ho]
  cases hge : gb.genError with
  | some e =>
    have hcall : missTerminalCall s gb = failedCall e := by
      unfold missTerminalCall
      rw [hge]
    obtain ⟨c1, c2, c3, c4, c5, c6⟩ := hfin st4 (failedCall e) rfl rfl rfl rfl hcall
    exact ⟨c1, c2, c3, c4.trans h4cache, c5, c6⟩
  | none =>
    cases hec : s.enable_cache with
    | false =>
      have hcall : missTerminalCall s gb = readyCall := by
        unfold missTerminalCall
        rw [hge, hec]
      obtain ⟨c1, c2, c3, c4, c5, c6⟩ := hfin st4 readyCall rfl rfl rfl rfl hcall
      exact ⟨c1, c2, c3, c4.trans h4cache, c5, c6⟩
    | true =>
      cases hof : gb.outputFile with
      | none =>
        have hcall : missTerminalCall s gb = readyCall := by
          unfold missTerminalCall
          rw [hge, hec, hof]
        obtain ⟨c1, c2, c3, c4, c5, c6⟩ := hfin st4 readyCall rfl rfl rfl rfl hcall
        rw [hof] at c5
        exact ⟨c1, c2, c3, c4.trans h4cache, c5, c6⟩
      | some n =>
        cases hsf : gb.storeFails with
        | true =>
          have hcall : missTerminalCall s gb = failedCall gb.storeFailMsg := by
            unfold missTerminalCall
            rw [hge, hec, hof, if_pos hsf]
          obtain ⟨c1, c2, c3, c4, c5, c6⟩ :=
            hfin st4 (failedCall gb.storeFailMsg) rfl rfl rfl rfl hcall
          rw [hof] at c5
          exact ⟨c1, c2, c3, c4.trans h4cache, c5, c6⟩
        | false =>
          have hcall : missTerminalCall s gb = readyCall := by
            unfold missTerminalCall
            rw [hge, hec, hof, if_neg (by simp [hsf])]
          obtain ⟨c1, c2, c3, c4, c5, c6⟩ := hfin
            (cacheStore st4 (cache_key s j.imageBytes j.audioBytes j.options) n) readyCall
            (cacheStore_reg _ _ _) (cacheStore_genInvoked _ _ _) (cacheStore_log _ _ _)
            (cacheStore_crashed _ _ _) hcall
          rw [hof] at c5
          exact ⟨c1, c2, c3,
            c4.trans (by rw [cacheStore_cache, h4cache]), c5, c6⟩

lemma logFor_eq (st : WorkerState) (jobId : String) :
    logFor st jobId = (st.log.filter (fun e => e.1 = jobId)).map Prod.snd := rfl

lemma logFor_of_log_append (st st2 : WorkerState) (jobId : String)
    (entries : List (String × UpdateCall))
    (hlog : st2.log = st.log ++ entries) (htag : ∀ e ∈ entries, e.1 = jobId) :
    logFor st2 jobId = logFor st jobId ++ entries.map Prod.snd := by
  rw [logFor_eq, logFor_eq, hlog, List.filter_append, List.map_append]
  congr 1
  congr 1
  apply List.filter_eq_self.mpr
  intro e he
  simp [htag e he]

lemma logFor_of_log_append_other (st st2 : WorkerState) (jobId other : String)
    (entries : List (String × UpdateCall))
    (hlog : st2.log = st.log ++ entries) (htag : ∀ e ∈ entries, e.1 = jobId)
    (h : other ≠ jobId) :
    logFor st2 other = logFor st other := by
  rw [logFor_eq, logFor_eq, hlog, List.filter_append]
  have : entries.filter (fun e => e.1 = other) = [] := by
    apply List.filter_eq_nil.mpr
    intro e he
    simp [htag e he, Ne.symm h]
  rw [this, List.append_nil]

lemma cbEntries_tag (jobId : String) (cbs : List (ℚ × String)) :
    ∀ e ∈ cbEntries jobId cbs, e.1 = jobId := by
  intro e he
  simp only [cbEntries, List.mem_map] at he
  obtain ⟨pm, _, rfl⟩ := he
  rfl

lemma cbEntries_statuses (jobId : String) (cbs : List (ℚ × String)) :
    ((cbEntries jobId cbs).map Prod.snd).filterMap UpdateCall.status = [] := by
  induction cbs with
  | nil => rfl
  | cons pm rest ih => simpa [cbEntries, List.filterMap] using ih

lemma missTerminalCall_status (s : Settings) (gb : GenBehavior) :
    (missTerminalCall s gb).status = some .failed
    ∨ (missTerminalCall s gb).status = some .succeeded := by
  unfold missTerminalCall
  cases gb.genError <;> cases s.enable_cache <;> cases gb.outputFile <;>
    (try split_ifs) <;> simp [failedCall, readyCall]

lemma workerIter_hit_cond (s : Settings) (st : WorkerState) (jobId : String)
    (gb : GenBehavior) (j : Job)
    (hl : st.reg.lookup jobId = some j)
    (hcond : (s.enable_cache &&
        (match st.cache.lookup (cache_key s j.imageBytes j.audioBytes j.options) with
         | some n => decide (0 < n)
         | none => false)) = true) :
    ∃ n, s.enable_cache = true
      ∧ st.cache.lookup (cache_key s j.imageBytes j.audioBytes j.options) = some n
      ∧ 0 < n := by
  rcases Bool.and_eq_true_iff.mp hcond with ⟨h1, h2⟩
  cases hm : st.cache.lookup (cache_key s j.imageBytes j.audioBytes j.options) with
  | none => rw [hm] at h2; simp at h2
  | some n =>
    rw [hm] at h2
    simp only [decide_eq_true_eq] at h2
    exact ⟨n, h1, rfl, h2⟩

lemma workerIter_frame (s : Settings) (st : WorkerState) (jobId other : String)
    (gb : GenBehavior) (h : other ≠ jobId) :
    (workerIter s st jobId gb).reg.lookup other = st.reg.lookup other
    ∧ logFor (workerIter s st jobId gb) other = logFor st other
    ∧ (other ∈ (workerIter s st jobId gb).genInvoked ↔ other ∈ st.genInvoked) := by
  cases hl : st.reg.lookup jobId with
  | none => rw [workerIter_absent s st jobId gb hl]; exact ⟨rfl, rfl, Iff.rfl⟩
  | some j =>
    cases hcond : (s.enable_cache &&
        (match st.cache.lookup (cache_key s j.imageBytes j.audioBytes j.options) with
         | some n => decide (0 < n)
         | none => false)) with
    | true =>
      obtain ⟨n, hc, hk, hn⟩ := workerIter_hit_cond s st jobId gb j hl hcond
      obtain ⟨_, hgen, hlog, _, _, hother⟩ := workerIter_hit s st jobId gb j n hl hc hk hn
      refine ⟨hother other h, ?_, by rw [hgen]⟩
      exact logFor_of_log_append_other st _ jobId other _ hlog (by
        intro e he
        simp only [List.mem_cons, List.mem_singleton] at he
        rcases he with rfl | rfl | rfl | he
        · rfl
        · rfl
        · rfl
        · simp at he) h
    | false =>
      obtain ⟨hgen, hlog, _, _, _, hother⟩ := workerIter_miss s st jobId gb j hl hcond
      refine ⟨hother other h, ?_, ?_⟩
      · refine logFor_of_log_append_other st _ jobId other
          ([(jobId, runningCall)] ++ cbEntries jobId gb.callbacks
            ++ [(jobId, missTerminalCall s gb)]) ?_ ?_ h
        · rw [hlog]
          simp
        · intro e he
          rcases List.mem_append.mp he with h12 | h3
          · rcases List.mem_append.mp h12 with h1 | h2
            · rw [List.mem_singleton] at h1
              rw [h1]
            · exact cbEntries_tag jobId gb.callbacks e h2
          · rw [List.mem_singleton] at h3
            rw [h3]
      · rw [hgen]
        simp [h]

lemma workerIter_crashed_of_no_persist (s : Settings) (st : WorkerState) (jobId : String)
    (gb : GenBehavior) (hpf : gb.persistFails = false) :
    (workerIter s st jobId gb).crashed = st.crashed := by
  cases hl : st.reg.lookup jobId with
  | none => rw [workerIter_absent s st jobId gb hl]
  | some j =>
    cases hcond : (s.enable_cache &&
        (match st.cache.lookup (cache_key s j.imageBytes j.audioBytes j.options) with
         | some n => decide (0 < n)
         | none => false)) with
    | true =>
      obtain ⟨n, hc, hk, hn⟩ := workerIter_hit_cond s st jobId gb j hl hcond
      obtain ⟨_, _, _, hcr, _, _⟩ := workerIter_hit s st jobId gb j n hl hc hk hn
      rw [hcr, hpf]
      simp
    | false =>
      obtain ⟨_, _, hcr, _, _, _⟩ := workerIter_miss s st jobId gb j hl hcond
      rw [hcr, hpf]
      simp

lemma runWorker_stopped (s : Settings) (queue : List (String × GenBehavior))
    (st : WorkerState) (m : String) (h : st.crashed = some m) :
    runWorker s queue st = st := by
  cases queue with
  | nil => rfl
  | cons e rest =>
    obtain ⟨jobId, gb⟩ := e
    unfold runWorker
    rw [h]

lemma runWorker_cons (s : Settings) (jobId : String) (gb : GenBehavior)
    (rest : List (String × GenBehavior)) (st : WorkerState) (h : st.crashed = none) :
    runWorker s ((jobId, gb) :: rest) st = runWorker s rest (workerIter s st jobId gb) := by
  show (match st.crashed with
    | some _ => st
    | none => runWorker s rest (workerIter s st jobId gb)) = _
  rw [h]

lemma runWorker_append (s : Settings) : ∀ (q1 q2 : List (String × GenBehavior))
    (st : WorkerState), runWorker s (q1 ++ q2) st = runWorker s q2 (runWorker s q1 st) := by
  intro q1
  induction q1 with
  | nil => intro q2 st; rfl
  | cons e rest ih =>
    intro q2 st
    obtain ⟨jobId, gb⟩ := e
    cases hcr : st.crashed with
    | some m =>
      rw [runWorker_stopped s _ st m hcr, runWorker_stopped s _ st m hcr,
        runWorker_stopped s _ st m hcr]
    | none =>
      rw [List.cons_append, runWorker_cons s jobId gb _ st hcr,
        runWorker_cons s jobId gb _ st hcr, ih]

lemma runWorker_frame (s : Settings) : ∀ (queue : List (String × GenBehavior))
    (st : WorkerState) (other : String), other ∉ queue.map Prod.fst →
    (runWorker s queue st).reg.lookup other = st.reg.lookup other
    ∧ logFor (runWorker s queue st) other = logFor st other
    ∧ (other ∈ (runWorker s queue st).genInvoked ↔ other ∈ st.genInvoked) := by
  intro queue
  induction queue with
  | nil => intro st other _; exact ⟨rfl, rfl, Iff.rfl⟩
  | cons e rest ih =>
    intro st other hne
    obtain ⟨jobId, gb⟩ := e
    simp only [List.map_cons, List.mem_cons, not_or] at hne
    cases hcr : st.crashed with
    | some m => rw [runWorker_stopped s _ st m hcr]; exact ⟨rfl, rfl, Iff.rfl⟩
    | none =>
      rw [runWorker_cons s jobId gb rest st hcr]
      obtain ⟨f1, f2, f3⟩ := workerIter_frame s st jobId other gb hne.1
      obtain ⟨g1, g2, g3⟩ := ih (workerIter s st jobId gb) other hne.2
      exact ⟨g1.trans f1, g2.trans f2, g3.trans f3⟩

lemma runWorker_no_crash (s : Settings) : ∀ (queue : List (String × GenBehavior))
    (st : WorkerState), (∀ gb ∈ queue.map Prod.snd, gb.persistFails = false) →
    st.crashed = none → (runWorker s queue st).crashed = none := by
  intro queue
  induction queue with
  | nil => intro st _ h; exact h
  | cons e rest ih =>
    intro st hall hcr
    obtain ⟨jobId, gb⟩ := e
    rw [runWorker_cons s jobId gb rest st hcr]
    refine ih _ (fun g hg => hall g (by simp [hg])) ?_
    rw [workerIter_crashed_of_no_persist s st jobId gb (hall gb (by simp))]
    exact hcr

/-- C1: for every job the worker loop processes — its id dequeued once
from the queue with its row present in the registry as queued — the
observable status sequence is exactly queued (from creation), then
running, then exactly one of succeeded or failed; the log is exact, so no
further status transition is ever applied to that job by the rest of the
queue, and no other sequence occurs. -/
theorem worker_status_lifecycle
    (s : Settings) (q1 q2 : List (String × GenBehavior)) (jobId : String)
    (gb : GenBehavior) (st0 : WorkerState) (j : Job)
    (hq1 : jobId ∉ q1.map Prod.fst) (hq2 : jobId ∉ q2.map Prod.fst)
    (hl : st0.reg.lookup jobId = some j) (hqueued : j.status = .queued)
    (hlog0 : logFor st0 jobId = [])
    (halive : (runWorker s q1 st0).crashed = none) :
    j.status :: statusTrace (runWorker s (q1 ++ (jobId, gb) :: q2) st0) jobId
        = [.queued, .running, .succeeded]
    ∨ j.status :: statusTrace (runWorker s (q1 ++ (jobId, gb) :: q2) st0) jobId
        = [.queued, .running, .failed] := by
  obtain ⟨f1, f2, _⟩ := runWorker_frame s q1 st0 jobId hq1
  rw [runWorker_append, runWorker_cons s jobId gb q2 (runWorker s q1 st0) halive, hqueued]
  set st1 := runWorker s q1 st0 with hst1
  have hl1 : st1.reg.lookup jobId = some j := f1.trans hl
  have hlog1 : logFor st1 jobId = [] := f2.trans hlog0
  set st2 := workerIter s st1 jobId gb with hst2
  obtain ⟨_, g2, _⟩ := runWorker_frame s q2 st2 jobId hq2
  have htrace : statusTrace (runWorker s q2 st2) jobId = statusTrace st2 jobId := by
    unfold statusTrace
    rw [g2]
  rw [htrace]
  cases hcond : (s.enable_cache &&
      (match st1.cache.lookup (cache_key s j.imageBytes j.audioBytes j.options) with
       | some n => decide (0 < n)
       | none => false)) with
  | true =>
    obtain ⟨n, hc, hk, hn⟩ := workerIter_hit_cond s st1 jobId gb j hl1 hcond
    obtain ⟨_, _, hlog, _, _, _⟩ := workerIter_hit s st1 jobId gb j n hl1 hc hk hn
    left
    have hLF : logFor st2 jobId = logFor st1 jobId
        ++ ([(jobId, runningCall), (jobId, cacheHitCall), (jobId, cacheHitSuccCall)]).map
            Prod.snd := by
      refine logFor_of_log_append st1 st2 jobId _ hlog ?_
      intro e he
      rcases List.mem_cons.mp he with rfl | he
      · rfl
      rcases List.mem_cons.mp he with rfl | he
      · rfl
      rcases List.mem_cons.mp he with rfl | he
      · rfl
      simp at he
    unfold statusTrace
    rw [hLF, hlog1]
    rfl
  | false =>
    obtain ⟨_, hlog, _, _, _, _⟩ := workerIter_miss s st1 jobId gb j hl1 hcond
    have hLF : logFor st2 jobId = logFor st1 jobId
        ++ (([(jobId, runningCall)] ++ cbEntries jobId gb.callbacks
          ++ [(jobId, missTerminalCall s gb)]).map Prod.snd) := by
      refine logFor_of_log_append st1 st2 jobId _ ?_ ?_
      · rw [hlog]
        simp
      · intro e he
        rcases List.mem_append.mp he with h12 | h3
        · rcases List.mem_append.mp h12 with h1 | h2
          · rw [List.mem_singleton] at h1
            rw [h1]
          · exact cbEntries_tag jobId gb.callbacks e h2
        · rw [List.mem_singleton] at h3
          rw [h3]
    have hstp : statusTrace st2 jobId
        = JobStatus.running :: (missTerminalCall s gb).status.toList := by
      have hone : ∀ c : UpdateCall,
          List.filterMap UpdateCall.status (List.map Prod.snd [(jobId, c)])
            = c.status.toList := by
        intro c
        cases h : c.status <;> simp [List.filterMap_cons, h]
      unfold statusTrace
      rw [hLF, hlog1, List.nil_append, List.map_append, List.map_append,
        List.filterMap_append, List.filterMap_append, cbEntries_statuses, hone, hone]
      rfl
    rcases missTerminalCall_status s gb with hm | hm
    · right
      rw [hstp, hm]
      rfl
    · left
      rw [hstp, hm]
      rfl

/-- Closed witness for C1: a fresh queued job processed by a one-element
queue moves through queued, running, succeeded. -/
theorem worker_status_lifecycle_witness :
    (store_create [] "a" [1, 2] [3, 4] [] 0).1.status
        :: statusTrace (runWorker mockSettings ([] ++ ("a", gbOk) :: []) stAB) "a"
      = [.queued, .running, .succeeded]
    ∨ (store_create [] "a" [1, 2] [3, 4] [] 0).1.status
        :: statusTrace (runWorker mockSettings ([] ++ ("a", gbOk) :: []) stAB) "a"
      = [.queued, .running, .failed] :=
  worker_status_lifecycle mockSettings [] [] "a" gbOk stAB
    (store_create [] "a" [1, 2] [3, 4] [] 0).1 (by decide) (by decide) (by decide)
    (by decide) (by decide) (by decide)

/-- C2: the fingerprint is a function of the settings, image bytes, audio
bytes and options map alone — two options lists equal as maps (a
permutation of each other, keys unambiguous) give the same key, whatever
the job ids or paths were — and with caching enabled, after a first job
generates and stores a nonempty artifact, a second job with the same
content is served from the cache: its generate is never invoked and it
finishes succeeded with progress 1. -/
theorem cache_determinism_and_reuse :
    (∀ (s : Settings) (img aud : List Nat) (opts1 opts2 : List (List Nat × JVal)),
        List.Perm opts1 opts2 → (opts1.map Prod.fst).Nodup →
        cache_key s img aud opts1 = cache_key s img aud opts2)
    ∧ (∀ (s : Settings) (st : WorkerState) (id1 id2 : String) (gb1 gb2 : GenBehavior)
        (j1 j2 : Job) (n : Nat),
        id1 ≠ id2 → st.crashed = none →
        st.reg.lookup id1 = some j1 → st.reg.lookup id2 = some j2 →
        j2.imageBytes = j1.imageBytes → j2.audioBytes = j1.audioBytes →
        List.Perm j2.options j1.options → (j1.options.map Prod.fst).Nodup →
        s.enable_cache = true →
        gb1.genError = none → gb1.outputFile = some n → 0 < n →
        gb1.storeFails = false → gb1.persistFails = false →
        ((id2 ∈ (runWorker s [(id1, gb1), (id2, gb2)] st).genInvoked ↔ id2 ∈ st.genInvoked)
          ∧ ∃ jf, (runWorker s [(id1, gb1), (id2, gb2)] st).reg.lookup id2 = some jf
              ∧ jf.status = .succeeded ∧ jf.progress = 1)) := by
  have hdet : ∀ (s : Settings) (img aud : List Nat) (opts1 opts2 : List (List Nat × JVal)),
      List.Perm opts1 opts2 → (opts1.map Prod.fst).Nodup →
      cache_key s img aud opts1 = cache_key s img aud opts2 := by
    intro s img aud opts1 opts2 hp hn
    unfold cache_key
    rw [dumpsObj_perm hp hn]
  refine ⟨hdet, ?_⟩
  intro s st id1 id2 gb1 gb2 j1 j2 n hne hcr hl1 hl2 himg haud hperm hnd hc hge hof hnpos
    hsf hpf
  have hkey : cache_key s j2.imageBytes j2.audioBytes j2.options
      = cache_key s j1.imageBytes j1.audioBytes j1.options := by
    rw [himg, haud]
    exact hdet s j1.imageBytes j1.audioBytes j2.options j1.options hperm
      (((hperm.map Prod.fst).nodup_iff).mpr hnd)
  rw [runWorker_cons s id1 gb1 [(id2, gb2)] st hcr]
  set stA := workerIter s st id1 gb1 with hstA
  have hcrA : stA.crashed = none := by
    rw [hstA, workerIter_crashed_of_no_persist s st id1 gb1 hpf]
    exact hcr
  obtain ⟨hregA, _, hgenA⟩ := workerIter_frame s st id1 id2 gb1 (Ne.symm hne)
  have hl2A : stA.reg.lookup id2 = some j2 := by
    rw [hstA]
    rw [hregA]
    exact hl2
  have hcachepos : ∃ m, stA.cache.lookup (cache_key s j1.imageBytes j1.audioBytes j1.options)
      = some m ∧ 0 < m := by
    cases hcond : (s.enable_cache &&
        (match st.cache.lookup (cache_key s j1.imageBytes j1.audioBytes j1.options) with
         | some k => decide (0 < k)
         | none => false)) with
    | true =>
      obtain ⟨m, hcT, hk, hm⟩ := workerIter_hit_cond s st id1 gb1 j1 hl1 hcond
      obtain ⟨hcacheEq, _, _, _, _, _⟩ := workerIter_hit s st id1 gb1 j1 m hl1 hcT hk hm
      have hAc : stA.cache = st.cache := hcacheEq
      refine ⟨m, ?_, hm⟩
      rw [hAc]
      exact hk
    | false =>
      obtain ⟨_, _, _, hcache, _, _⟩ := workerIter_miss s st id1 gb1 j1 hl1 hcond
      rw [hge, hc, hof, hsf] at hcache
      have hAc : stA.cache
          = (cache_key s j1.imageBytes j1.audioBytes j1.options, n) :: st.cache := hcache
      refine ⟨n, ?_, hnpos⟩
      rw [hAc]
      simp [List.lookup]
  obtain ⟨m, hkm, hmpos⟩ := hcachepos
  have hkmKey : stA.cache.lookup (cache_key s j2.imageBytes j2.audioBytes j2.options)
      = some m := by
    rw [hkey]
    exact hkm
  have hnilW : ∀ x : WorkerState, runWorker s [] x = x := fun x => rfl
  rw [runWorker_cons s id2 gb2 [] stA hcrA, hnilW]
  obtain ⟨_, hgenB, _, _, hselfB, _⟩ := workerIter_hit s stA id2 gb2 j2 m hl2A hc hkmKey hmpos
  constructor
  · rw [hgenB]
    exact hgenA
  · obtain ⟨jf, hjf, hs, hp, _⟩ := hselfB
    exact ⟨jf, hjf, hs, hp⟩

/-- Closed witness for C2: on a fresh two-job registry with identical
bytes and options and caching enabled, the second job finishes succeeded
from the cache and its generate is never invoked. -/
theorem cache_determinism_and_reuse_witness :
    ("b" ∈ (runWorker mockSettings [("a", gbOk), ("b", gbOk)] stAB).genInvoked
        ↔ "b" ∈ stAB.genInvoked)
    ∧ ∃ jf, (runWorker mockSettings [("a", gbOk), ("b", gbOk)] stAB).reg.lookup "b" = some jf
        ∧ jf.status = .succeeded ∧ jf.progress = 1 :=
  cache_determinism_and_reuse.2 mockSettings stAB "a" "b" gbOk gbOk
    (store_create [] "a" [1, 2] [3, 4] [] 0).1 (store_create [] "b" [1, 2] [3, 4] [] 0).1 10
    (by decide) (by decide) (by decide) (by decide) (by decide) (by decide)
    (List.Perm.refl _) (by decide) (by decide) (by decide) (by decide) (by decide)
    (by decide) (by decide)

/-- C4 counterexample: an exception raised by persist_job_meta in the
finally block of the loop body is not caught by the except clause (which
has already run) and escapes worker_loop: the loop terminates, and a job
still waiting in the queue is never processed — its row stays queued and
untouched and no update is ever logged for it. -/
theorem persist_failure_kills_worker_loop :
    (runWorker mockSettings [("a", gbPersistFail), ("b", gbOk)] stAB).crashed
        = some "disk full"
    ∧ (runWorker mockSettings [("a", gbPersistFail), ("b", gbOk)] stAB).reg.lookup "b"
        = stAB.reg.lookup "b"
    ∧ logFor (runWorker mockSettings [("a", gbPersistFail), ("b", gbOk)] stAB) "b" = []
    ∧ "b" ∉ (runWorker mockSettings [("a", gbPersistFail), ("b", gbOk)] stAB).genInvoked := by
  refine ⟨?_, ?_, ?_, ?_⟩ <;> decide

/-- C4 (amended): every error raised inside the try block of the loop
body — generate raising, or the cache store step raising — is caught and
converted to terminal job state: the job is updated with status failed,
progress 1, message "Failed" and the stringified cause as error, and as
long as no persist_job_meta call raises, the loop survives the whole
queue; only the persistence step in the finally block is outside this
containment. -/
theorem worker_error_containment
    (s : Settings) (st : WorkerState) (jobId : String) (gb : GenBehavior) (j : Job)
    (e : String) (rest : List (String × GenBehavior))
    (hl : st.reg.lookup jobId = some j)
    (hmiss : (s.enable_cache &&
        (match st.cache.lookup (cache_key s j.imageBytes j.audioBytes j.options) with
         | some k => decide (0 < k)
         | none => false)) = false)
    (hge : gb.genError = some e)
    (hpf : gb.persistFails = false)
    (hrest : ∀ g ∈ rest.map Prod.snd, g.persistFails = false)
    (hcr : st.crashed = none) :
    (runWorker s ((jobId, gb) :: rest) st).crashed = none
    ∧ logFor (workerIter s st jobId gb) jobId
        = logFor st jobId ++ [runningCall] ++ (cbEntries jobId gb.callbacks).map Prod.snd
          ++ [failedCall e]
    ∧ failedCall e = ⟨some .failed, some 1, some "Failed", some e⟩
    ∧ ∃ j2, (workerIter s st jobId gb).reg.lookup jobId = some j2
        ∧ j2.status = .failed ∧ j2.error = some e := by
  have hmt : missTerminalCall s gb = failedCall e := by
    unfold missTerminalCall
    rw [hge]
  obtain ⟨_, hlog, hcrI, _, hself, _⟩ := workerIter_miss s st jobId gb j hl hmiss
  have hcrA : (workerIter s st jobId gb).crashed = none := by
    rw [hcrI, hpf]
    simpa using hcr
  refine ⟨?_, ?_, rfl, ?_⟩
  · rw [runWorker_cons s jobId gb rest st hcr]
    exact runWorker_no_crash s rest _ hrest hcrA
  · have hLF : logFor (workerIter s st jobId gb) jobId = logFor st jobId
        ++ (([(jobId, runningCall)] ++ cbEntries jobId gb.callbacks
          ++ [(jobId, missTerminalCall s gb)]).map Prod.snd) := by
      refine logFor_of_log_append st (workerIter s st jobId gb) jobId _ ?_ ?_
      · rw [hlog]
        simp
      · intro en hen
        rcases List.mem_append.mp hen with h12 | h3
        · rcases List.mem_append.mp h12 with h1 | h2
          · rw [List.mem_singleton] at h1
            rw [h1]
          · exact cbEntries_tag jobId gb.callbacks en h2
        · rw [List.mem_singleton] at h3
          rw [h3]
    rw [hLF, hmt]
    simp [List.append_assoc]
  · obtain ⟨j2, hj2, hs2, he2, _⟩ := hself
    refine ⟨j2, hj2, ?_, ?_⟩
    · rw [hs2, hmt]
      rfl
    · have he2b : j2.error
          = (match (failedCall e).error with
             | some e2 => some e2
             | none => j.error) := by
        rw [← hmt]
        exact he2
      exact he2b.trans rfl

/-- Closed witness for C4 (amended): a generate error on a fresh job is
contained — the job finishes failed with the cause as error, the exact
failure update is logged, and the loop goes on to the rest of the queue
without crashing. -/
theorem worker_error_containment_witness :
    (runWorker mockSettings (("a", gbGenErr) :: [("b", gbOk)]) stAB).crashed = none
    ∧ logFor (workerIter mockSettings stAB "a" gbGenErr) "a"
        = logFor stAB "a" ++ [runningCall] ++ (cbEntries "a" gbGenErr.callbacks).map Prod.snd
          ++ [failedCall "boom"]
    ∧ failedCall "boom" = ⟨some .failed, some 1, some "Failed", some "boom"⟩
    ∧ ∃ j2, (workerIter mockSettings stAB "a" gbGenErr).reg.lookup "a" = some j2
        ∧ j2.status = .failed ∧ j2.error = some "boom" :=
  worker_error_containment mockSettings stAB "a" gbGenErr
    (store_create [] "a" [1, 2] [3, 4] [] 0).1 "boom" [("b", gbOk)]
    (by decide) (by decide) (by decide) (by decide) (by decide) (by decide)

lemma validCodes_of_validCps {s : List Nat} (h : ValidCps s) : ValidCodes s := by
  intro c hc
  rcases h c hc with h1 | h1
  · omega
  · omega

lemma serF_cons_ne_nil (k : List Nat) (v : JVal) (l : List (List Nat × JVal)) (h : l ≠ []) :
    serF (listToF ((k, v) :: l))
      = (34 :: (escape k ++ [34, 58])) ++ ser v ++ (44 :: serF (listToF l)) := by
  cases l with
  | nil => exact absurd rfl h
  | cons e t =>
    obtain ⟨k2, w⟩ := e
    rfl

lemma serF_single_diff : ∀ (L R : List (List Nat × JVal)) (k : List Nat) (v1 v2 : JVal),
    serF (listToF (L ++ (k, v1) :: R)) = serF (listToF (L ++ (k, v2) :: R)) →
    ser v1 = ser v2 := by
  intro L
  induction L with
  | nil =>
    intro R k v1 v2 h
    cases R with
    | nil =>
      simp only [List.nil_append, listToF, serF] at h
      exact List.append_cancel_left h
    | cons e R2 =>
      obtain ⟨k2, w⟩ := e
      rw [List.nil_append, List.nil_append, serF_cons_ne_nil k v1 _ (List.cons_ne_nil _ _),
        serF_cons_ne_nil k v2 _ (List.cons_ne_nil _ _)] at h
      exact List.append_cancel_left (List.append_cancel_right h)
  | cons e L2 ih =>
    intro R k v1 v2 h
    obtain ⟨ke, ve⟩ := e
    rw [List.cons_append, List.cons_append,
      serF_cons_ne_nil ke ve _ (by simp), serF_cons_ne_nil ke ve _ (by simp)] at h
    have h2 := List.append_cancel_left h
    simp only [List.cons.injEq, true_and] at h2
    exact ih R k v1 v2 h2

lemma ser_jint_inj {a b : Int} (h : ser (.jint a) = ser (.jint b)) : a = b :=
  intRepr_inj h

lemma ser_jbool_inj {a b : Bool} (h : ser (.jbool a) = ser (.jbool b)) : a = b := by
  cases a <;> cases b
  · rfl
  · exact absurd h (by decide)
  · exact absurd h (by decide)
  · rfl

lemma ser_jstr_inj {a b : List Nat} (ha : ValidCps a) (hb : ValidCps b)
    (h : ser (.jstr a) = ser (.jstr b)) : a = b := by
  simp only [ser, List.cons.injEq, true_and] at h
  exact escape_inj ha hb (List.append_cancel_right h)

lemma ser_optStr_inj {a b : Option (List Nat)} (ha : ValidCpsOpt a) (hb : ValidCpsOpt b)
    (h : ser (optStr a) = ser (optStr b)) : a = b := by
  cases a <;> cases b
  · rfl
  · exact absurd h (by
      intro hh
      obtain ⟨heq, _⟩ := List.cons.inj hh
      omega)
  · exact absurd h (by
      intro hh
      obtain ⟨heq, _⟩ := List.cons.inj hh
      omega)
  · exact congrArg some (ser_jstr_inj ha hb h)

lemma ser_optInt_inj {a b : Option Int} (h : ser (optInt a) = ser (optInt b)) : a = b := by
  cases a <;> cases b
  · rfl
  · exfalso
    obtain ⟨hd, t, ht, h1, h2⟩ := intRepr_head _
    rw [show ser (optInt (some _)) = intRepr _ from rfl, ht] at h
    obtain ⟨heq, _⟩ := List.cons.inj h
    omega
  · exfalso
    obtain ⟨hd, t, ht, h1, h2⟩ := intRepr_head _
    rw [show ser (optInt (some _)) = intRepr _ from rfl, ht] at h
    obtain ⟨heq, _⟩ := List.cons.inj h
    omega
  · exact congrArg some (intRepr_inj h)

lemma canon_flat {v1 v2 : JVal} (h : FlatPair v1 v2) : canon v1 = v1 ∧ canon v2 = v2 := by
  cases v1 <;> cases v2 <;> simp only [FlatPair] at h <;> exact ⟨rfl, rfl⟩

lemma ser_flat_inj {v1 v2 : JVal} (h : FlatPair v1 v2) (hs : ser v1 = ser v2) : v1 = v2 := by
  cases v1 <;> cases v2 <;> simp only [FlatPair] at h
  · rfl
  · exact congrArg JVal.jbool (ser_jbool_inj hs)
  · exact congrArg JVal.jint (ser_jint_inj hs)
  · exact congrArg JVal.jnum hs
  · exact congrArg JVal.jstr (ser_jstr_inj h.1 h.2 hs)

lemma sorted_keyLt_of_keys {l : List (List Nat × JVal)}
    (h : List.Pairwise (fun a b => lexLtB a b = true) (l.map Prod.fst)) :
    List.Sorted keyLt l := by
  rw [List.pairwise_map] at h
  exact h

lemma cache_key_tail {s1 s2 : Settings} {img1 img2 aud1 aud2 : List Nat}
    {o1 o2 : List (List Nat × JVal)}
    (hb : s1.generator_backend = s2.generator_backend)
    (h : cache_key s1 img1 aud1 o1 = cache_key s2 img2 aud2 o2) :
    dumpsObj (backend_cfg s1)
        ++ (cp "image" ++ (0 :: (img1 ++ (0 :: (cp "audio"
          ++ (0 :: (aud1 ++ (0 :: (cp "options" ++ (0 :: dumpsObj o1))))))))))
      = dumpsObj (backend_cfg s2)
        ++ (cp "image" ++ (0 :: (img2 ++ (0 :: (cp "audio"
          ++ (0 :: (aud2 ++ (0 :: (cp "options" ++ (0 :: dumpsObj o2)))))))))) := by
  unfold cache_key at h
  rw [hb] at h
  simp only [List.append_assoc, List.cons_append, List.nil_append] at h
  replace h := List.append_cancel_left h
  simp only [List.cons.injEq, true_and] at h
  replace h := List.append_cancel_left h
  simp only [List.cons.injEq, true_and] at h
  replace h := List.append_cancel_left h
  simp only [List.cons.injEq, true_and] at h
  replace h := List.append_cancel_left h
  simp only [List.cons.injEq, true_and] at h
  exact h

lemma cache_key_cfg_eq {s1 s2 : Settings} {img aud : List Nat}
    {opts : List (List Nat × JVal)}
    (h : cache_key s1 img aud opts = cache_key s2 img aud opts)
    (hb : s1.generator_backend = s2.generator_backend) :
    dumpsObj (backend_cfg s1) = dumpsObj (backend_cfg s2) :=
  List.append_cancel_right (cache_key_tail hb h)

lemma canon_optStr (o : Option (List Nat)) : canon (optStr o) = optStr o := by
  cases o <;> rfl

lemma canon_optInt (o : Option Int) : canon (optInt o) = optInt o := by
  cases o <;> rfl

lemma backend_cfg_sadS (rd : List Nat) (py : Option (List Nat)) (sz : Int) (pre : List Nat)
    (enh : Option (List Nat)) :
    backend_cfg (sadS rd py sz pre enh)
      = [ (cp "sadtalker_repo_dir", .jstr rd),
          (cp "sadtalker_python", optStr py),
          (cp "sadtalker_size", .jint sz),
          (cp "sadtalker_preprocess", .jstr pre),
          (cp "sadtalker_enhancer", optStr enh) ] := rfl

lemma backend_cfg_svdS (m : List Nat) (rev vr : Option (List Nat)) (lfo : Bool)
    (dev : Option (List Nat)) (dt : List Nat) (wd ht fps nf nis mbi : Int)
    (nas mings maxgs : List Nat) (dcs : Int) (sd : Option Int)
    (eas evs evt eco exa : Bool) (es : List Nat) (ad : Bool) (mmp : Int) :
    backend_cfg (svdS m rev vr lfo dev dt wd ht fps nf nis mbi nas mings maxgs dcs sd
        eas evs evt eco exa es ad mmp)
      = [ (cp "svd_model", .jstr m),
          (cp "svd_revision", optStr rev),
          (cp "svd_variant", optStr vr),
          (cp "svd_local_files_only", .jbool lfo),
          (cp "svd_device", optStr dev),
          (cp "svd_dtype", .jstr dt),
          (cp "svd_width", .jint wd),
          (cp "svd_height", .jint ht),
          (cp "svd_fps", .jint fps),
          (cp "svd_num_frames", .jint nf),
          (cp "svd_num_inference_steps", .jint nis),
          (cp "svd_motion_bucket_id", .jint mbi),
          (cp "svd_noise_aug_strength", .jnum nas),
          (cp "svd_min_guidance_scale", .jnum mings),
          (cp "svd_max_guidance_scale", .jnum maxgs),
          (cp "svd_decode_chunk_size", .jint dcs),
          (cp "svd_seed", optInt sd),
          (cp "svd_enable_attention_slicing", .jbool eas),
          (cp "svd_enable_vae_slicing", .jbool evs),
          (cp "svd_enable_vae_tiling", .jbool evt),
          (cp "svd_enable_cpu_offload", .jbool eco),
          (cp "svd_extend_to_audio", .jbool exa),
          (cp "svd_extend_strategy", .jstr es),
          (cp "svd_auto_downscale", .jbool ad),
          (cp "svd_mps_max_pixels", .jint mmp) ] := rfl

lemma dumpsObj_sadT (rd : List Nat) (py : Option (List Nat)) (sz : Int) (pre : List Nat)
    (enh : Option (List Nat)) :
    dumpsObj [ (cp "sadtalker_repo_dir", .jstr rd),
               (cp "sadtalker_python", optStr py),
               (cp "sadtalker_size", .jint sz),
               (cp "sadtalker_preprocess", .jstr pre),
               (cp "sadtalker_enhancer", optStr enh) ]
      = 123 :: (serF (listToF
          [ (cp "sadtalker_enhancer", optStr enh),
            (cp "sadtalker_preprocess", .jstr pre),
            (cp "sadtalker_python", optStr py),
            (cp "sadtalker_repo_dir", .jstr rd),
            (cp "sadtalker_size", .jint sz) ]) ++ [125]) := by
  cases py <;> cases enh <;> rfl

set_option maxHeartbeats 4000000 in
lemma sortFields_svd (v1 v2 v3 v4 v5 v6 v7 v8 v9 v10 v11 v12 v13 v14 v15 v16 v17 v18 v19
    v20 v21 v22 v23 v24 v25 : JVal) :
    sortFields
      [ (cp "svd_model", v1), (cp "svd_revision", v2), (cp "svd_variant", v3),
        (cp "svd_local_files_only", v4), (cp "svd_device", v5), (cp "svd_dtype", v6),
        (cp "svd_width", v7), (cp "svd_height", v8), (cp "svd_fps", v9),
        (cp "svd_num_frames", v10), (cp "svd_num_inference_steps", v11),
        (cp "svd_motion_bucket_id", v12), (cp "svd_noise_aug_strength", v13),
        (cp "svd_min_guidance_scale", v14), (cp "svd_max_guidance_scale", v15),
        (cp "svd_decode_chunk_size", v16), (cp "svd_seed", v17),
        (cp "svd_enable_attention_slicing", v18), (cp "svd_enable_vae_slicing", v19),
        (cp "svd_enable_vae_tiling", v20), (cp "svd_enable_cpu_offload", v21),
        (cp "svd_extend_to_audio", v22), (cp "svd_extend_strategy", v23),
        (cp "svd_auto_downscale", v24), (cp "svd_mps_max_pixels", v25) ]
      = [ (cp "svd_auto_downscale", v24), (cp "svd_decode_chunk_size", v16),
          (cp "svd_device", v5), (cp "svd_dtype", v6),
          (cp "svd_enable_attention_slicing", v18), (cp "svd_enable_cpu_offload", v21),
          (cp "svd_enable_vae_slicing", v19), (cp "svd_enable_vae_tiling", v20),
          (cp "svd_extend_strategy", v23), (cp "svd_extend_to_audio", v22),
          (cp "svd_fps", v9), (cp "svd_height", v8), (cp "svd_local_files_only", v4),
          (cp "svd_max_guidance_scale", v15), (cp "svd_min_guidance_scale", v14),
          (cp "svd_model", v1), (cp "svd_motion_bucket_id", v12),
          (cp "svd_mps_max_pixels", v25), (cp "svd_noise_aug_strength", v13),
          (cp "svd_num_frames", v10), (cp "svd_num_inference_steps", v11),
          (cp "svd_revision", v2), (cp "svd_seed", v17), (cp "svd_variant", v3),
          (cp "svd_width", v7) ] := by
  have hstep : ∀ (x : List Nat × JVal) (l : List (List Nat × JVal)),
      sortFields (x :: l) = List.orderedInsert keyLe x (sortFields l) :=
    fun x l => rfl
  have s0 : List.orderedInsert keyLe (cp "svd_mps_max_pixels", v25)
      []
      = [(cp "svd_mps_max_pixels", v25)] := rfl
  have s1 : List.orderedInsert keyLe (cp "svd_auto_downscale", v24)
      [(cp "svd_mps_max_pixels", v25)]
      = [(cp "svd_auto_downscale", v24), (cp "svd_mps_max_pixels", v25)] := rfl
  have s2 : List.orderedInsert keyLe (cp "svd_extend_strategy", v23)
      [(cp "svd_auto_downscale", v24), (cp "svd_mps_max_pixels", v25)]
      = [(cp "svd_auto_downscale", v24), (cp "svd_extend_strategy", v23), (cp "svd_mps_max_pixels", v25)] := rfl
  have s3 : List.orderedInsert keyLe (cp "svd_extend_to_audio", v22)
      [(cp "svd_auto_downscale", v24), (cp "svd_extend_strategy", v23), (cp "svd_mps_max_pixels", v25)]
      = [(cp "svd_auto_downscale", v24), (cp "svd_extend_strategy", v23), (cp "svd_extend_to_audio", v22), (cp "svd_mps_max_pixels", v25)] := rfl
  have s4 : List.orderedInsert keyLe (cp "svd_enable_cpu_offload", v21)
      [(cp "svd_auto_downscale", v24), (cp "svd_extend_strategy", v23), (cp "svd_extend_to_audio", v22), (cp "svd_mps_max_pixels", v25)]
      = [(cp "svd_auto_downscale", v24), (cp "svd_enable_cpu_offload", v21), (cp "svd_extend_strategy", v23), (cp "svd_extend_to_audio", v22), (cp "svd_mps_max_pixels", v25)] := rfl
  have s5 : List.orderedInsert keyLe (cp "svd_enable_vae_tiling", v20)
      [(cp "svd_auto_downscale", v24), (cp "svd_enable_cpu_offload", v21), (cp "svd_extend_strategy", v23), (cp "svd_extend_to_audio", v22), (cp "svd_mps_max_pixels", v25)]
      = [(cp "svd_auto_downscale", v24), (cp "svd_enable_cpu_offload", v21), (cp "svd_enable_vae_tiling", v20), (cp "svd_extend_strategy", v23), (cp "svd_extend_to_audio", v22), (cp "svd_mps_max_pixels", v25)] := rfl
  have s6 : List.orderedInsert keyLe (cp "svd_enable_vae_slicing", v19)
      [(cp "svd_auto_downscale", v24), (cp "svd_enable_cpu_offload", v21), (cp "svd_enable_vae_tiling", v20), (cp "svd_extend_strategy", v23), (cp "svd_extend_to_audio", v22), (cp "svd_mps_max_pixels", v25)]
      = [(cp "svd_auto_downscale", v24), (cp "svd_enable_cpu_offload", v21), (cp "svd_enable_vae_slicing", v19), (cp "svd_enable_vae_tiling", v20), (cp "svd_extend_strategy", v23), (cp "svd_extend_to_audio", v22), (cp "svd_mps_max_pixels", v25)] := rfl
  have s7 : List.orderedInsert keyLe (cp "svd_enable_attention_slicing", v18)
      [(cp "svd_auto_downscale", v24), (cp "svd_enable_cpu_offload", v21), (cp "svd_enable_vae_slicing", v19), (cp "svd_enable_vae_tiling", v20), (cp "svd_extend_strategy", v23), (cp "svd_extend_to_audio", v22), (cp "svd_mps_max_pixels", v25)]
      = [(cp "svd_auto_downscale", v24), (cp "svd_enable_attention_slicing", v18), (cp "svd_enable_cpu_offload", v21), (cp "svd_enable_vae_slicing", v19), (cp "svd_enable_vae_tiling", v20), (cp "svd_extend_strategy", v23), (cp "svd_extend_to_audio", v22), (cp "svd_mps_max_pixels", v25)] := rfl
  have s8 : List.orderedInsert keyLe (cp "svd_seed", v17)
      [(cp "svd_auto_downscale", v24), (cp "svd_enable_attention_slicing", v18), (cp "svd_enable_cpu_offload", v21), (cp "svd_enable_vae_slicing", v19), (cp "svd_enable_vae_tiling", v20), (cp "svd_extend_strategy", v23), (cp "svd_extend_to_audio", v22), (cp "svd_mps_max_pixels", v25)]
      = [(cp "svd_auto_downscale", v24), (cp "svd_enable_attention_slicing", v18), (cp "svd_enable_cpu_offload", v21), (cp "svd_enable_vae_slicing", v19), (cp "svd_enable_vae_tiling", v20), (cp "svd_extend_strategy", v23), (cp "svd_extend_to_audio", v22), (cp "svd_mps_max_pixels", v25), (cp "svd_seed", v17)] := rfl
  have s9 : List.orderedInsert keyLe (cp "svd_decode_chunk_size", v16)
      [(cp "svd_auto_downscale", v24), (cp "svd_enable_attention_slicing", v18), (cp "svd_enable_cpu_offload", v21), (cp "svd_enable_vae_slicing", v19), (cp "svd_enable_vae_tiling", v20), (cp "svd_extend_strategy", v23), (cp "svd_extend_to_audio", v22), (cp "svd_mps_max_pixels", v25), (cp "svd_seed", v17)]
      = [(cp "svd_auto_downscale", v24), (cp "svd_decode_chunk_size", v16), (cp "svd_enable_attention_slicing", v18), (cp "svd_enable_cpu_offload", v21), (cp "svd_enable_vae_slicing", v19), (cp "svd_enable_vae_tiling", v20), (cp "svd_extend_strategy", v23), (cp "svd_extend_to_audio", v22), (cp "svd_mps_max_pixels", v25), (cp "svd_seed", v17)] := rfl
  have s10 : List.orderedInsert keyLe (cp "svd_max_guidance_scale", v15)
      [(cp "svd_auto_downscale", v24), (cp "svd_decode_chunk_size", v16), (cp "svd_enable_attention_slicing", v18), (cp "svd_enable_cpu_offload", v21), (cp "svd_enable_vae_slicing", v19), (cp "svd_enable_vae_tiling", v20), (cp "svd_extend_strategy", v23), (cp "svd_extend_to_audio", v22), (cp "svd_mps_max_pixels", v25), (cp "svd_seed", v17)]
      = [(cp "svd_auto_downscale", v24), (cp "svd_decode_chunk_size", v16), (cp "svd_enable_attention_slicing", v18), (cp "svd_enable_cpu_offload", v21), (cp "svd_enable_vae_slicing", v19), (cp "svd_enable_vae_tiling", v20), (cp "svd_extend_strategy", v23), (cp "svd_extend_to_audio", v22), (cp "svd_max_guidance_scale", v15), (cp "svd_mps_max_pixels", v25), (cp "svd_seed", v17)] := rfl
  have s11 : List.orderedInsert keyLe (cp "svd_min_guidance_scale", v14)
      [(cp "svd_auto_downscale", v24), (cp "svd_decode_chunk_size", v16), (cp "svd_enable_attention_slicing", v18), (cp "svd_enable_cpu_offload", v21), (cp "svd_enable_vae_slicing", v19), (cp "svd_enable_vae_tiling", v20), (cp "svd_extend_strategy", v23), (cp "svd_extend_to_audio", v22), (cp "svd_max_guidance_scale", v15), (cp "svd_mps_max_pixels", v25), (cp "svd_seed", v17)]
      = [(cp "svd_auto_downscale", v24), (cp "svd_decode_chunk_size", v16), (cp "svd_enable_attention_slicing", v18), (cp "svd_enable_cpu_offload", v21), (cp "svd_enable_vae_slicing", v19), (cp "svd_enable_vae_tiling", v20), (cp "svd_extend_strategy", v23), (cp "svd_extend_to_audio", v22), (cp "svd_max_guidance_scale", v15), (cp "svd_min_guidance_scale", v14), (cp "svd_mps_max_pixels", v25), (cp "svd_seed", v17)] := rfl
  have s12 : List.orderedInsert keyLe (cp "svd_noise_aug_strength", v13)
      [(cp "svd_auto_downscale", v24), (cp "svd_decode_chunk_size", v16), (cp "svd_enable_attention_slicing", v18), (cp "svd_enable_cpu_offload", v21), (cp "svd_enable_vae_slicing", v19), (cp "svd_enable_vae_tiling", v20), (cp "svd_extend_strategy", v23), (cp "svd_extend_to_audio", v22), (cp "svd_max_guidance_scale", v15), (cp "svd_min_guidance_scale", v14), (cp "svd_mps_max_pixels", v25), (cp "svd_seed", v17)]
      = [(cp "svd_auto_downscale", v24), (cp "svd_decode_chunk_size", v16), (cp "svd_enable_attention_slicing", v18), (cp "svd_enable_cpu_offload", v21), (cp "svd_enable_vae_slicing", v19), (cp "svd_enable_vae_tiling", v20), (cp "svd_extend_strategy", v23), (cp "svd_extend_to_audio", v22), (cp "svd_max_guidance_scale", v15), (cp "svd_min_guidance_scale", v14), (cp "svd_mps_max_pixels", v25), (cp "svd_noise_aug_strength", v13), (cp "svd_seed", v17)] := rfl
  have s13 : List.orderedInsert keyLe (cp "svd_motion_bucket_id", v12)
      [(cp "svd_auto_downscale", v24), (cp "svd_decode_chunk_size", v16), (cp "svd_enable_attention_slicing", v18), (cp "svd_enable_cpu_offload", v21), (cp "svd_enable_vae_slicing", v19), (cp "svd_enable_vae_tiling", v20), (cp "svd_extend_strategy", v23), (cp "svd_extend_to_audio", v22), (cp "svd_max_guidance_scale", v15), (cp "svd_min_guidance_scale", v14), (cp "svd_mps_max_pixels", v25), (cp "svd_noise_aug_strength", v13), (cp "svd_seed", v17)]
      = [(cp "svd_auto_downscale", v24), (cp "svd_decode_chunk_size", v16), (cp "svd_enable_attention_slicing", v18), (cp "svd_enable_cpu_offload", v21), (cp "svd_enable_vae_slicing", v19), (cp "svd_enable_vae_tiling", v20), (cp "svd_extend_strategy", v23), (cp "svd_extend_to_audio", v22), (cp "svd_max_guidance_scale", v15), (cp "svd_min_guidance_scale", v14), (cp "svd_motion_bucket_id", v12), (cp "svd_mps_max_pixels", v25), (cp "svd_noise_aug_strength", v13), (cp "svd_seed", v17)] := rfl
  have s14 : List.orderedInsert keyLe (cp "svd_num_inference_steps", v11)
      [(cp "svd_auto_downscale", v24), (cp "svd_decode_chunk_size", v16), (cp "svd_enable_attention_slicing", v18), (cp "svd_enable_cpu_offload", v21), (cp "svd_enable_vae_slicing", v19), (cp "svd_enable_vae_tiling", v20), (cp "svd_extend_strategy", v23), (cp "svd_extend_to_audio", v22), (cp "svd_max_guidance_scale", v15), (cp "svd_min_guidance_scale", v14), (cp "svd_motion_bucket_id", v12), (cp "svd_mps_max_pixels", v25), (cp "svd_noise_aug_strength", v13), (cp "svd_seed", v17)]
      = [(cp "svd_auto_downscale", v24), (cp "svd_decode_chunk_size", v16), (cp "svd_enable_attention_slicing", v18), (cp "svd_enable_cpu_offload", v21), (cp "svd_enable_vae_slicing", v19), (cp "svd_enable_vae_tiling", v20), (cp "svd_extend_strategy", v23), (cp "svd_extend_to_audio", v22), (cp "svd_max_guidance_scale", v15), (cp "svd_min_guidance_scale", v14), (cp "svd_motion_bucket_id", v12), (cp "svd_mps_max_pixels", v25), (cp "svd_noise_aug_strength", v13), (cp "svd_num_inference_steps", v11), (cp "svd_seed", v17)] := rfl
  have s15 : List.orderedInsert keyLe (cp "svd_num_frames", v10)
      [(cp "svd_auto_downscale", v24), (cp "svd_decode_chunk_size", v16), (cp "svd_enable_attention_slicing", v18), (cp "svd_enable_cpu_offload", v21), (cp "svd_enable_vae_slicing", v19), (cp "svd_enable_vae_tiling", v20), (cp "svd_extend_strategy", v23), (cp "svd_extend_to_audio", v22), (cp "svd_max_guidance_scale", v15), (cp "svd_min_guidance_scale", v14), (cp "svd_motion_bucket_id", v12), (cp "svd_mps_max_pixels", v25), (cp "svd_noise_aug_strength", v13), (cp "svd_num_inference_steps", v11), (cp "svd_seed", v17)]
      = [(cp "svd_auto_downscale", v24), (cp "svd_decode_chunk_size", v16), (cp "svd_enable_attention_slicing", v18), (cp "svd_enable_cpu_offload", v21), (cp "svd_enable_vae_slicing", v19), (cp "svd_enable_vae_tiling", v20), (cp "svd_extend_strategy", v23), (cp "svd_extend_to_audio", v22), (cp "svd_max_guidance_scale", v15), (cp "svd_min_guidance_scale", v14), (cp "svd_motion_bucket_id", v12), (cp "svd_mps_max_pixels", v25), (cp "svd_noise_aug_strength", v13), (cp "svd_num_frames", v10), (cp "svd_num_inference_steps", v11), (cp "svd_seed", v17)] := rfl
  have s16 : List.orderedInsert keyLe (cp "svd_fps", v9)
      [(cp "svd_auto_downscale", v24), (cp "svd_decode_chunk_size", v16), (cp "svd_enable_attention_slicing", v18), (cp "svd_enable_cpu_offload", v21), (cp "svd_enable_vae_slicing", v19), (cp "svd_enable_vae_tiling", v20), (cp "svd_extend_strategy", v23), (cp "svd_extend_to_audio", v22), (cp "svd_max_guidance_scale", v15), (cp "svd_min_guidance_scale", v14), (cp "svd_motion_bucket_id", v12), (cp "svd_mps_max_pixels", v25), (cp "svd_noise_aug_strength", v13), (cp "svd_num_frames", v10), (cp "svd_num_inference_steps", v11), (cp "svd_seed", v17)]
      = [(cp "svd_auto_downscale", v24), (cp "svd_decode_chunk_size", v16), (cp "svd_enable_attention_slicing", v18), (cp "svd_enable_cpu_offload", v21), (cp "svd_enable_vae_slicing", v19), (cp "svd_enable_vae_tiling", v20), (cp "svd_extend_strategy", v23), (cp "svd_extend_to_audio", v22), (cp "svd_fps", v9), (cp "svd_max_guidance_scale", v15), (cp "svd_min_guidance_scale", v14), (cp "svd_motion_bucket_id", v12), (cp "svd_mps_max_pixels", v25), (cp "svd_noise_aug_strength", v13), (cp "svd_num_frames", v10), (cp "svd_num_inference_steps", v11), (cp "svd_seed", v17)] := rfl
  have s17 : List.orderedInsert keyLe (cp "svd_height", v8)
      [(cp "svd_auto_downscale", v24), (cp "svd_decode_chunk_size", v16), (cp "svd_enable_attention_slicing", v18), (cp "svd_enable_cpu_offload", v21), (cp "svd_enable_vae_slicing", v19), (cp "svd_enable_vae_tiling", v20), (cp "svd_extend_strategy", v23), (cp "svd_extend_to_audio", v22), (cp "svd_fps", v9), (cp "svd_max_guidance_scale", v15), (cp "svd_min_guidance_scale", v14), (cp "svd_motion_bucket_id", v12), (cp "svd_mps_max_pixels", v25), (cp "svd_noise_aug_strength", v13), (cp "svd_num_frames", v10), (cp "svd_num_inference_steps", v11), (cp "svd_seed", v17)]
      = [(cp "svd_auto_downscale", v24), (cp "svd_decode_chunk_size", v16), (cp "svd_enable_attention_slicing", v18), (cp "svd_enable_cpu_offload", v21), (cp "svd_enable_vae_slicing", v19), (cp "svd_enable_vae_tiling", v20), (cp "svd_extend_strategy", v23), (cp "svd_extend_to_audio", v22), (cp "svd_fps", v9), (cp "svd_height", v8), (cp "svd_max_guidance_scale", v15), (cp "svd_min_guidance_scale", v14), (cp "svd_motion_bucket_id", v12), (cp "svd_mps_max_pixels", v25), (cp "svd_noise_aug_strength", v13), (cp "svd_num_frames", v10), (cp "svd_num_inference_steps", v11), (cp "svd_seed", v17)] := rfl
  have s18 : List.orderedInsert keyLe (cp "svd_width", v7)
      [(cp "svd_auto_downscale", v24), (cp "svd_decode_chunk_size", v16), (cp "svd_enable_attention_slicing", v18), (cp "svd_enable_cpu_offload", v21), (cp "svd_enable_vae_slicing", v19), (cp "svd_enable_vae_tiling", v20), (cp "svd_extend_strategy", v23), (cp "svd_extend_to_audio", v22), (cp "svd_fps", v9), (cp "svd_height", v8), (cp "svd_max_guidance_scale", v15), (cp "svd_min_guidance_scale", v14), (cp "svd_motion_bucket_id", v12), (cp "svd_mps_max_pixels", v25), (cp "svd_noise_aug_strength", v13), (cp "svd_num_frames", v10), (cp "svd_num_inference_steps", v11), (cp "svd_seed", v17)]
      = [(cp "svd_auto_downscale", v24), (cp "svd_decode_chunk_size", v16), (cp "svd_enable_attention_slicing", v18), (cp "svd_enable_cpu_offload", v21), (cp "svd_enable_vae_slicing", v19), (cp "svd_enable_vae_tiling", v20), (cp "svd_extend_strategy", v23), (cp "svd_extend_to_audio", v22), (cp "svd_fps", v9), (cp "svd_height", v8), (cp "svd_max_guidance_scale", v15), (cp "svd_min_guidance_scale", v14), (cp "svd_motion_bucket_id", v12), (cp "svd_mps_max_pixels", v25), (cp "svd_noise_aug_strength", v13), (cp "svd_num_frames", v10), (cp "svd_num_inference_steps", v11), (cp "svd_seed", v17), (cp "svd_width", v7)] := rfl
  have s19 : List.orderedInsert keyLe (cp "svd_dtype", v6)
      [(cp "svd_auto_downscale", v24), (cp "svd_decode_chunk_size", v16), (cp "svd_enable_attention_slicing", v18), (cp "svd_enable_cpu_offload", v21), (cp "svd_enable_vae_slicing", v19), (cp "svd_enable_vae_tiling", v20), (cp "svd_extend_strategy", v23), (cp "svd_extend_to_audio", v22), (cp "svd_fps", v9), (cp "svd_height", v8), (cp "svd_max_guidance_scale", v15), (cp "svd_min_guidance_scale", v14), (cp "svd_motion_bucket_id", v12), (cp "svd_mps_max_pixels", v25), (cp "svd_noise_aug_strength", v13), (cp "svd_num_frames", v10), (cp "svd_num_inference_steps", v11), (cp "svd_seed", v17), (cp "svd_width", v7)]
      = [(cp "svd_auto_downscale", v24), (cp "svd_decode_chunk_size", v16), (cp "svd_dtype", v6), (cp "svd_enable_attention_slicing", v18), (cp "svd_enable_cpu_offload", v21), (cp "svd_enable_vae_slicing", v19), (cp "svd_enable_vae_tiling", v20), (cp "svd_extend_strategy", v23), (cp "svd_extend_to_audio", v22), (cp "svd_fps", v9), (cp "svd_height", v8), (cp "svd_max_guidance_scale", v15), (cp "svd_min_guidance_scale", v14), (cp "svd_motion_bucket_id", v12), (cp "svd_mps_max_pixels", v25), (cp "svd_noise_aug_strength", v13), (cp "svd_num_frames", v10), (cp "svd_num_inference_steps", v11), (cp "svd_seed", v17), (cp "svd_width", v7)] := rfl
  have s20 : List.orderedInsert keyLe (cp "svd_device", v5)
      [(cp "svd_auto_downscale", v24), (cp "svd_decode_chunk_size", v16), (cp "svd_dtype", v6), (cp "svd_enable_attention_slicing", v18), (cp "svd_enable_cpu_offload", v21), (cp "svd_enable_vae_slicing", v19), (cp "svd_enable_vae_tiling", v20), (cp "svd_extend_strategy", v23), (cp "svd_extend_to_audio", v22), (cp "svd_fps", v9), (cp "svd_height", v8), (cp "svd_max_guidance_scale", v15), (cp "svd_min_guidance_scale", v14), (cp "svd_motion_bucket_id", v12), (cp "svd_mps_max_pixels", v25), (cp "svd_noise_aug_strength", v13), (cp "svd_num_frames", v10), (cp "svd_num_inference_steps", v11), (cp "svd_seed", v17), (cp "svd_width", v7)]
      = [(cp "svd_auto_downscale", v24), (cp "svd_decode_chunk_size", v16), (cp "svd_device", v5), (cp "svd_dtype", v6), (cp "svd_enable_attention_slicing", v18), (cp "svd_enable_cpu_offload", v21), (cp "svd_enable_vae_slicing", v19), (cp "svd_enable_vae_tiling", v20), (cp "svd_extend_strategy", v23), (cp "svd_extend_to_audio", v22), (cp "svd_fps", v9), (cp "svd_height", v8), (cp "svd_max_guidance_scale", v15), (cp "svd_min_guidance_scale", v14), (cp "svd_motion_bucket_id", v12), (cp "svd_mps_max_pixels", v25), (cp "svd_noise_aug_strength", v13), (cp "svd_num_frames", v10), (cp "svd_num_inference_steps", v11), (cp "svd_seed", v17), (cp "svd_width", v7)] := rfl
  have s21 : List.orderedInsert keyLe (cp "svd_local_files_only", v4)
      [(cp "svd_auto_downscale", v24), (cp "svd_decode_chunk_size", v16), (cp "svd_device", v5), (cp "svd_dtype", v6), (cp "svd_enable_attention_slicing", v18), (cp "svd_enable_cpu_offload", v21), (cp "svd_enable_vae_slicing", v19), (cp "svd_enable_vae_tiling", v20), (cp "svd_extend_strategy", v23), (cp "svd_extend_to_audio", v22), (cp "svd_fps", v9), (cp "svd_height", v8), (cp "svd_max_guidance_scale", v15), (cp "svd_min_guidance_scale", v14), (cp "svd_motion_bucket_id", v12), (cp "svd_mps_max_pixels", v25), (cp "svd_noise_aug_strength", v13), (cp "svd_num_frames", v10), (cp "svd_num_inference_steps", v11), (cp "svd_seed", v17), (cp "svd_width", v7)]
      = [(cp "svd_auto_downscale", v24), (cp "svd_decode_chunk_size", v16), (cp "svd_device", v5), (cp "svd_dtype", v6), (cp "svd_enable_attention_slicing", v18), (cp "svd_enable_cpu_offload", v21), (cp "svd_enable_vae_slicing", v19), (cp "svd_enable_vae_tiling", v20), (cp "svd_extend_strategy", v23), (cp "svd_extend_to_audio", v22), (cp "svd_fps", v9), (cp "svd_height", v8), (cp "svd_local_files_only", v4), (cp "svd_max_guidance_scale", v15), (cp "svd_min_guidance_scale", v14), (cp "svd_motion_bucket_id", v12), (cp "svd_mps_max_pixels", v25), (cp "svd_noise_aug_strength", v13), (cp "svd_num_frames", v10), (cp "svd_num_inference_steps", v11), (cp "svd_seed", v17), (cp "svd_width", v7)] := rfl
  have s22 : List.orderedInsert keyLe (cp "svd_variant", v3)
      [(cp "svd_auto_downscale", v24), (cp "svd_decode_chunk_size", v16), (cp "svd_device", v5), (cp "svd_dtype", v6), (cp "svd_enable_attention_slicing", v18), (cp "svd_enable_cpu_offload", v21), (cp "svd_enable_vae_slicing", v19), (cp "svd_enable_vae_tiling", v20), (cp "svd_extend_strategy", v23), (cp "svd_extend_to_audio", v22), (cp "svd_fps", v9), (cp "svd_height", v8), (cp "svd_local_files_only", v4), (cp "svd_max_guidance_scale", v15), (cp "svd_min_guidance_scale", v14), (cp "svd_motion_bucket_id", v12), (cp "svd_mps_max_pixels", v25), (cp "svd_noise_aug_strength", v13), (cp "svd_num_frames", v10), (cp "svd_num_inference_steps", v11), (cp "svd_seed", v17), (cp "svd_width", v7)]
      = [(cp "svd_auto_downscale", v24), (cp "svd_decode_chunk_size", v16), (cp "svd_device", v5), (cp "svd_dtype", v6), (cp "svd_enable_attention_slicing", v18), (cp "svd_enable_cpu_offload", v21), (cp "svd_enable_vae_slicing", v19), (cp "svd_enable_vae_tiling", v20), (cp "svd_extend_strategy", v23), (cp "svd_extend_to_audio", v22), (cp "svd_fps", v9), (cp "svd_height", v8), (cp "svd_local_files_only", v4), (cp "svd_max_guidance_scale", v15), (cp "svd_min_guidance_scale", v14), (cp "svd_motion_bucket_id", v12), (cp "svd_mps_max_pixels", v25), (cp "svd_noise_aug_strength", v13), (cp "svd_num_frames", v10), (cp "svd_num_inference_steps", v11), (cp "svd_seed", v17), (cp "svd_variant", v3), (cp "svd_width", v7)] := rfl
  have s23 : List.orderedInsert keyLe (cp "svd_revision", v2)
      [(cp "svd_auto_downscale", v24), (cp "svd_decode_chunk_size", v16), (cp "svd_device", v5), (cp "svd_dtype", v6), (cp "svd_enable_attention_slicing", v18), (cp "svd_enable_cpu_offload", v21), (cp "svd_enable_vae_slicing", v19), (cp "svd_enable_vae_tiling", v20), (cp "svd_extend_strategy", v23), (cp "svd_extend_to_audio", v22), (cp "svd_fps", v9), (cp "svd_height", v8), (cp "svd_local_files_only", v4), (cp "svd_max_guidance_scale", v15), (cp "svd_min_guidance_scale", v14), (cp "svd_motion_bucket_id", v12), (cp "svd_mps_max_pixels", v25), (cp "svd_noise_aug_strength", v13), (cp "svd_num_frames", v10), (cp "svd_num_inference_steps", v11), (cp "svd_seed", v17), (cp "svd_variant", v3), (cp "svd_width", v7)]
      = [(cp "svd_auto_downscale", v24), (cp "svd_decode_chunk_size", v16), (cp "svd_device", v5), (cp "svd_dtype", v6), (cp "svd_enable_attention_slicing", v18), (cp "svd_enable_cpu_offload", v21), (cp "svd_enable_vae_slicing", v19), (cp "svd_enable_vae_tiling", v20), (cp "svd_extend_strategy", v23), (cp "svd_extend_to_audio", v22), (cp "svd_fps", v9), (cp "svd_height", v8), (cp "svd_local_files_only", v4), (cp "svd_max_guidance_scale", v15), (cp "svd_min_guidance_scale", v14), (cp "svd_motion_bucket_id", v12), (cp "svd_mps_max_pixels", v25), (cp "svd_noise_aug_strength", v13), (cp "svd_num_frames", v10), (cp "svd_num_inference_steps", v11), (cp "svd_revision", v2), (cp "svd_seed", v17), (cp "svd_variant", v3), (cp "svd_width", v7)] := rfl
  have s24 : List.orderedInsert keyLe (cp "svd_model", v1)
      [(cp "svd_auto_downscale", v24), (cp "svd_decode_chunk_size", v16), (cp "svd_device", v5), (cp "svd_dtype", v6), (cp "svd_enable_attention_slicing", v18), (cp "svd_enable_cpu_offload", v21), (cp "svd_enable_vae_slicing", v19), (cp "svd_enable_vae_tiling", v20), (cp "svd_extend_strategy", v23), (cp "svd_extend_to_audio", v22), (cp "svd_fps", v9), (cp "svd_height", v8), (cp "svd_local_files_only", v4), (cp "svd_max_guidance_scale", v15), (cp "svd_min_guidance_scale", v14), (cp "svd_motion_bucket_id", v12), (cp "svd_mps_max_pixels", v25), (cp "svd_noise_aug_strength", v13), (cp "svd_num_frames", v10), (cp "svd_num_inference_steps", v11), (cp "svd_revision", v2), (cp "svd_seed", v17), (cp "svd_variant", v3), (cp "svd_width", v7)]
      = [(cp "svd_auto_downscale", v24), (cp "svd_decode_chunk_size", v16), (cp "svd_device", v5), (cp "svd_dtype", v6), (cp "svd_enable_attention_slicing", v18), (cp "svd_enable_cpu_offload", v21), (cp "svd_enable_vae_slicing", v19), (cp "svd_enable_vae_tiling", v20), (cp "svd_extend_strategy", v23), (cp "svd_extend_to_audio", v22), (cp "svd_fps", v9), (cp "svd_height", v8), (cp "svd_local_files_only", v4), (cp "svd_max_guidance_scale", v15), (cp "svd_min_guidance_scale", v14), (cp "svd_model", v1), (cp "svd_motion_bucket_id", v12), (cp "svd_mps_max_pixels", v25), (cp "svd_noise_aug_strength", v13), (cp "svd_num_frames", v10), (cp "svd_num_inference_steps", v11), (cp "svd_revision", v2), (cp "svd_seed", v17), (cp "svd_variant", v3), (cp "svd_width", v7)] := rfl
  rw [hstep, hstep, hstep, hstep, hstep, hstep, hstep, hstep, hstep, hstep, hstep, hstep, hstep, hstep, hstep, hstep, hstep, hstep, hstep, hstep, hstep, hstep, hstep, hstep, hstep]
  rw [show sortFields ([] : List (List Nat × JVal)) = [] from rfl]
  rw [s0, s1, s2, s3, s4, s5, s6, s7, s8, s9, s10, s11, s12, s13, s14, s15, s16, s17, s18, s19, s20, s21, s22, s23, s24]

lemma dumpsObj_svdT (m : List Nat) (rev vr : Option (List Nat)) (lfo : Bool)
    (dev : Option (List Nat)) (dt : List Nat) (wd ht fps nf nis mbi : Int)
    (nas mings maxgs : List Nat) (dcs : Int) (sd : Option Int)
    (eas evs evt eco exa : Bool) (es : List Nat) (ad : Bool) (mmp : Int) :
    dumpsObj [ (cp "svd_model", .jstr m),
               (cp "svd_revision", optStr rev),
               (cp "svd_variant", optStr vr),
               (cp "svd_local_files_only", .jbool lfo),
               (cp "svd_device", optStr dev),
               (cp "svd_dtype", .jstr dt),
               (cp "svd_width", .jint wd),
               (cp "svd_height", .jint ht),
               (cp "svd_fps", .jint fps),
               (cp "svd_num_frames", .jint nf),
               (cp "svd_num_inference_steps", .jint nis),
               (cp "svd_motion_bucket_id", .jint mbi),
               (cp "svd_noise_aug_strength", .jnum nas),
               (cp "svd_min_guidance_scale", .jnum mings),
               (cp "svd_max_guidance_scale", .jnum maxgs),
               (cp "svd_decode_chunk_size", .jint dcs),
               (cp "svd_seed", optInt sd),
               (cp "svd_enable_attention_slicing", .jbool eas),
               (cp "svd_enable_vae_slicing", .jbool evs),
               (cp "svd_enable_vae_tiling", .jbool evt),
               (cp "svd_enable_cpu_offload", .jbool eco),
               (cp "svd_extend_to_audio", .jbool exa),
               (cp "svd_extend_strategy", .jstr es),
               (cp "svd_auto_downscale", .jbool ad),
               (cp "svd_mps_max_pixels", .jint mmp) ]
      = 123 :: (serF (listToF
          [ (cp "svd_auto_downscale", .jbool ad),
            (cp "svd_decode_chunk_size", .jint dcs),
            (cp "svd_device", optStr dev),
            (cp "svd_dtype", .jstr dt),
            (cp "svd_enable_attention_slicing", .jbool eas),
            (cp "svd_enable_cpu_offload", .jbool eco),
            (cp "svd_enable_vae_slicing", .jbool evs),
            (cp "svd_enable_vae_tiling", .jbool evt),
            (cp "svd_extend_strategy", .jstr es),
            (cp "svd_extend_to_audio", .jbool exa),
            (cp "svd_fps", .jint fps),
            (cp "svd_height", .jint ht),
            (cp "svd_local_files_only", .jbool lfo),
            (cp "svd_max_guidance_scale", .jnum maxgs),
            (cp "svd_min_guidance_scale", .jnum mings),
            (cp "svd_model", .jstr m),
            (cp "svd_motion_bucket_id", .jint mbi),
            (cp "svd_mps_max_pixels", .jint mmp),
            (cp "svd_noise_aug_strength", .jnum nas),
            (cp "svd_num_frames", .jint nf),
            (cp "svd_num_inference_steps", .jint nis),
            (cp "svd_revision", optStr rev),
            (cp "svd_seed", optInt sd),
            (cp "svd_variant", optStr vr),
            (cp "svd_width", .jint wd) ]) ++ [125]) := by
  rw [dumpsObj_eq]
  simp only [List.map_cons, List.map_nil, canon, canon_optStr, canon_optInt]
  rw [sortFields_svd]

lemma key_sens_backend_name (s1 s2 : Settings) (img aud : List Nat)
    (opts : List (List Nat × JVal))
    (hv1 : ValidCps s1.generator_backend) (hv2 : ValidCps s2.generator_backend)
    (h01 : (0 : Nat) ∉ s1.generator_backend) (h02 : (0 : Nat) ∉ s2.generator_backend)
    (hne : s1.generator_backend ≠ s2.generator_backend) :
    cache_key s1 img aud opts ≠ cache_key s2 img aud opts := by
  intro h
  unfold cache_key at h
  simp only [List.append_assoc, List.cons_append, List.nil_append] at h
  replace h := List.append_cancel_left h
  simp only [List.cons.injEq, true_and] at h
  replace h := List.append_cancel_left h
  simp only [List.cons.injEq, true_and] at h
  obtain ⟨hu, _⟩ := append_null_inj (utf8_null_free h01) (utf8_null_free h02) h
  exact hne (utf8_inj (validCodes_of_validCps hv1) (validCodes_of_validCps hv2) hu)

lemma key_sens_image (s : Settings) (img1 img2 aud : List Nat)
    (opts : List (List Nat × JVal))
    (hlen : img1.length = img2.length) (hne : img1 ≠ img2) :
    cache_key s img1 aud opts ≠ cache_key s img2 aud opts := by
  intro hEq
  have h := cache_key_tail rfl hEq
  replace h := List.append_cancel_left h
  replace h := List.append_cancel_left h
  simp only [List.cons.injEq, true_and] at h
  exact hne (List.append_inj h hlen).1

lemma key_sens_audio (s : Settings) (img aud1 aud2 : List Nat)
    (opts : List (List Nat × JVal))
    (hlen : aud1.length = aud2.length) (hne : aud1 ≠ aud2) :
    cache_key s img aud1 opts ≠ cache_key s img aud2 opts := by
  intro hEq
  have h := cache_key_tail rfl hEq
  replace h := List.append_cancel_left h
  replace h := List.append_cancel_left h
  simp only [List.cons.injEq, true_and] at h
  replace h := List.append_cancel_left h
  simp only [List.cons.injEq, true_and] at h
  replace h := List.append_cancel_left h
  simp only [List.cons.injEq, true_and] at h
  exact hne (List.append_inj h hlen).1

lemma key_sens_option_value (s : Settings) (img aud : List Nat)
    (L R : List (List Nat × JVal)) (k : List Nat) (x1 x2 : JVal)
    (hkeys : List.Pairwise (fun a b => lexLtB a b = true)
      (List.map Prod.fst L ++ k :: List.map Prod.fst R))
    (hflat : FlatPair x1 x2) (hne : x1 ≠ x2) :
    cache_key s img aud (L ++ (k, x1) :: R) ≠ cache_key s img aud (L ++ (k, x2) :: R) := by
  intro hEq
  have h := cache_key_tail rfl hEq
  replace h := List.append_cancel_left h
  replace h := List.append_cancel_left h
  simp only [List.cons.injEq, true_and] at h
  replace h := List.append_cancel_left h
  simp only [List.cons.injEq, true_and] at h
  replace h := List.append_cancel_left h
  simp only [List.cons.injEq, true_and] at h
  replace h := List.append_cancel_left h
  simp only [List.cons.injEq, true_and] at h
  replace h := List.append_cancel_left h
  simp only [List.cons.injEq, true_and] at h
  obtain ⟨hc1, hc2⟩ := canon_flat hflat
  rw [dumpsObj_eq, dumpsObj_eq] at h
  simp only [List.map_append, List.map_cons] at h
  rw [hc1, hc2] at h
  have hs1 : List.Sorted keyLt
      (List.map (fun e => (e.1, canon e.2)) L
        ++ (k, x1) :: List.map (fun e => (e.1, canon e.2)) R) := by
    apply sorted_keyLt_of_keys
    simp only [List.map_append, List.map_cons, map_fst_canonE]
    exact hkeys
  have hs2 : List.Sorted keyLt
      (List.map (fun e => (e.1, canon e.2)) L
        ++ (k, x2) :: List.map (fun e => (e.1, canon e.2)) R) := by
    apply sorted_keyLt_of_keys
    simp only [List.map_append, List.map_cons, map_fst_canonE]
    exact hkeys
  rw [sortFields_eq_self hs1, sortFields_eq_self hs2] at h
  simp only [List.cons.injEq, true_and] at h
  replace h := List.append_cancel_right h
  exact hne (ser_flat_inj hflat (serF_single_diff _ _ k x1 x2 h))

lemma key_sens_sad_repo_dir (img aud : List Nat) (opts : List (List Nat × JVal))
    (rd rd2 : List Nat) (py : Option (List Nat)) (sz : Int) (pre : List Nat) (enh : Option (List Nat))
    (hva : ValidCps rd) (hvb : ValidCps rd2) (hne : rd ≠ rd2) :
    cache_key (sadS rd py sz pre enh) img aud opts
      ≠ cache_key (sadS rd2 py sz pre enh) img aud opts := by
  intro hEq
  have hD := cache_key_cfg_eq hEq rfl
  rw [backend_cfg_sadS, backend_cfg_sadS, dumpsObj_sadT, dumpsObj_sadT] at hD
  simp only [List.cons.injEq, true_and] at hD
  replace hD := List.append_cancel_right hD
  have hv := serF_single_diff
    [(cp "sadtalker_enhancer", optStr enh), (cp "sadtalker_preprocess", JVal.jstr pre), (cp "sadtalker_python", optStr py)]
    [(cp "sadtalker_size", JVal.jint sz)]
    (cp "sadtalker_repo_dir") (JVal.jstr rd) (JVal.jstr rd2) hD
  exact hne (ser_jstr_inj hva hvb hv)

lemma key_sens_sad_python (img aud : List Nat) (opts : List (List Nat × JVal))
    (rd : List Nat) (py py2 : Option (List Nat)) (sz : Int) (pre : List Nat) (enh : Option (List Nat))
    (hva : ValidCpsOpt py) (hvb : ValidCpsOpt py2) (hne : py ≠ py2) :
    cache_key (sadS rd py sz pre enh) img aud opts
      ≠ cache_key (sadS rd py2 sz pre enh) img aud opts := by
  intro hEq
  have hD := cache_key_cfg_eq hEq rfl
  rw [backend_cfg_sadS, backend_cfg_sadS, dumpsObj_sadT, dumpsObj_sadT] at hD
  simp only [List.cons.injEq, true_and] at hD
  replace hD := List.append_cancel_right hD
  have hv := serF_single_diff
    [(cp "sadtalker_enhancer", optStr enh), (cp "sadtalker_preprocess", JVal.jstr pre)]
    [(cp "sadtalker_repo_dir", JVal.jstr rd), (cp "sadtalker_size", JVal.jint sz)]
    (cp "sadtalker_python") (optStr py) (optStr py2) hD
  exact hne (ser_optStr_inj hva hvb hv)

lemma key_sens_sad_size (img aud : List Nat) (opts : List (List Nat × JVal))
    (rd : List Nat) (py : Option (List Nat)) (sz sz2 : Int) (pre : List Nat) (enh : Option (List Nat))
    (hne : sz ≠ sz2) :
    cache_key (sadS rd py sz pre enh) img aud opts
      ≠ cache_key (sadS rd py sz2 pre enh) img aud opts := by
  intro hEq
  have hD := cache_key_cfg_eq hEq rfl
  rw [backend_cfg_sadS, backend_cfg_sadS, dumpsObj_sadT, dumpsObj_sadT] at hD
  simp only [List.cons.injEq, true_and] at hD
  replace hD := List.append_cancel_right hD
  have hv := serF_single_diff
    [(cp "sadtalker_enhancer", optStr enh), (cp "sadtalker_preprocess", JVal.jstr pre), (cp "sadtalker_python", optStr py), (cp "sadtalker_repo_dir", JVal.jstr rd)]
    []
    (cp "sadtalker_size") (JVal.jint sz) (JVal.jint sz2) hD
  exact hne (ser_jint_inj hv)

lemma key_sens_sad_preprocess (img aud : List Nat) (opts : List (List Nat × JVal))
    (rd : List Nat) (py : Option (List Nat)) (sz : Int) (pre pre2 : List Nat) (enh : Option (List Nat))
    (hva : ValidCps pre) (hvb : ValidCps pre2) (hne : pre ≠ pre2) :
    cache_key (sadS rd py sz pre enh) img aud opts
      ≠ cache_key (sadS rd py sz pre2 enh) img aud opts := by
  intro hEq
  have hD := cache_key_cfg_eq hEq rfl
  rw [backend_cfg_sadS, backend_cfg_sadS, dumpsObj_sadT, dumpsObj_sadT] at hD
  simp only [List.cons.injEq, true_and] at hD
  replace hD := List.append_cancel_right hD
  have hv := serF_single_diff
    [(cp "sadtalker_enhancer", optStr enh)]
    [(cp "sadtalker_python", optStr py), (cp "sadtalker_repo_dir", JVal.jstr rd), (cp "sadtalker_size", JVal.jint sz)]
    (cp "sadtalker_preprocess") (JVal.jstr pre) (JVal.jstr pre2) hD
  exact hne (ser_jstr_inj hva hvb hv)

lemma key_sens_sad_enhancer (img aud : List Nat) (opts : List (List Nat × JVal))
    (rd : List Nat) (py : Option (List Nat)) (sz : Int) (pre : List Nat) (enh enh2 : Option (List Nat))
    (hva : ValidCpsOpt enh) (hvb : ValidCpsOpt enh2) (hne : enh ≠ enh2) :
    cache_key (sadS rd py sz pre enh) img aud opts
      ≠ cache_key (sadS rd py sz pre enh2) img aud opts := by
  intro hEq
  have hD := cache_key_cfg_eq hEq rfl
  rw [backend_cfg_sadS, backend_cfg_sadS, dumpsObj_sadT, dumpsObj_sadT] at hD
  simp only [List.cons.injEq, true_and] at hD
  replace hD := List.append_cancel_right hD
  have hv := serF_single_diff
    []
    [(cp "sadtalker_preprocess", JVal.jstr pre), (cp "sadtalker_python", optStr py), (cp "sadtalker_repo_dir", JVal.jstr rd), (cp "sadtalker_size", JVal.jint sz)]
    (cp "sadtalker_enhancer") (optStr enh) (optStr enh2) hD
  exact hne (ser_optStr_inj hva hvb hv)

lemma key_sens_svd_model (img aud : List Nat) (opts : List (List Nat × JVal))
    (m m2 : List Nat) (rev : Option (List Nat)) (vr : Option (List Nat)) (lfo : Bool) (dev : Option (List Nat)) (dt : List Nat) (wd : Int) (ht : Int) (fps : Int) (nf : Int) (nis : Int) (mbi : Int) (nas : List Nat) (mings : List Nat) (maxgs : List Nat) (dcs : Int) (sd : Option Int) (eas : Bool) (evs : Bool) (evt : Bool) (eco : Bool) (exa : Bool) (es : List Nat) (ad : Bool) (mmp : Int)
    (hva : ValidCps m) (hvb : ValidCps m2) (hne : m ≠ m2) :
    cache_key (svdS m rev vr lfo dev dt wd ht fps nf nis mbi nas mings maxgs dcs sd eas evs evt eco exa es ad mmp) img aud opts
      ≠ cache_key (svdS m2 rev vr lfo dev dt wd ht fps nf nis mbi nas mings maxgs dcs sd eas evs evt eco exa es ad mmp) img aud opts := by
  intro hEq
  have hD := cache_key_cfg_eq hEq rfl
  rw [backend_cfg_svdS, backend_cfg_svdS, dumpsObj_svdT, dumpsObj_svdT] at hD
  simp only [List.cons.injEq, true_and] at hD
  replace hD := List.append_cancel_right hD
  have hv := serF_single_diff
    [(cp "svd_auto_downscale", JVal.jbool ad), (cp "svd_decode_chunk_size", JVal.jint dcs), (cp "svd_device", optStr dev), (cp "svd_dtype", JVal.jstr dt), (cp "svd_enable_attention_slicing", JVal.jbool eas), (cp "svd_enable_cpu_offload", JVal.jbool eco), (cp "svd_enable_vae_slicing", JVal.jbool evs), (cp "svd_enable_vae_tiling", JVal.jbool evt), (cp "svd_extend_strategy", JVal.jstr es), (cp "svd_extend_to_audio", JVal.jbool exa), (cp "svd_fps", JVal.jint fps), (cp "svd_height", JVal.jint ht), (cp "svd_local_files_only", JVal.jbool lfo), (cp "svd_max_guidance_scale", JVal.jnum maxgs), (cp "svd_min_guidance_scale", JVal.jnum mings)]
    [(cp "svd_motion_bucket_id", JVal.jint mbi), (cp "svd_mps_max_pixels", JVal.jint mmp), (cp "svd_noise_aug_strength", JVal.jnum nas), (cp "svd_num_frames", JVal.jint nf), (cp "svd_num_inference_steps", JVal.jint nis), (cp "svd_revision", optStr rev), (cp "svd_seed", optInt sd), (cp "svd_variant", optStr vr), (cp "svd_width", JVal.jint wd)]
    (cp "svd_model") (JVal.jstr m) (JVal.jstr m2) hD
  exact hne (ser_jstr_inj hva hvb hv)

lemma key_sens_svd_revision (img aud : List Nat) (opts : List (List Nat × JVal))
    (m : List Nat) (rev rev2 : Option (List Nat)) (vr : Option (List Nat)) (lfo : Bool) (dev : Option (List Nat)) (dt : List Nat) (wd : Int) (ht : Int) (fps : Int) (nf : Int) (nis : Int) (mbi : Int) (nas : List Nat) (mings : List Nat) (maxgs : List Nat) (dcs : Int) (sd : Option Int) (eas : Bool) (evs : Bool) (evt : Bool) (eco : Bool) (exa : Bool) (es : List Nat) (ad : Bool) (mmp : Int)
    (hva : ValidCpsOpt rev) (hvb : ValidCpsOpt rev2) (hne : rev ≠ rev2) :
    cache_key (svdS m rev vr lfo dev dt wd ht fps nf nis mbi nas mings maxgs dcs sd eas evs evt eco exa es ad mmp) img aud opts
      ≠ cache_key (svdS m rev2 vr lfo dev dt wd ht fps nf nis mbi nas mings maxgs dcs sd eas evs evt eco exa es ad mmp) img aud opts := by
  intro hEq
  have hD := cache_key_cfg_eq hEq rfl
  rw [backend_cfg_svdS, backend_cfg_svdS, dumpsObj_svdT, dumpsObj_svdT] at hD
  simp only [List.cons.injEq, true_and] at hD
  replace hD := List.append_cancel_right hD
  have hv := serF_single_diff
    [(cp "svd_auto_downscale", JVal.jbool ad), (cp "svd_decode_chunk_size", JVal.jint dcs), (cp "svd_device", optStr dev), (cp "svd_dtype", JVal.jstr dt), (cp "svd_enable_attention_slicing", JVal.jbool eas), (cp "svd_enable_cpu_offload", JVal.jbool eco), (cp "svd_enable_vae_slicing", JVal.jbool evs), (cp "svd_enable_vae_tiling", JVal.jbool evt), (cp "svd_extend_strategy", JVal.jstr es), (cp "svd_extend_to_audio", JVal.jbool exa), (cp "svd_fps", JVal.jint fps), (cp "svd_height", JVal.jint ht), (cp "svd_local_files_only", JVal.jbool lfo), (cp "svd_max_guidance_scale", JVal.jnum maxgs), (cp "svd_min_guidance_scale", JVal.jnum mings), (cp "svd_model", JVal.jstr m), (cp "svd_motion_bucket_id", JVal.jint mbi), (cp "svd_mps_max_pixels", JVal.jint mmp), (cp "svd_noise_aug_strength", JVal.jnum nas), (cp "svd_num_frames", JVal.jint nf), (cp "svd_num_inference_steps", JVal.jint nis)]
    [(cp "svd_seed", optInt sd), (cp "svd_variant", optStr vr), (cp "svd_width", JVal.jint wd)]
    (cp "svd_revision") (optStr rev) (optStr rev2) hD
  exact hne (ser_optStr_inj hva hvb hv)

lemma key_sens_svd_variant (img aud : List Nat) (opts : List (List Nat × JVal))
    (m : List Nat) (rev : Option (List Nat)) (vr vr2 : Option (List Nat)) (lfo : Bool) (dev : Option (List Nat)) (dt : List Nat) (wd : Int) (ht : Int) (fps : Int) (nf : Int) (nis : Int) (mbi : Int) (nas : List Nat) (mings : List Nat) (maxgs : List Nat) (dcs : Int) (sd : Option Int) (eas : Bool) (evs : Bool) (evt : Bool) (eco : Bool) (exa : Bool) (es : List Nat) (ad : Bool) (mmp : Int)
    (hva : ValidCpsOpt vr) (hvb : ValidCpsOpt vr2) (hne : vr ≠ vr2) :
    cache_key (svdS m rev vr lfo dev dt wd ht fps nf nis mbi nas mings maxgs dcs sd eas evs evt eco exa es ad mmp) img aud opts
      ≠ cache_key (svdS m rev vr2 lfo dev dt wd ht fps nf nis mbi nas mings maxgs dcs sd eas evs evt eco exa es ad mmp) img aud opts := by
  intro hEq
  have hD := cache_key_cfg_eq hEq rfl
  rw [backend_cfg_svdS, backend_cfg_svdS, dumpsObj_svdT, dumpsObj_svdT] at hD
  simp only [List.cons.injEq, true_and] at hD
  replace hD := List.append_cancel_right hD
  have hv := serF_single_diff
    [(cp "svd_auto_downscale", JVal.jbool ad), (cp "svd_decode_chunk_size", JVal.jint dcs), (cp "svd_device", optStr dev), (cp "svd_dtype", JVal.jstr dt), (cp "svd_enable_attention_slicing", JVal.jbool eas), (cp "svd_enable_cpu_offload", JVal.jbool eco), (cp "svd_enable_vae_slicing", JVal.jbool evs), (cp "svd_enable_vae_tiling", JVal.jbool evt), (cp "svd_extend_strategy", JVal.jstr es), (cp "svd_extend_to_audio", JVal.jbool exa), (cp "svd_fps", JVal.jint fps), (cp "svd_height", JVal.jint ht), (cp "svd_local_files_only", JVal.jbool lfo), (cp "svd_max_guidance_scale", JVal.jnum maxgs), (cp "svd_min_guidance_scale", JVal.jnum mings), (cp "svd_model", JVal.jstr m), (cp "svd_motion_bucket_id", JVal.jint mbi), (cp "svd_mps_max_pixels", JVal.jint mmp), (cp "svd_noise_aug_strength", JVal.jnum nas), (cp "svd_num_frames", JVal.jint nf), (cp "svd_num_inference_steps", JVal.jint nis), (cp "svd_revision", optStr rev), (cp "svd_seed", optInt sd)]
    [(cp "svd_width", JVal.jint wd)]
    (cp "svd_variant") (optStr vr) (optStr vr2) hD
  exact hne (ser_optStr_inj hva hvb hv)

lemma key_sens_svd_local_files_only (img aud : List Nat) (opts : List (List Nat × JVal))
    (m : List Nat) (rev : Option (List Nat)) (vr : Option (List Nat)) (lfo lfo2 : Bool) (dev : Option (List Nat)) (dt : List Nat) (wd : Int) (ht : Int) (fps : Int) (nf : Int) (nis : Int) (mbi : Int) (nas : List Nat) (mings : List Nat) (maxgs : List Nat) (dcs : Int) (sd : Option Int) (eas : Bool) (evs : Bool) (evt : Bool) (eco : Bool) (exa : Bool) (es : List Nat) (ad : Bool) (mmp : Int)
    (hne : lfo ≠ lfo2) :
    cache_key (svdS m rev vr lfo dev dt wd ht fps nf nis mbi nas mings maxgs dcs sd eas evs evt eco exa es ad mmp) img aud opts
      ≠ cache_key (svdS m rev vr lfo2 dev dt wd ht fps nf nis mbi nas mings maxgs dcs sd eas evs evt eco exa es ad mmp) img aud opts := by
  intro hEq
  have hD := cache_key_cfg_eq hEq rfl
  rw [backend_cfg_svdS, backend_cfg_svdS, dumpsObj_svdT, dumpsObj_svdT] at hD
  simp only [List.cons.injEq, true_and] at hD
  replace hD := List.append_cancel_right hD
  have hv := serF_single_diff
    [(cp "svd_auto_downscale", JVal.jbool ad), (cp "svd_decode_chunk_size", JVal.jint dcs), (cp "svd_device", optStr dev), (cp "svd_dtype", JVal.jstr dt), (cp "svd_enable_attention_slicing", JVal.jbool eas), (cp "svd_enable_cpu_offload", JVal.jbool eco), (cp "svd_enable_vae_slicing", JVal.jbool evs), (cp "svd_enable_vae_tiling", JVal.jbool evt), (cp "svd_extend_strategy", JVal.jstr es), (cp "svd_extend_to_audio", JVal.jbool exa), (cp "svd_fps", JVal.jint fps), (cp "svd_height", JVal.jint ht)]
    [(cp "svd_max_guidance_scale", JVal.jnum maxgs), (cp "svd_min_guidance_scale", JVal.jnum mings), (cp "svd_model", JVal.jstr m), (cp "svd_motion_bucket_id", JVal.jint mbi), (cp "svd_mps_max_pixels", JVal.jint mmp), (cp "svd_noise_aug_strength", JVal.jnum nas), (cp "svd_num_frames", JVal.jint nf), (cp "svd_num_inference_steps", JVal.jint nis), (cp "svd_revision", optStr rev), (cp "svd_seed", optInt sd), (cp "svd_variant", optStr vr), (cp "svd_width", JVal.jint wd)]
    (cp "svd_local_files_only") (JVal.jbool lfo) (JVal.jbool lfo2) hD
  exact hne (ser_jbool_inj hv)

lemma key_sens_svd_device (img aud : List Nat) (opts : List (List Nat × JVal))
    (m : List Nat) (rev : Option (List Nat)) (vr : Option (List Nat)) (lfo : Bool) (dev dev2 : Option (List Nat)) (dt : List Nat) (wd : Int) (ht : Int) (fps : Int) (nf : Int) (nis : Int) (mbi : Int) (nas : List Nat) (mings : List Nat) (maxgs : List Nat) (dcs : Int) (sd : Option Int) (eas : Bool) (evs : Bool) (evt : Bool) (eco : Bool) (exa : Bool) (es : List Nat) (ad : Bool) (mmp : Int)
    (hva : ValidCpsOpt dev) (hvb : ValidCpsOpt dev2) (hne : dev ≠ dev2) :
    cache_key (svdS m rev vr lfo dev dt wd ht fps nf nis mbi nas mings maxgs dcs sd eas evs evt eco exa es ad mmp) img aud opts
      ≠ cache_key (svdS m rev vr lfo dev2 dt wd ht fps nf nis mbi nas mings maxgs dcs sd eas evs evt eco exa es ad mmp) img aud opts := by
  intro hEq
  have hD := cache_key_cfg_eq hEq rfl
  rw [backend_cfg_svdS, backend_cfg_svdS, dumpsObj_svdT, dumpsObj_svdT] at hD
  simp only [List.cons.injEq, true_and] at hD
  replace hD := List.append_cancel_right hD
  have hv := serF_single_diff
    [(cp "svd_auto_downscale", JVal.jbool ad), (cp "svd_decode_chunk_size", JVal.jint dcs)]
    [(cp "svd_dtype", JVal.jstr dt), (cp "svd_enable_attention_slicing", JVal.jbool eas), (cp "svd_enable_cpu_offload", JVal.jbool eco), (cp "svd_enable_vae_slicing", JVal.jbool evs), (cp "svd_enable_vae_tiling", JVal.jbool evt), (cp "svd_extend_strategy", JVal.jstr es), (cp "svd_extend_to_audio", JVal.jbool exa), (cp "svd_fps", JVal.jint fps), (cp "svd_height", JVal.jint ht), (cp "svd_local_files_only", JVal.jbool lfo), (cp "svd_max_guidance_scale", JVal.jnum maxgs), (cp "svd_min_guidance_scale", JVal.jnum mings), (cp "svd_model", JVal.jstr m), (cp "svd_motion_bucket_id", JVal.jint mbi), (cp "svd_mps_max_pixels", JVal.jint mmp), (cp "svd_noise_aug_strength", JVal.jnum nas), (cp "svd_num_frames", JVal.jint nf), (cp "svd_num_inference_steps", JVal.jint nis), (cp "svd_revision", optStr rev), (cp "svd_seed", optInt sd), (cp "svd_variant", optStr vr), (cp "svd_width", JVal.jint wd)]
    (cp "svd_device") (optStr dev) (optStr dev2) hD
  exact hne (ser_optStr_inj hva hvb hv)

lemma key_sens_svd_dtype (img aud : List Nat) (opts : List (List Nat × JVal))
    (m : List Nat) (rev : Option (List Nat)) (vr : Option (List Nat)) (lfo : Bool) (dev : Option (List Nat)) (dt dt2 : List Nat) (wd : Int) (ht : Int) (fps : Int) (nf : Int) (nis : Int) (mbi : Int) (nas : List Nat) (mings : List Nat) (maxgs : List Nat) (dcs : Int) (sd : Option Int) (eas : Bool) (evs : Bool) (evt : Bool) (eco : Bool) (exa : Bool) (es : List Nat) (ad : Bool) (mmp : Int)
    (hva : ValidCps dt) (hvb : ValidCps dt2) (hne : dt ≠ dt2) :
    cache_key (svdS m rev vr lfo dev dt wd ht fps nf nis mbi nas mings maxgs dcs sd eas evs evt eco exa es ad mmp) img aud opts
      ≠ cache_key (svdS m rev vr lfo dev dt2 wd ht fps nf nis mbi nas mings maxgs dcs sd eas evs evt eco exa es ad mmp) img aud opts := by
  intro hEq
  have hD := cache_key_cfg_eq hEq rfl
  rw [backend_cfg_svdS, backend_cfg_svdS, dumpsObj_svdT, dumpsObj_svdT] at hD
  simp only [List.cons.injEq, true_and] at hD
  replace hD := List.append_cancel_right hD
  have hv := serF_single_diff
    [(cp "svd_auto_downscale", JVal.jbool ad), (cp "svd_decode_chunk_size", JVal.jint dcs), (cp "svd_device", optStr dev)]
    [(cp "svd_enable_attention_slicing", JVal.jbool eas), (cp "svd_enable_cpu_offload", JVal.jbool eco), (cp "svd_enable_vae_slicing", JVal.jbool evs), (cp "svd_enable_vae_tiling", JVal.jbool evt), (cp "svd_extend_strategy", JVal.jstr es), (cp "svd_extend_to_audio", JVal.jbool exa), (cp "svd_fps", JVal.jint fps), (cp "svd_height", JVal.jint ht), (cp "svd_local_files_only", JVal.jbool lfo), (cp "svd_max_guidance_scale", JVal.jnum maxgs), (cp "svd_min_guidance_scale", JVal.jnum mings), (cp "svd_model", JVal.jstr m), (cp "svd_motion_bucket_id", JVal.jint mbi), (cp "svd_mps_max_pixels", JVal.jint mmp), (cp "svd_noise_aug_strength", JVal.jnum nas), (cp "svd_num_frames", JVal.jint nf), (cp "svd_num_inference_steps", JVal.jint nis), (cp "svd_revision", optStr rev), (cp "svd_seed", optInt sd), (cp "svd_variant", optStr vr), (cp "svd_width", JVal.jint wd)]
    (cp "svd_dtype") (JVal.jstr dt) (JVal.jstr dt2) hD
  exact hne (ser_jstr_inj hva hvb hv)

lemma key_sens_svd_width (img aud : List Nat) (opts : List (List Nat × JVal))
    (m : List Nat) (rev : Option (List Nat)) (vr : Option (List Nat)) (lfo : Bool) (dev : Option (List Nat)) (dt : List Nat) (wd wd2 : Int) (ht : Int) (fps : Int) (nf : Int) (nis : Int) (mbi : Int) (nas : List Nat) (mings : List Nat) (maxgs : List Nat) (dcs : Int) (sd : Option Int) (eas : Bool) (evs : Bool) (evt : Bool) (eco : Bool) (exa : Bool) (es : List Nat) (ad : Bool) (mmp : Int)
    (hne : wd ≠ wd2) :
    cache_key (svdS m rev vr lfo dev dt wd ht fps nf nis mbi nas mings maxgs dcs sd eas evs evt eco exa es ad mmp) img aud opts
      ≠ cache_key (svdS m rev vr lfo dev dt wd2 ht fps nf nis mbi nas mings maxgs dcs sd eas evs evt eco exa es ad mmp) img aud opts := by
  intro hEq
  have hD := cache_key_cfg_eq hEq rfl
  rw [backend_cfg_svdS, backend_cfg_svdS, dumpsObj_svdT, dumpsObj_svdT] at hD
  simp only [List.cons.injEq, true_and] at hD
  replace hD := List.append_cancel_right hD
  have hv := serF_single_diff
    [(cp "svd_auto_downscale", JVal.jbool ad), (cp "svd_decode_chunk_size", JVal.jint dcs), (cp "svd_device", optStr dev), (cp "svd_dtype", JVal.jstr dt), (cp "svd_enable_attention_slicing", JVal.jbool eas), (cp "svd_enable_cpu_offload", JVal.jbool eco), (cp "svd_enable_vae_slicing", JVal.jbool evs), (cp "svd_enable_vae_tiling", JVal.jbool evt), (cp "svd_extend_strategy", JVal.jstr es), (cp "svd_extend_to_audio", JVal.jbool exa), (cp "svd_fps", JVal.jint fps), (cp "svd_height", JVal.jint ht), (cp "svd_local_files_only", JVal.jbool lfo), (cp "svd_max_guidance_scale", JVal.jnum maxgs), (cp "svd_min_guidance_scale", JVal.jnum mings), (cp "svd_model", JVal.jstr m), (cp "svd_motion_bucket_id", JVal.jint mbi), (cp "svd_mps_max_pixels", JVal.jint mmp), (cp "svd_noise_aug_strength", JVal.jnum nas), (cp "svd_num_frames", JVal.jint nf), (cp "svd_num_inference_steps", JVal.jint nis), (cp "svd_revision", optStr rev), (cp "svd_seed", optInt sd), (cp "svd_variant", optStr vr)]
    []
    (cp "svd_width") (JVal.jint wd) (JVal.jint wd2) hD
  exact hne (ser_jint_inj hv)

lemma key_sens_svd_height (img aud : List Nat) (opts : List (List Nat × JVal))
    (m : List Nat) (rev : Option (List Nat)) (vr : Option (List Nat)) (lfo : Bool) (dev : Option (List Nat)) (dt : List Nat) (wd : Int) (ht ht2 : Int) (fps : Int) (nf : Int) (nis : Int) (mbi : Int) (nas : List Nat) (mings : List Nat) (maxgs : List Nat) (dcs : Int) (sd : Option Int) (eas : Bool) (evs : Bool) (evt : Bool) (eco : Bool) (exa : Bool) (es : List Nat) (ad : Bool) (mmp : Int)
    (hne : ht ≠ ht2) :
    cache_key (svdS m rev vr lfo dev dt wd ht fps nf nis mbi nas mings maxgs dcs sd eas evs evt eco exa es ad mmp) img aud opts
      ≠ cache_key (svdS m rev vr lfo dev dt wd ht2 fps nf nis mbi nas mings maxgs dcs sd eas evs evt eco exa es ad mmp) img aud opts := by
  intro hEq
  have hD := cache_key_cfg_eq hEq rfl
  rw [backend_cfg_svdS, backend_cfg_svdS, dumpsObj_svdT, dumpsObj_svdT] at hD
  simp only [List.cons.injEq, true_and] at hD
  replace hD := List.append_cancel_right hD
  have hv := serF_single_diff
    [(cp "svd_auto_downscale", JVal.jbool ad), (cp "svd_decode_chunk_size", JVal.jint dcs), (cp "svd_device", optStr dev), (cp "svd_dtype", JVal.jstr dt), (cp "svd_enable_attention_slicing", JVal.jbool eas), (cp "svd_enable_cpu_offload", JVal.jbool eco), (cp "svd_enable_vae_slicing", JVal.jbool evs), (cp "svd_enable_vae_tiling", JVal.jbool evt), (cp "svd_extend_strategy", JVal.jstr es), (cp "svd_extend_to_audio", JVal.jbool exa), (cp "svd_fps", JVal.jint fps)]
    [(cp "svd_local_files_only", JVal.jbool lfo), (cp "svd_max_guidance_scale", JVal.jnum maxgs), (cp "svd_min_guidance_scale", JVal.jnum mings), (cp "svd_model", JVal.jstr m), (cp "svd_motion_bucket_id", JVal.jint mbi), (cp "svd_mps_max_pixels", JVal.jint mmp), (cp "svd_noise_aug_strength", JVal.jnum nas), (cp "svd_num_frames", JVal.jint nf), (cp "svd_num_inference_steps", JVal.jint nis), (cp "svd_revision", optStr rev), (cp "svd_seed", optInt sd), (cp "svd_variant", optStr vr), (cp "svd_width", JVal.jint wd)]
    (cp "svd_height") (JVal.jint ht) (JVal.jint ht2) hD
  exact hne (ser_jint_inj hv)

lemma key_sens_svd_fps (img aud : List Nat) (opts : List (List Nat × JVal))
    (m : List Nat) (rev : Option (List Nat)) (vr : Option (List Nat)) (lfo : Bool) (dev : Option (List Nat)) (dt : List Nat) (wd : Int) (ht : Int) (fps fps2 : Int) (nf : Int) (nis : Int) (mbi : Int) (nas : List Nat) (mings : List Nat) (maxgs : List Nat) (dcs : Int) (sd : Option Int) (eas : Bool) (evs : Bool) (evt : Bool) (eco : Bool) (exa : Bool) (es : List Nat) (ad : Bool) (mmp : Int)
    (hne : fps ≠ fps2) :
    cache_key (svdS m rev vr lfo dev dt wd ht fps nf nis mbi nas mings maxgs dcs sd eas evs evt eco exa es ad mmp) img aud opts
      ≠ cache_key (svdS m rev vr lfo dev dt wd ht fps2 nf nis mbi nas mings maxgs dcs sd eas evs evt eco exa es ad mmp) img aud opts := by
  intro hEq
  have hD := cache_key_cfg_eq hEq rfl
  rw [backend_cfg_svdS, backend_cfg_svdS, dumpsObj_svdT, dumpsObj_svdT] at hD
  simp only [List.cons.injEq, true_and] at hD
  replace hD := List.append_cancel_right hD
  have hv := serF_single_diff
    [(cp "svd_auto_downscale", JVal.jbool ad), (cp "svd_decode_chunk_size", JVal.jint dcs), (cp "svd_device", optStr dev), (cp "svd_dtype", JVal.jstr dt), (cp "svd_enable_attention_slicing", JVal.jbool eas), (cp "svd_enable_cpu_offload", JVal.jbool eco), (cp "svd_enable_vae_slicing", JVal.jbool evs), (cp "svd_enable_vae_tiling", JVal.jbool evt), (cp "svd_extend_strategy", JVal.jstr es), (cp "svd_extend_to_audio", JVal.jbool exa)]
    [(cp "svd_height", JVal.jint ht), (cp "svd_local_files_only", JVal.jbool lfo), (cp "svd_max_guidance_scale", JVal.jnum maxgs), (cp "svd_min_guidance_scale", JVal.jnum mings), (cp "svd_model", JVal.jstr m), (cp "svd_motion_bucket_id", JVal.jint mbi), (cp "svd_mps_max_pixels", JVal.jint mmp), (cp "svd_noise_aug_strength", JVal.jnum nas), (cp "svd_num_frames", JVal.jint nf), (cp "svd_num_inference_steps", JVal.jint nis), (cp "svd_revision", optStr rev), (cp "svd_seed", optInt sd), (cp "svd_variant", optStr vr), (cp "svd_width", JVal.jint wd)]
    (cp "svd_fps") (JVal.jint fps) (JVal.jint fps2) hD
  exact hne (ser_jint_inj hv)

lemma key_sens_svd_num_frames (img aud : List Nat) (opts : List (List Nat × JVal))
    (m : List Nat) (rev : Option (List Nat)) (vr : Option (List Nat)) (lfo : Bool) (dev : Option (List Nat)) (dt : List Nat) (wd : Int) (ht : Int) (fps : Int) (nf nf2 : Int) (nis : Int) (mbi : Int) (nas : List Nat) (mings : List Nat) (maxgs : List Nat) (dcs : Int) (sd : Option Int) (eas : Bool) (evs : Bool) (evt : Bool) (eco : Bool) (exa : Bool) (es : List Nat) (ad : Bool) (mmp : Int)
    (hne : nf ≠ nf2) :
    cache_key (svdS m rev vr lfo dev dt wd ht fps nf nis mbi nas mings maxgs dcs sd eas evs evt eco exa es ad mmp) img aud opts
      ≠ cache_key (svdS m rev vr lfo dev dt wd ht fps nf2 nis mbi nas mings maxgs dcs sd eas evs evt eco exa es ad mmp) img aud opts := by
  intro hEq
  have hD := cache_key_cfg_eq hEq rfl
  rw [backend_cfg_svdS, backend_cfg_svdS, dumpsObj_svdT, dumpsObj_svdT] at hD
  simp only [List.cons.injEq, true_and] at hD
  replace hD := List.append_cancel_right hD
  have hv := serF_single_diff
    [(cp "svd_auto_downscale", JVal.jbool ad), (cp "svd_decode_chunk_size", JVal.jint dcs), (cp "svd_device", optStr dev), (cp "svd_dtype", JVal.jstr dt), (cp "svd_enable_attention_slicing", JVal.jbool eas), (cp "svd_enable_cpu_offload", JVal.jbool eco), (cp "svd_enable_vae_slicing", JVal.jbool evs), (cp "svd_enable_vae_tiling", JVal.jbool evt), (cp "svd_extend_strategy", JVal.jstr es), (cp "svd_extend_to_audio", JVal.jbool exa), (cp "svd_fps", JVal.jint fps), (cp "svd_height", JVal.jint ht), (cp "svd_local_files_only", JVal.jbool lfo), (cp "svd_max_guidance_scale", JVal.jnum maxgs), (cp "svd_min_guidance_scale", JVal.jnum mings), (cp "svd_model", JVal.jstr m), (cp "svd_motion_bucket_id", JVal.jint mbi), (cp "svd_mps_max_pixels", JVal.jint mmp), (cp "svd_noise_aug_strength", JVal.jnum nas)]
    [(cp "svd_num_inference_steps", JVal.jint nis), (cp "svd_revision", optStr rev), (cp "svd_seed", optInt sd), (cp "svd_variant", optStr vr), (cp "svd_width", JVal.jint wd)]
    (cp "svd_num_frames") (JVal.jint nf) (JVal.jint nf2) hD
  exact hne (ser_jint_inj hv)

lemma key_sens_svd_num_inference_steps (img aud : List Nat) (opts : List (List Nat × JVal))
    (m : List Nat) (rev : Option (List Nat)) (vr : Option (List Nat)) (lfo : Bool) (dev : Option (List Nat)) (dt : List Nat) (wd : Int) (ht : Int) (fps : Int) (nf : Int) (nis nis2 : Int) (mbi : Int) (nas : List Nat) (mings : List Nat) (maxgs : List Nat) (dcs : Int) (sd : Option Int) (eas : Bool) (evs : Bool) (evt : Bool) (eco : Bool) (exa : Bool) (es : List Nat) (ad : Bool) (mmp : Int)
    (hne : nis ≠ nis2) :
    cache_key (svdS m rev vr lfo dev dt wd ht fps nf nis mbi nas mings maxgs dcs sd eas evs evt eco exa es ad mmp) img aud opts
      ≠ cache_key (svdS m rev vr lfo dev dt wd ht fps nf nis2 mbi nas mings maxgs dcs sd eas evs evt eco exa es ad mmp) img aud opts := by
  intro hEq
  have hD := cache_key_cfg_eq hEq rfl
  rw [backend_cfg_svdS, backend_cfg_svdS, dumpsObj_svdT, dumpsObj_svdT] at hD
  simp only [List.cons.injEq, true_and] at hD
  replace hD := List.append_cancel_right hD
  have hv := serF_single_diff
    [(cp "svd_auto_downscale", JVal.jbool ad), (cp "svd_decode_chunk_size", JVal.jint dcs), (cp "svd_device", optStr dev), (cp "svd_dtype", JVal.jstr dt), (cp "svd_enable_attention_slicing", JVal.jbool eas), (cp "svd_enable_cpu_offload", JVal.jbool eco), (cp "svd_enable_vae_slicing", JVal.jbool evs), (cp "svd_enable_vae_tiling", JVal.jbool evt), (cp "svd_extend_strategy", JVal.jstr es), (cp "svd_extend_to_audio", JVal.jbool exa), (cp "svd_fps", JVal.jint fps), (cp "svd_height", JVal.jint ht), (cp "svd_local_files_only", JVal.jbool lfo), (cp "svd_max_guidance_scale", JVal.jnum maxgs), (cp "svd_min_guidance_scale", JVal.jnum mings), (cp "svd_model", JVal.jstr m), (cp "svd_motion_bucket_id", JVal.jint mbi), (cp "svd_mps_max_pixels", JVal.jint mmp), (cp "svd_noise_aug_strength", JVal.jnum nas), (cp "svd_num_frames", JVal.jint nf)]
    [(cp "svd_revision", optStr rev), (cp "svd_seed", optInt sd), (cp "svd_variant", optStr vr), (cp "svd_width", JVal.jint wd)]
    (cp "svd_num_inference_steps") (JVal.jint nis) (JVal.jint nis2) hD
  exact hne (ser_jint_inj hv)

lemma key_sens_svd_motion_bucket_id (img aud : List Nat) (opts : List (List Nat × JVal))
    (m : List Nat) (rev : Option (List Nat)) (vr : Option (List Nat)) (lfo : Bool) (dev : Option (List Nat)) (dt : List Nat) (wd : Int) (ht : Int) (fps : Int) (nf : Int) (nis : Int) (mbi mbi2 : Int) (nas : List Nat) (mings : List Nat) (maxgs : List Nat) (dcs : Int) (sd : Option Int) (eas : Bool) (evs : Bool) (evt : Bool) (eco : Bool) (exa : Bool) (es : List Nat) (ad : Bool) (mmp : Int)
    (hne : mbi ≠ mbi2) :
    cache_key (svdS m rev vr lfo dev dt wd ht fps nf nis mbi nas mings maxgs dcs sd eas evs evt eco exa es ad mmp) img aud opts
      ≠ cache_key (svdS m rev vr lfo dev dt wd ht fps nf nis mbi2 nas mings maxgs dcs sd eas evs evt eco exa es ad mmp) img aud opts := by
  intro hEq
  have hD := cache_key_cfg_eq hEq rfl
  rw [backend_cfg_svdS, backend_cfg_svdS, dumpsObj_svdT, dumpsObj_svdT] at hD
  simp only [List.cons.injEq, true_and] at hD
  replace hD := List.append_cancel_right hD
  have hv := serF_single_diff
    [(cp "svd_auto_downscale", JVal.jbool ad), (cp "svd_decode_chunk_size", JVal.jint dcs), (cp "svd_device", optStr dev), (cp "svd_dtype", JVal.jstr dt), (cp "svd_enable_attention_slicing", JVal.jbool eas), (cp "svd_enable_cpu_offload", JVal.jbool eco), (cp "svd_enable_vae_slicing", JVal.jbool evs), (cp "svd_enable_vae_tiling", JVal.jbool evt), (cp "svd_extend_strategy", JVal.jstr es), (cp "svd_extend_to_audio", JVal.jbool exa), (cp "svd_fps", JVal.jint fps), (cp "svd_height", JVal.jint ht), (cp "svd_local_files_only", JVal.jbool lfo), (cp "svd_max_guidance_scale", JVal.jnum maxgs), (cp "svd_min_guidance_scale", JVal.jnum mings), (cp "svd_model", JVal.jstr m)]
    [(cp "svd_mps_max_pixels", JVal.jint mmp), (cp "svd_noise_aug_strength", JVal.jnum nas), (cp "svd_num_frames", JVal.jint nf), (cp "svd_num_inference_steps", JVal.jint nis), (cp "svd_revision", optStr rev), (cp "svd_seed", optInt sd), (cp "svd_variant", optStr vr), (cp "svd_width", JVal.jint wd)]
    (cp "svd_motion_bucket_id") (JVal.jint mbi) (JVal.jint mbi2) hD
  exact hne (ser_jint_inj hv)

lemma key_sens_svd_noise_aug_strength (img aud : List Nat) (opts : List (List Nat × JVal))
    (m : List Nat) (rev : Option (List Nat)) (vr : Option (List Nat)) (lfo : Bool) (dev : Option (List Nat)) (dt : List Nat) (wd : Int) (ht : Int) (fps : Int) (nf : Int) (nis : Int) (mbi : Int) (nas nas2 : List Nat) (mings : List Nat) (maxgs : List Nat) (dcs : Int) (sd : Option Int) (eas : Bool) (evs : Bool) (evt : Bool) (eco : Bool) (exa : Bool) (es : List Nat) (ad : Bool) (mmp : Int)
    (hne : nas ≠ nas2) :
    cache_key (svdS m rev vr lfo dev dt wd ht fps nf nis mbi nas mings maxgs dcs sd eas evs evt eco exa es ad mmp) img aud opts
      ≠ cache_key (svdS m rev vr lfo dev dt wd ht fps nf nis mbi nas2 mings maxgs dcs sd eas evs evt eco exa es ad mmp) img aud opts := by
  intro hEq
  have hD := cache_key_cfg_eq hEq rfl
  rw [backend_cfg_svdS, backend_cfg_svdS, dumpsObj_svdT, dumpsObj_svdT] at hD
  simp only [List.cons.injEq, true_and] at hD
  replace hD := List.append_cancel_right hD
  have hv := serF_single_diff
    [(cp "svd_auto_downscale", JVal.jbool ad), (cp "svd_decode_chunk_size", JVal.jint dcs), (cp "svd_device", optStr dev), (cp "svd_dtype", JVal.jstr dt), (cp "svd_enable_attention_slicing", JVal.jbool eas), (cp "svd_enable_cpu_offload", JVal.jbool eco), (cp "svd_enable_vae_slicing", JVal.jbool evs), (cp "svd_enable_vae_tiling", JVal.jbool evt), (cp "svd_extend_strategy", JVal.jstr es), (cp "svd_extend_to_audio", JVal.jbool exa), (cp "svd_fps", JVal.jint fps), (cp "svd_height", JVal.jint ht), (cp "svd_local_files_only", JVal.jbool lfo), (cp "svd_max_guidance_scale", JVal.jnum maxgs), (cp "svd_min_guidance_scale", JVal.jnum mings), (cp "svd_model", JVal.jstr m), (cp "svd_motion_bucket_id", JVal.jint mbi), (cp "svd_mps_max_pixels", JVal.jint mmp)]
    [(cp "svd_num_frames", JVal.jint nf), (cp "svd_num_inference_steps", JVal.jint nis), (cp "svd_revision", optStr rev), (cp "svd_seed", optInt sd), (cp "svd_variant", optStr vr), (cp "svd_width", JVal.jint wd)]
    (cp "svd_noise_aug_strength") (JVal.jnum nas) (JVal.jnum nas2) hD
  exact hne hv

lemma key_sens_svd_min_guidance_scale (img aud : List Nat) (opts : List (List Nat × JVal))
    (m : List Nat) (rev : Option (List Nat)) (vr : Option (List Nat)) (lfo : Bool) (dev : Option (List Nat)) (dt : List Nat) (wd : Int) (ht : Int) (fps : Int) (nf : Int) (nis : Int) (mbi : Int) (nas : List Nat) (mings mings2 : List Nat) (maxgs : List Nat) (dcs : Int) (sd : Option Int) (eas : Bool) (evs : Bool) (evt : Bool) (eco : Bool) (exa : Bool) (es : List Nat) (ad : Bool) (mmp : Int)
    (hne : mings ≠ mings2) :
    cache_key (svdS m rev vr lfo dev dt wd ht fps nf nis mbi nas mings maxgs dcs sd eas evs evt eco exa es ad mmp) img aud opts
      ≠ cache_key (svdS m rev vr lfo dev dt wd ht fps nf nis mbi nas mings2 maxgs dcs sd eas evs evt eco exa es ad mmp) img aud opts := by
  intro hEq
  have hD := cache_key_cfg_eq hEq rfl
  rw [backend_cfg_svdS, backend_cfg_svdS, dumpsObj_svdT, dumpsObj_svdT] at hD
  simp only [List.cons.injEq, true_and] at hD
  replace hD := List.append_cancel_right hD
  have hv := serF_single_diff
    [(cp "svd_auto_downscale", JVal.jbool ad), (cp "svd_decode_chunk_size", JVal.jint dcs), (cp "svd_device", optStr dev), (cp "svd_dtype", JVal.jstr dt), (cp "svd_enable_attention_slicing", JVal.jbool eas), (cp "svd_enable_cpu_offload", JVal.jbool eco), (cp "svd_enable_vae_slicing", JVal.jbool evs), (cp "svd_enable_vae_tiling", JVal.jbool evt), (cp "svd_extend_strategy", JVal.jstr es), (cp "svd_extend_to_audio", JVal.jbool exa), (cp "svd_fps", JVal.jint fps), (cp "svd_height", JVal.jint ht), (cp "svd_local_files_only", JVal.jbool lfo), (cp "svd_max_guidance_scale", JVal.jnum maxgs)]
    [(cp "svd_model", JVal.jstr m), (cp "svd_motion_bucket_id", JVal.jint mbi), (cp "svd_mps_max_pixels", JVal.jint mmp), (cp "svd_noise_aug_strength", JVal.jnum nas), (cp "svd_num_frames", JVal.jint nf), (cp "svd_num_inference_steps", JVal.jint nis), (cp "svd_revision", optStr rev), (cp "svd_seed", optInt sd), (cp "svd_variant", optStr vr), (cp "svd_width", JVal.jint wd)]
    (cp "svd_min_guidance_scale") (JVal.jnum mings) (JVal.jnum mings2) hD
  exact hne hv

lemma key_sens_svd_max_guidance_scale (img aud : List Nat) (opts : List (List Nat × JVal))
    (m : List Nat) (rev : Option (List Nat)) (vr : Option (List Nat)) (lfo : Bool) (dev : Option (List Nat)) (dt : List Nat) (wd : Int) (ht : Int) (fps : Int) (nf : Int) (nis : Int) (mbi : Int) (nas : List Nat) (mings : List Nat) (maxgs maxgs2 : List Nat) (dcs : Int) (sd : Option Int) (eas : Bool) (evs : Bool) (evt : Bool) (eco : Bool) (exa : Bool) (es : List Nat) (ad : Bool) (mmp : Int)
    (hne : maxgs ≠ maxgs2) :
    cache_key (svdS m rev vr lfo dev dt wd ht fps nf nis mbi nas mings maxgs dcs sd eas evs evt eco exa es ad mmp) img aud opts
      ≠ cache_key (svdS m rev vr lfo dev dt wd ht fps nf nis mbi nas mings maxgs2 dcs sd eas evs evt eco exa es ad mmp) img aud opts := by
  intro hEq
  have hD := cache_key_cfg_eq hEq rfl
  rw [backend_cfg_svdS, backend_cfg_svdS, dumpsObj_svdT, dumpsObj_svdT] at hD
  simp only [List.cons.injEq, true_and] at hD
  replace hD := List.append_cancel_right hD
  have hv := serF_single_diff
    [(cp "svd_auto_downscale", JVal.jbool ad), (cp "svd_decode_chunk_size", JVal.jint dcs), (cp "svd_device", optStr dev), (cp "svd_dtype", JVal.jstr dt), (cp "svd_enable_attention_slicing", JVal.jbool eas), (cp "svd_enable_cpu_offload", JVal.jbool eco), (cp "svd_enable_vae_slicing", JVal.jbool evs), (cp "svd_enable_vae_tiling", JVal.jbool evt), (cp "svd_extend_strategy", JVal.jstr es), (cp "svd_extend_to_audio", JVal.jbool exa), (cp "svd_fps", JVal.jint fps), (cp "svd_height", JVal.jint ht), (cp "svd_local_files_only", JVal.jbool lfo)]
    [(cp "svd_min_guidance_scale", JVal.jnum mings), (cp "svd_model", JVal.jstr m), (cp "svd_motion_bucket_id", JVal.jint mbi), (cp "svd_mps_max_pixels", JVal.jint mmp), (cp "svd_noise_aug_strength", JVal.jnum nas), (cp "svd_num_frames", JVal.jint nf), (cp "svd_num_inference_steps", JVal.jint nis), (cp "svd_revision", optStr rev), (cp "svd_seed", optInt sd), (cp "svd_variant", optStr vr), (cp "svd_width", JVal.jint wd)]
    (cp "svd_max_guidance_scale") (JVal.jnum maxgs) (JVal.jnum maxgs2) hD
  exact hne hv

lemma key_sens_svd_decode_chunk_size (img aud : List Nat) (opts : List (List Nat × JVal))
    (m : List Nat) (rev : Option (List Nat)) (vr : Option (List Nat)) (lfo : Bool) (dev : Option (List Nat)) (dt : List Nat) (wd : Int) (ht : Int) (fps : Int) (nf : Int) (nis : Int) (mbi : Int) (nas : List Nat) (mings : List Nat) (maxgs : List Nat) (dcs dcs2 : Int) (sd : Option Int) (eas : Bool) (evs : Bool) (evt : Bool) (eco : Bool) (exa : Bool) (es : List Nat) (ad : Bool) (mmp : Int)
    (hne : dcs ≠ dcs2) :
    cache_key (svdS m rev vr lfo dev dt wd ht fps nf nis mbi nas mings maxgs dcs sd eas evs evt eco exa es ad mmp) img aud opts
      ≠ cache_key (svdS m rev vr lfo dev dt wd ht fps nf nis mbi nas mings maxgs dcs2 sd eas evs evt eco exa es ad mmp) img aud opts := by
  intro hEq
  have hD := cache_key_cfg_eq hEq rfl
  rw [backend_cfg_svdS, backend_cfg_svdS, dumpsObj_svdT, dumpsObj_svdT] at hD
  simp only [List.cons.injEq, true_and] at hD
  replace hD := List.append_cancel_right hD
  have hv := serF_single_diff
    [(cp "svd_auto_downscale", JVal.jbool ad)]
    [(cp "svd_device", optStr dev), (cp "svd_dtype", JVal.jstr dt), (cp "svd_enable_attention_slicing", JVal.jbool eas), (cp "svd_enable_cpu_offload", JVal.jbool eco), (cp "svd_enable_vae_slicing", JVal.jbool evs), (cp "svd_enable_vae_tiling", JVal.jbool evt), (cp "svd_extend_strategy", JVal.jstr es), (cp "svd_extend_to_audio", JVal.jbool exa), (cp "svd_fps", JVal.jint fps), (cp "svd_height", JVal.jint ht), (cp "svd_local_files_only", JVal.jbool lfo), (cp "svd_max_guidance_scale", JVal.jnum maxgs), (cp "svd_min_guidance_scale", JVal.jnum mings), (cp "svd_model", JVal.jstr m), (cp "svd_motion_bucket_id", JVal.jint mbi), (cp "svd_mps_max_pixels", JVal.jint mmp), (cp "svd_noise_aug_strength", JVal.jnum nas), (cp "svd_num_frames", JVal.jint nf), (cp "svd_num_inference_steps", JVal.jint nis), (cp "svd_revision", optStr rev), (cp "svd_seed", optInt sd), (cp "svd_variant", optStr vr), (cp "svd_width", JVal.jint wd)]
    (cp "svd_decode_chunk_size") (JVal.jint dcs) (JVal.jint dcs2) hD
  exact hne (ser_jint_inj hv)

lemma key_sens_svd_seed (img aud : List Nat) (opts : List (List Nat × JVal))
    (m : List Nat) (rev : Option (List Nat)) (vr : Option (List Nat)) (lfo : Bool) (dev : Option (List Nat)) (dt : List Nat) (wd : Int) (ht : Int) (fps : Int) (nf : Int) (nis : Int) (mbi : Int) (nas : List Nat) (mings : List Nat) (maxgs : List Nat) (dcs : Int) (sd sd2 : Option Int) (eas : Bool) (evs : Bool) (evt : Bool) (eco : Bool) (exa : Bool) (es : List Nat) (ad : Bool) (mmp : Int)
    (hne : sd ≠ sd2) :
    cache_key (svdS m rev vr lfo dev dt wd ht fps nf nis mbi nas mings maxgs dcs sd eas evs evt eco exa es ad mmp) img aud opts
      ≠ cache_key (svdS m rev vr lfo dev dt wd ht fps nf nis mbi nas mings maxgs dcs sd2 eas evs evt eco exa es ad mmp) img aud opts := by
  intro hEq
  have hD := cache_key_cfg_eq hEq rfl
  rw [backend_cfg_svdS, backend_cfg_svdS, dumpsObj_svdT, dumpsObj_svdT] at hD
  simp only [List.cons.injEq, true_and] at hD
  replace hD := List.append_cancel_right hD
  have hv := serF_single_diff
    [(cp "svd_auto_downscale", JVal.jbool ad), (cp "svd_decode_chunk_size", JVal.jint dcs), (cp "svd_device", optStr dev), (cp "svd_dtype", JVal.jstr dt), (cp "svd_enable_attention_slicing", JVal.jbool eas), (cp "svd_enable_cpu_offload", JVal.jbool eco), (cp "svd_enable_vae_slicing", JVal.jbool evs), (cp "svd_enable_vae_tiling", JVal.jbool evt), (cp "svd_extend_strategy", JVal.jstr es), (cp "svd_extend_to_audio", JVal.jbool exa), (cp "svd_fps", JVal.jint fps), (cp "svd_height", JVal.jint ht), (cp "svd_local_files_only", JVal.jbool lfo), (cp "svd_max_guidance_scale", JVal.jnum maxgs), (cp "svd_min_guidance_scale", JVal.jnum mings), (cp "svd_model", JVal.jstr m), (cp "svd_motion_bucket_id", JVal.jint mbi), (cp "svd_mps_max_pixels", JVal.jint mmp), (cp "svd_noise_aug_strength", JVal.jnum nas), (cp "svd_num_frames", JVal.jint nf), (cp "svd_num_inference_steps", JVal.jint nis), (cp "svd_revision", optStr rev)]
    [(cp "svd_variant", optStr vr), (cp "svd_width", JVal.jint wd)]
    (cp "svd_seed") (optInt sd) (optInt sd2) hD
  exact hne (ser_optInt_inj hv)

lemma key_sens_svd_enable_attention_slicing (img aud : List Nat) (opts : List (List Nat × JVal))
    (m : List Nat) (rev : Option (List Nat)) (vr : Option (List Nat)) (lfo : Bool) (dev : Option (List Nat)) (dt : List Nat) (wd : Int) (ht : Int) (fps : Int) (nf : Int) (nis : Int) (mbi : Int) (nas : List Nat) (mings : List Nat) (maxgs : List Nat) (dcs : Int) (sd : Option Int) (eas eas2 : Bool) (evs : Bool) (evt : Bool) (eco : Bool) (exa : Bool) (es : List Nat) (ad : Bool) (mmp : Int)
    (hne : eas ≠ eas2) :
    cache_key (svdS m rev vr lfo dev dt wd ht fps nf nis mbi nas mings maxgs dcs sd eas evs evt eco exa es ad mmp) img aud opts
      ≠ cache_key (svdS m rev vr lfo dev dt wd ht fps nf nis mbi nas mings maxgs dcs sd eas2 evs evt eco exa es ad mmp) img aud opts := by
  intro hEq
  have hD := cache_key_cfg_eq hEq rfl
  rw [backend_cfg_svdS, backend_cfg_svdS, dumpsObj_svdT, dumpsObj_svdT] at hD
  simp only [List.cons.injEq, true_and] at hD
  replace hD := List.append_cancel_right hD
  have hv := serF_single_diff
    [(cp "svd_auto_downscale", JVal.jbool ad), (cp "svd_decode_chunk_size", JVal.jint dcs), (cp "svd_device", optStr dev), (cp "svd_dtype", JVal.jstr dt)]
    [(cp "svd_enable_cpu_offload", JVal.jbool eco), (cp "svd_enable_vae_slicing", JVal.jbool evs), (cp "svd_enable_vae_tiling", JVal.jbool evt), (cp "svd_extend_strategy", JVal.jstr es), (cp "svd_extend_to_audio", JVal.jbool exa), (cp "svd_fps", JVal.jint fps), (cp "svd_height", JVal.jint ht), (cp "svd_local_files_only", JVal.jbool lfo), (cp "svd_max_guidance_scale", JVal.jnum maxgs), (cp "svd_min_guidance_scale", JVal.jnum mings), (cp "svd_model", JVal.jstr m), (cp "svd_motion_bucket_id", JVal.jint mbi), (cp "svd_mps_max_pixels", JVal.jint mmp), (cp "svd_noise_aug_strength", JVal.jnum nas), (cp "svd_num_frames", JVal.jint nf), (cp "svd_num_inference_steps", JVal.jint nis), (cp "svd_revision", optStr rev), (cp "svd_seed", optInt sd), (cp "svd_variant", optStr vr), (cp "svd_width", JVal.jint wd)]
    (cp "svd_enable_attention_slicing") (JVal.jbool eas) (JVal.jbool eas2) hD
  exact hne (ser_jbool_inj hv)

lemma key_sens_svd_enable_vae_slicing (img aud : List Nat) (opts : List (List Nat × JVal))
    (m : List Nat) (rev : Option (List Nat)) (vr : Option (List Nat)) (lfo : Bool) (dev : Option (List Nat)) (dt : List Nat) (wd : Int) (ht : Int) (fps : Int) (nf : Int) (nis : Int) (mbi : Int) (nas : List Nat) (mings : List Nat) (maxgs : List Nat) (dcs : Int) (sd : Option Int) (eas : Bool) (evs evs2 : Bool) (evt : Bool) (eco : Bool) (exa : Bool) (es : List Nat) (ad : Bool) (mmp : Int)
    (hne : evs ≠ evs2) :
    cache_key (svdS m rev vr lfo dev dt wd ht fps nf nis mbi nas mings maxgs dcs sd eas evs evt eco exa es ad mmp) img aud opts
      ≠ cache_key (svdS m rev vr lfo dev dt wd ht fps nf nis mbi nas mings maxgs dcs sd eas evs2 evt eco exa es ad mmp) img aud opts := by
  intro hEq
  have hD := cache_key_cfg_eq hEq rfl
  rw [backend_cfg_svdS, backend_cfg_svdS, dumpsObj_svdT, dumpsObj_svdT] at hD
  simp only [List.cons.injEq, true_and] at hD
  replace hD := List.append_cancel_right hD
  have hv := serF_single_diff
    [(cp "svd_auto_downscale", JVal.jbool ad), (cp "svd_decode_chunk_size", JVal.jint dcs), (cp "svd_device", optStr dev), (cp "svd_dtype", JVal.jstr dt), (cp "svd_enable_attention_slicing", JVal.jbool eas), (cp "svd_enable_cpu_offload", JVal.jbool eco)]
    [(cp "svd_enable_vae_tiling", JVal.jbool evt), (cp "svd_extend_strategy", JVal.jstr es), (cp "svd_extend_to_audio", JVal.jbool exa), (cp "svd_fps", JVal.jint fps), (cp "svd_height", JVal.jint ht), (cp "svd_local_files_only", JVal.jbool lfo), (cp "svd_max_guidance_scale", JVal.jnum maxgs), (cp "svd_min_guidance_scale", JVal.jnum mings), (cp "svd_model", JVal.jstr m), (cp "svd_motion_bucket_id", JVal.jint mbi), (cp "svd_mps_max_pixels", JVal.jint mmp), (cp "svd_noise_aug_strength", JVal.jnum nas), (cp "svd_num_frames", JVal.jint nf), (cp "svd_num_inference_steps", JVal.jint nis), (cp "svd_revision", optStr rev), (cp "svd_seed", optInt sd), (cp "svd_variant", optStr vr), (cp "svd_width", JVal.jint wd)]
    (cp "svd_enable_vae_slicing") (JVal.jbool evs) (JVal.jbool evs2) hD
  exact hne (ser_jbool_inj hv)

lemma key_sens_svd_enable_vae_tiling (img aud : List Nat) (opts : List (List Nat × JVal))
    (m : List Nat) (rev : Option (List Nat)) (vr : Option (List Nat)) (lfo : Bool) (dev : Option (List Nat)) (dt : List Nat) (wd : Int) (ht : Int) (fps : Int) (nf : Int) (nis : Int) (mbi : Int) (nas : List Nat) (mings : List Nat) (maxgs : List Nat) (dcs : Int) (sd : Option Int) (eas : Bool) (evs : Bool) (evt evt2 : Bool) (eco : Bool) (exa : Bool) (es : List Nat) (ad : Bool) (mmp : Int)
    (hne : evt ≠ evt2) :
    cache_key (svdS m rev vr lfo dev dt wd ht fps nf nis mbi nas mings maxgs dcs sd eas evs evt eco exa es ad mmp) img aud opts
      ≠ cache_key (svdS m rev vr lfo dev dt wd ht fps nf nis mbi nas mings maxgs dcs sd eas evs evt2 eco exa es ad mmp) img aud opts := by
  intro hEq
  have hD := cache_key_cfg_eq hEq rfl
  rw [backend_cfg_svdS, backend_cfg_svdS, dumpsObj_svdT, dumpsObj_svdT] at hD
  simp only [List.cons.injEq, true_and] at hD
  replace hD := List.append_cancel_right hD
  have hv := serF_single_diff
    [(cp "svd_auto_downscale", JVal.jbool ad), (cp "svd_decode_chunk_size", JVal.jint dcs), (cp "svd_device", optStr dev), (cp "svd_dtype", JVal.jstr dt), (cp "svd_enable_attention_slicing", JVal.jbool eas), (cp "svd_enable_cpu_offload", JVal.jbool eco), (cp "svd_enable_vae_slicing", JVal.jbool evs)]
    [(cp "svd_extend_strategy", JVal.jstr es), (cp "svd_extend_to_audio", JVal.jbool exa), (cp "svd_fps", JVal.jint fps), (cp "svd_height", JVal.jint ht), (cp "svd_local_files_only", JVal.jbool lfo), (cp "svd_max_guidance_scale", JVal.jnum maxgs), (cp "svd_min_guidance_scale", JVal.jnum mings), (cp "svd_model", JVal.jstr m), (cp "svd_motion_bucket_id", JVal.jint mbi), (cp "svd_mps_max_pixels", JVal.jint mmp), (cp "svd_noise_aug_strength", JVal.jnum nas), (cp "svd_num_frames", JVal.jint nf), (cp "svd_num_inference_steps", JVal.jint nis), (cp "svd_revision", optStr rev), (cp "svd_seed", optInt sd), (cp "svd_variant", optStr vr), (cp "svd_width", JVal.jint wd)]
    (cp "svd_enable_vae_tiling") (JVal.jbool evt) (JVal.jbool evt2) hD
  exact hne (ser_jbool_inj hv)

lemma key_sens_svd_enable_cpu_offload (img aud : List Nat) (opts : List (List Nat × JVal))
    (m : List Nat) (rev : Option (List Nat)) (vr : Option (List Nat)) (lfo : Bool) (dev : Option (List Nat)) (dt : List Nat) (wd : Int) (ht : Int) (fps : Int) (nf : Int) (nis : Int) (mbi : Int) (nas : List Nat) (mings : List Nat) (maxgs : List Nat) (dcs : Int) (sd : Option Int) (eas : Bool) (evs : Bool) (evt : Bool) (eco eco2 : Bool) (exa : Bool) (es : List Nat) (ad : Bool) (mmp : Int)
    (hne : eco ≠ eco2) :
    cache_key (svdS m rev vr lfo dev dt wd ht fps nf nis mbi nas mings maxgs dcs sd eas evs evt eco exa es ad mmp) img aud opts
      ≠ cache_key (svdS m rev vr lfo dev dt wd ht fps nf nis mbi nas mings maxgs dcs sd eas evs evt eco2 exa es ad mmp) img aud opts := by
  intro hEq
  have hD := cache_key_cfg_eq hEq rfl
  rw [backend_cfg_svdS, backend_cfg_svdS, dumpsObj_svdT, dumpsObj_svdT] at hD
  simp only [List.cons.injEq, true_and] at hD
  replace hD := List.append_cancel_right hD
  have hv := serF_single_diff
    [(cp "svd_auto_downscale", JVal.jbool ad), (cp "svd_decode_chunk_size", JVal.jint dcs), (cp "svd_device", optStr dev), (cp "svd_dtype", JVal.jstr dt), (cp "svd_enable_attention_slicing", JVal.jbool eas)]
    [(cp "svd_enable_vae_slicing", JVal.jbool evs), (cp "svd_enable_vae_tiling", JVal.jbool evt), (cp "svd_extend_strategy", JVal.jstr es), (cp "svd_extend_to_audio", JVal.jbool exa), (cp "svd_fps", JVal.jint fps), (cp "svd_height", JVal.jint ht), (cp "svd_local_files_only", JVal.jbool lfo), (cp "svd_max_guidance_scale", JVal.jnum maxgs), (cp "svd_min_guidance_scale", JVal.jnum mings), (cp "svd_model", JVal.jstr m), (cp "svd_motion_bucket_id", JVal.jint mbi), (cp "svd_mps_max_pixels", JVal.jint mmp), (cp "svd_noise_aug_strength", JVal.jnum nas), (cp "svd_num_frames", JVal.jint nf), (cp "svd_num_inference_steps", JVal.jint nis), (cp "svd_revision", optStr rev), (cp "svd_seed", optInt sd), (cp "svd_variant", optStr vr), (cp "svd_width", JVal.jint wd)]
    (cp "svd_enable_cpu_offload") (JVal.jbool eco) (JVal.jbool eco2) hD
  exact hne (ser_jbool_inj hv)

lemma key_sens_svd_extend_to_audio (img aud : List Nat) (opts : List (List Nat × JVal))
    (m : List Nat) (rev : Option (List Nat)) (vr : Option (List Nat)) (lfo : Bool) (dev : Option (List Nat)) (dt : List Nat) (wd : Int) (ht : Int) (fps : Int) (nf : Int) (nis : Int) (mbi : Int) (nas : List Nat) (mings : List Nat) (maxgs : List Nat) (dcs : Int) (sd : Option Int) (eas : Bool) (evs : Bool) (evt : Bool) (eco : Bool) (exa exa2 : Bool) (es : List Nat) (ad : Bool) (mmp : Int)
    (hne : exa ≠ exa2) :
    cache_key (svdS m rev vr lfo dev dt wd ht fps nf nis mbi nas mings maxgs dcs sd eas evs evt eco exa es ad mmp) img aud opts
      ≠ cache_key (svdS m rev vr lfo dev dt wd ht fps nf nis mbi nas mings maxgs dcs sd eas evs evt eco exa2 es ad mmp) img aud opts := by
  intro hEq
  have hD := cache_key_cfg_eq hEq rfl
  rw [backend_cfg_svdS, backend_cfg_svdS, dumpsObj_svdT, dumpsObj_svdT] at hD
  simp only [List.cons.injEq, true_and] at hD
  replace hD := List.append_cancel_right hD
  have hv := serF_single_diff
    [(cp "svd_auto_downscale", JVal.jbool ad), (cp "svd_decode_chunk_size", JVal.jint dcs), (cp "svd_device", optStr dev), (cp "svd_dtype", JVal.jstr dt), (cp "svd_enable_attention_slicing", JVal.jbool eas), (cp "svd_enable_cpu_offload", JVal.jbool eco), (cp "svd_enable_vae_slicing", JVal.jbool evs), (cp "svd_enable_vae_tiling", JVal.jbool evt), (cp "svd_extend_strategy", JVal.jstr es)]
    [(cp "svd_fps", JVal.jint fps), (cp "svd_height", JVal.jint ht), (cp "svd_local_files_only", JVal.jbool lfo), (cp "svd_max_guidance_scale", JVal.jnum maxgs), (cp "svd_min_guidance_scale", JVal.jnum mings), (cp "svd_model", JVal.jstr m), (cp "svd_motion_bucket_id", JVal.jint mbi), (cp "svd_mps_max_pixels", JVal.jint mmp), (cp "svd_noise_aug_strength", JVal.jnum nas), (cp "svd_num_frames", JVal.jint nf), (cp "svd_num_inference_steps", JVal.jint nis), (cp "svd_revision", optStr rev), (cp "svd_seed", optInt sd), (cp "svd_variant", optStr vr), (cp "svd_width", JVal.jint wd)]
    (cp "svd_extend_to_audio") (JVal.jbool exa) (JVal.jbool exa2) hD
  exact hne (ser_jbool_inj hv)

lemma key_sens_svd_extend_strategy (img aud : List Nat) (opts : List (List Nat × JVal))
    (m : List Nat) (rev : Option (List Nat)) (vr : Option (List Nat)) (lfo : Bool) (dev : Option (List Nat)) (dt : List Nat) (wd : Int) (ht : Int) (fps : Int) (nf : Int) (nis : Int) (mbi : Int) (nas : List Nat) (mings : List Nat) (maxgs : List Nat) (dcs : Int) (sd : Option Int) (eas : Bool) (evs : Bool) (evt : Bool) (eco : Bool) (exa : Bool) (es es2 : List Nat) (ad : Bool) (mmp : Int)
    (hva : ValidCps es) (hvb : ValidCps es2) (hne : es ≠ es2) :
    cache_key (svdS m rev vr lfo dev dt wd ht fps nf nis mbi nas mings maxgs dcs sd eas evs evt eco exa es ad mmp) img aud opts
      ≠ cache_key (svdS m rev vr lfo dev dt wd ht fps nf nis mbi nas mings maxgs dcs sd eas evs evt eco exa es2 ad mmp) img aud opts := by
  intro hEq
  have hD := cache_key_cfg_eq hEq rfl
  rw [backend_cfg_svdS, backend_cfg_svdS, dumpsObj_svdT, dumpsObj_svdT] at hD
  simp only [List.cons.injEq, true_and] at hD
  replace hD := List.append_cancel_right hD
  have hv := serF_single_diff
    [(cp "svd_auto_downscale", JVal.jbool ad), (cp "svd_decode_chunk_size", JVal.jint dcs), (cp "svd_device", optStr dev), (cp "svd_dtype", JVal.jstr dt), (cp "svd_enable_attention_slicing", JVal.jbool eas), (cp "svd_enable_cpu_offload", JVal.jbool eco), (cp "svd_enable_vae_slicing", JVal.jbool evs), (cp "svd_enable_vae_tiling", JVal.jbool evt)]
    [(cp "svd_extend_to_audio", JVal.jbool exa), (cp "svd_fps", JVal.jint fps), (cp "svd_height", JVal.jint ht), (cp "svd_local_files_only", JVal.jbool lfo), (cp "svd_max_guidance_scale", JVal.jnum maxgs), (cp "svd_min_guidance_scale", JVal.jnum mings), (cp "svd_model", JVal.jstr m), (cp "svd_motion_bucket_id", JVal.jint mbi), (cp "svd_mps_max_pixels", JVal.jint mmp), (cp "svd_noise_aug_strength", JVal.jnum nas), (cp "svd_num_frames", JVal.jint nf), (cp "svd_num_inference_steps", JVal.jint nis), (cp "svd_revision", optStr rev), (cp "svd_seed", optInt sd), (cp "svd_variant", optStr vr), (cp "svd_width", JVal.jint wd)]
    (cp "svd_extend_strategy") (JVal.jstr es) (JVal.jstr es2) hD
  exact hne (ser_jstr_inj hva hvb hv)

lemma key_sens_svd_auto_downscale (img aud : List Nat) (opts : List (List Nat × JVal))
    (m : List Nat) (rev : Option (List Nat)) (vr : Option (List Nat)) (lfo : Bool) (dev : Option (List Nat)) (dt : List Nat) (wd : Int) (ht : Int) (fps : Int) (nf : Int) (nis : Int) (mbi : Int) (nas : List Nat) (mings : List Nat) (maxgs : List Nat) (dcs : Int) (sd : Option Int) (eas : Bool) (evs : Bool) (evt : Bool) (eco : Bool) (exa : Bool) (es : List Nat) (ad ad2 : Bool) (mmp : Int)
    (hne : ad ≠ ad2) :
    cache_key (svdS m rev vr lfo dev dt wd ht fps nf nis mbi nas mings maxgs dcs sd eas evs evt eco exa es ad mmp) img aud opts
      ≠ cache_key (svdS m rev vr lfo dev dt wd ht fps nf nis mbi nas mings maxgs dcs sd eas evs evt eco exa es ad2 mmp) img aud opts := by
  intro hEq
  have hD := cache_key_cfg_eq hEq rfl
  rw [backend_cfg_svdS, backend_cfg_svdS, dumpsObj_svdT, dumpsObj_svdT] at hD
  simp only [List.cons.injEq, true_and] at hD
  replace hD := List.append_cancel_right hD
  have hv := serF_single_diff
    []
    [(cp "svd_decode_chunk_size", JVal.jint dcs), (cp "svd_device", optStr dev), (cp "svd_dtype", JVal.jstr dt), (cp "svd_enable_attention_slicing", JVal.jbool eas), (cp "svd_enable_cpu_offload", JVal.jbool eco), (cp "svd_enable_vae_slicing", JVal.jbool evs), (cp "svd_enable_vae_tiling", JVal.jbool evt), (cp "svd_extend_strategy", JVal.jstr es), (cp "svd_extend_to_audio", JVal.jbool exa), (cp "svd_fps", JVal.jint fps), (cp "svd_height", JVal.jint ht), (cp "svd_local_files_only", JVal.jbool lfo), (cp "svd_max_guidance_scale", JVal.jnum maxgs), (cp "svd_min_guidance_scale", JVal.jnum mings), (cp "svd_model", JVal.jstr m), (cp "svd_motion_bucket_id", JVal.jint mbi), (cp "svd_mps_max_pixels", JVal.jint mmp), (cp "svd_noise_aug_strength", JVal.jnum nas), (cp "svd_num_frames", JVal.jint nf), (cp "svd_num_inference_steps", JVal.jint nis), (cp "svd_revision", optStr rev), (cp "svd_seed", optInt sd), (cp "svd_variant", optStr vr), (cp "svd_width", JVal.jint wd)]
    (cp "svd_auto_downscale") (JVal.jbool ad) (JVal.jbool ad2) hD
  exact hne (ser_jbool_inj hv)

lemma key_sens_svd_mps_max_pixels (img aud : List Nat) (opts : List (List Nat × JVal))
    (m : List Nat) (rev : Option (List Nat)) (vr : Option (List Nat)) (lfo : Bool) (dev : Option (List Nat)) (dt : List Nat) (wd : Int) (ht : Int) (fps : Int) (nf : Int) (nis : Int) (mbi : Int) (nas : List Nat) (mings : List Nat) (maxgs : List Nat) (dcs : Int) (sd : Option Int) (eas : Bool) (evs : Bool) (evt : Bool) (eco : Bool) (exa : Bool) (es : List Nat) (ad : Bool) (mmp mmp2 : Int)
    (hne : mmp ≠ mmp2) :
    cache_key (svdS m rev vr lfo dev dt wd ht fps nf nis mbi nas mings maxgs dcs sd eas evs evt eco exa es ad mmp) img aud opts
      ≠ cache_key (svdS m rev vr lfo dev dt wd ht fps nf nis mbi nas mings maxgs dcs sd eas evs evt eco exa es ad mmp2) img aud opts := by
  intro hEq
  have hD := cache_key_cfg_eq hEq rfl
  rw [backend_cfg_svdS, backend_cfg_svdS, dumpsObj_svdT, dumpsObj_svdT] at hD
  simp only [List.cons.injEq, true_and] at hD
  replace hD := List.append_cancel_right hD
  have hv := serF_single_diff
    [(cp "svd_auto_downscale", JVal.jbool ad), (cp "svd_decode_chunk_size", JVal.jint dcs), (cp "svd_device", optStr dev), (cp "svd_dtype", JVal.jstr dt), (cp "svd_enable_attention_slicing", JVal.jbool eas), (cp "svd_enable_cpu_offload", JVal.jbool eco), (cp "svd_enable_vae_slicing", JVal.jbool evs), (cp "svd_enable_vae_tiling", JVal.jbool evt), (cp "svd_extend_strategy", JVal.jstr es), (cp "svd_extend_to_audio", JVal.jbool exa), (cp "svd_fps", JVal.jint fps), (cp "svd_height", JVal.jint ht), (cp "svd_local_files_only", JVal.jbool lfo), (cp "svd_max_guidance_scale", JVal.jnum maxgs), (cp "svd_min_guidance_scale", JVal.jnum mings), (cp "svd_model", JVal.jstr m), (cp "svd_motion_bucket_id", JVal.jint mbi)]
    [(cp "svd_noise_aug_strength", JVal.jnum nas), (cp "svd_num_frames", JVal.jint nf), (cp "svd_num_inference_steps", JVal.jint nis), (cp "svd_revision", optStr rev), (cp "svd_seed", optInt sd), (cp "svd_variant", optStr vr), (cp "svd_width", JVal.jint wd)]
    (cp "svd_mps_max_pixels") (JVal.jint mmp) (JVal.jint mmp2) hD
  exact hne (ser_jint_inj hv)

/-- C3 counterexample: the mock (still-image muxer) backend renders at
video_size and video_fps (mock_generator.py lines 35 to 36), yet
`_cache_key` hashes the empty config dict for it (the `else` branch,
worker.py line 66): two configurations that differ in both mock-relevant
fields — and demonstrably produce different frames — get the same
fingerprint on identical inputs. -/
theorem mock_video_size_not_fingerprinted :
    mockSettingsAlt.video_size ≠ mockSettings.video_size
    ∧ mockSettingsAlt.video_fps ≠ mockSettings.video_fps
    ∧ mockEffectiveSize mockSettingsAlt [] ≠ mockEffectiveSize mockSettings []
    ∧ mockEffectiveFps mockSettingsAlt [] ≠ mockEffectiveFps mockSettings []
    ∧ cache_key mockSettingsAlt [1, 2] [3, 4] [] = cache_key mockSettings [1, 2] [3, 4] [] := by
  refine ⟨?_, ?_, ?_, ?_, ?_⟩ <;> decide

/-- C3 (amended): the fingerprint is sensitive to every input it actually
hashes: to the backend name (any two distinct NUL-free names give distinct
keys), to every one of the five sadtalker fields when the sadtalker
backend is selected, to every one of the twenty-five svd fields when the
svd backend is selected, to any change of the image bytes (at equal
length), to any change of the audio bytes (at equal length), and to any
change of one option value (keys sorted and unambiguous, scalar values).
The hashed configuration subset is the backend_cfg dict of `_cache_key`,
which is empty for every other backend including the mock, so the
mock-relevant defaults video_size and video_fps are outside it (the
counterexample); svd_encode_crf and svd_enable_xformers are likewise not
hashed for svd. -/
theorem cache_key_sensitivity :
    (∀ (s1 s2 : Settings) (img aud : List Nat) (opts : List (List Nat × JVal)),
      ValidCps s1.generator_backend → ValidCps s2.generator_backend →
      (0 : Nat) ∉ s1.generator_backend → (0 : Nat) ∉ s2.generator_backend →
      s1.generator_backend ≠ s2.generator_backend →
      cache_key s1 img aud opts ≠ cache_key s2 img aud opts)
    ∧
    (∀ (img aud : List Nat) (opts : List (List Nat × JVal))
      (rd rd2 : List Nat) (py : Option (List Nat)) (sz : Int) (pre : List Nat) (enh : Option (List Nat)),
      ValidCps rd → ValidCps rd2 → rd ≠ rd2 →
      cache_key (sadS rd py sz pre enh) img aud opts
        ≠ cache_key (sadS rd2 py sz pre enh) img aud opts)
    ∧
    (∀ (img aud : List Nat) (opts : List (List Nat × JVal))
      (rd : List Nat) (py py2 : Option (List Nat)) (sz : Int) (pre : List Nat) (enh : Option (List Nat)),
      ValidCpsOpt py → ValidCpsOpt py2 → py ≠ py2 →
      cache_key (sadS rd py sz pre enh) img aud opts
        ≠ cache_key (sadS rd py2 sz pre enh) img aud opts)
    ∧
    (∀ (img aud : List Nat) (opts : List (List Nat × JVal))
      (rd : List Nat) (py : Option (List Nat)) (sz sz2 : Int) (pre : List Nat) (enh : Option (List Nat)),
      sz ≠ sz2 →
      cache_key (sadS rd py sz pre enh) img aud opts
        ≠ cache_key (sadS rd py sz2 pre enh) img aud opts)
    ∧
    (∀ (img aud : List Nat) (opts : List (List Nat × JVal))
      (rd : List Nat) (py : Option (List Nat)) (sz : Int) (pre pre2 : List Nat) (enh : Option (List Nat)),
      ValidCps pre → ValidCps pre2 → pre ≠ pre2 →
      cache_key (sadS rd py sz pre enh) img aud opts
        ≠ cache_key (sadS rd py sz pre2 enh) img aud opts)
    ∧
    (∀ (img aud : List Nat) (opts : List (List Nat × JVal))
      (rd : List Nat) (py : Option (List Nat)) (sz : Int) (pre : List Nat) (enh enh2 : Option (List Nat)),
      ValidCpsOpt enh → ValidCpsOpt enh2 → enh ≠ enh2 →
      cache_key (sadS rd py sz pre enh) img aud opts
        ≠ cache_key (sadS rd py sz pre enh2) img aud opts)
    ∧
    (∀ (img aud : List Nat) (opts : List (List Nat × JVal))
      (m m2 : List Nat) (rev : Option (List Nat)) (vr : Option (List Nat)) (lfo : Bool) (dev : Option (List Nat)) (dt : List Nat) (wd : Int) (ht : Int) (fps : Int) (nf : Int) (nis : Int) (mbi : Int) (nas : List Nat) (mings : List Nat) (maxgs : List Nat) (dcs : Int) (sd : Option Int) (eas : Bool) (evs : Bool) (evt : Bool) (eco : Bool) (exa : Bool) (es : List Nat) (ad : Bool) (mmp : Int),
      ValidCps m → ValidCps m2 → m ≠ m2 →
      cache_key (svdS m rev vr lfo dev dt wd ht fps nf nis mbi nas mings maxgs dcs sd eas evs evt eco exa es ad mmp) img aud opts
        ≠ cache_key (svdS m2 rev vr lfo dev dt wd ht fps nf nis mbi nas mings maxgs dcs sd eas evs evt eco exa es ad mmp) img aud opts)
    ∧
    (∀ (img aud : List Nat) (opts : List (List Nat × JVal))
      (m : List Nat) (rev rev2 : Option (List Nat)) (vr : Option (List Nat)) (lfo : Bool) (dev : Option (List Nat)) (dt : List Nat) (wd : Int) (ht : Int) (fps : Int) (nf : Int) (nis : Int) (mbi : Int) (nas : List Nat) (mings : List Nat) (maxgs : List Nat) (dcs : Int) (sd : Option Int) (eas : Bool) (evs : Bool) (evt : Bool) (eco : Bool) (exa : Bool) (es : List Nat) (ad : Bool) (mmp : Int),
      ValidCpsOpt rev → ValidCpsOpt rev2 → rev ≠ rev2 →
      cache_key (svdS m rev vr lfo dev dt wd ht fps nf nis mbi nas mings maxgs dcs sd eas evs evt eco exa es ad mmp) img aud opts
        ≠ cache_key (svdS m rev2 vr lfo dev dt wd ht fps nf nis mbi nas mings maxgs dcs sd eas evs evt eco exa es ad mmp) img aud opts)
    ∧
    (∀ (img aud : List Nat) (opts : List (List Nat × JVal))
      (m : List Nat) (rev : Option (List Nat)) (vr vr2 : Option (List Nat)) (lfo : Bool) (dev : Option (List Nat)) (dt : List Nat) (wd : Int) (ht : Int) (fps : Int) (nf : Int) (nis : Int) (mbi : Int) (nas : List Nat) (mings : List Nat) (maxgs : List Nat) (dcs : Int) (sd : Option Int) (eas : Bool) (evs : Bool) (evt : Bool) (eco : Bool) (exa : Bool) (es : List Nat) (ad : Bool) (mmp : Int),
      ValidCpsOpt vr → ValidCpsOpt vr2 → vr ≠ vr2 →
      cache_key (svdS m rev vr lfo dev dt wd ht fps nf nis mbi nas mings maxgs dcs sd eas evs evt eco exa es ad mmp) img aud opts
        ≠ cache_key (svdS m rev vr2 lfo dev dt wd ht fps nf nis mbi nas mings maxgs dcs sd eas evs evt eco exa es ad mmp) img aud opts)
    ∧
    (∀ (img aud : List Nat) (opts : List (List Nat × JVal))
      (m : List Nat) (rev : Option (List Nat)) (vr : Option (List Nat)) (lfo lfo2 : Bool) (dev : Option (List Nat)) (dt : List Nat) (wd : Int) (ht : Int) (fps : Int) (nf : Int) (nis : Int) (mbi : Int) (nas : List Nat) (mings : List Nat) (maxgs : List Nat) (dcs : Int) (sd : Option Int) (eas : Bool) (evs : Bool) (evt : Bool) (eco : Bool) (exa : Bool) (es : List Nat) (ad : Bool) (mmp : Int),
      lfo ≠ lfo2 →
      cache_key (svdS m rev vr lfo dev dt wd ht fps nf nis mbi nas mings maxgs dcs sd eas evs evt eco exa es ad mmp) img aud opts
        ≠ cache_key (svdS m rev vr lfo2 dev dt wd ht fps nf nis mbi nas mings maxgs dcs sd eas evs evt eco exa es ad mmp) img aud opts)
    ∧
    (∀ (img aud : List Nat) (opts : List (List Nat × JVal))
      (m : List Nat) (rev : Option (List Nat)) (vr : Option (List Nat)) (lfo : Bool) (dev dev2 : Option (List Nat)) (dt : List Nat) (wd : Int) (ht : Int) (fps : Int) (nf : Int) (nis : Int) (mbi : Int) (nas : List Nat) (mings : List Nat) (maxgs : List Nat) (dcs : Int) (sd : Option Int) (eas : Bool) (evs : Bool) (evt : Bool) (eco : Bool) (exa : Bool) (es : List Nat) (ad : Bool) (mmp : Int),
      ValidCpsOpt dev → ValidCpsOpt dev2 → dev ≠ dev2 →
      cache_key (svdS m rev vr lfo dev dt wd ht fps nf nis mbi nas mings maxgs dcs sd eas evs evt eco exa es ad mmp) img aud opts
        ≠ cache_key (svdS m rev vr lfo dev2 dt wd ht fps nf nis mbi nas mings maxgs dcs sd eas evs evt eco exa es ad mmp) img aud opts)
    ∧
    (∀ (img aud : List Nat) (opts : List (List Nat × JVal))
      (m : List Nat) (rev : Option (List Nat)) (vr : Option (List Nat)) (lfo : Bool) (dev : Option (List Nat)) (dt dt2 : List Nat) (wd : Int) (ht : Int) (fps : Int) (nf : Int) (nis : Int) (mbi : Int) (nas : List Nat) (mings : List Nat) (maxgs : List Nat) (dcs : Int) (sd : Option Int) (eas : Bool) (evs : Bool) (evt : Bool) (eco : Bool) (exa : Bool) (es : List Nat) (ad : Bool) (mmp : Int),
      ValidCps dt → ValidCps dt2 → dt ≠ dt2 →
      cache_key (svdS m rev vr lfo dev dt wd ht fps nf nis mbi nas mings maxgs dcs sd eas evs evt eco exa es ad mmp) img aud opts
        ≠ cache_key (svdS m rev vr lfo dev dt2 wd ht fps nf nis mbi nas mings maxgs dcs sd eas evs evt eco exa es ad mmp) img aud opts)
    ∧
    (∀ (img aud : List Nat) (opts : List (List Nat × JVal))
      (m : List Nat) (rev : Option (List Nat)) (vr : Option (List Nat)) (lfo : Bool) (dev : Option (List Nat)) (dt : List Nat) (wd wd2 : Int) (ht : Int) (fps : Int) (nf : Int) (nis : Int) (mbi : Int) (nas : List Nat) (mings : List Nat) (maxgs : List Nat) (dcs : Int) (sd : Option Int) (eas : Bool) (evs : Bool) (evt : Bool) (eco : Bool) (exa : Bool) (es : List Nat) (ad : Bool) (mmp : Int),
      wd ≠ wd2 →
      cache_key (svdS m rev vr lfo dev dt wd ht fps nf nis mbi nas mings maxgs dcs sd eas evs evt eco exa es ad mmp) img aud opts
        ≠ cache_key (svdS m rev vr lfo dev dt wd2 ht fps nf nis mbi nas mings maxgs dcs sd eas evs evt eco exa es ad mmp) img aud opts)
    ∧
    (∀ (img aud : List Nat) (opts : List (List Nat × JVal))
      (m : List Nat) (rev : Option (List Nat)) (vr : Option (List Nat)) (lfo : Bool) (dev : Option (List Nat)) (dt : List Nat) (wd : Int) (ht ht2 : Int) (fps : Int) (nf : Int) (nis : Int) (mbi : Int) (nas : List Nat) (mings : List Nat) (maxgs : List Nat) (dcs : Int) (sd : Option Int) (eas : Bool) (evs : Bool) (evt : Bool) (eco : Bool) (exa : Bool) (es : List Nat) (ad : Bool) (mmp : Int),
      ht ≠ ht2 →
      cache_key (svdS m rev vr lfo dev dt wd ht fps nf nis mbi nas mings maxgs dcs sd eas evs evt eco exa es ad mmp) img aud opts
        ≠ cache_key (svdS m rev vr lfo dev dt wd ht2 fps nf nis mbi nas mings maxgs dcs sd eas evs evt eco exa es ad mmp) img aud opts)
    ∧
    (∀ (img aud : List Nat) (opts : List (List Nat × JVal))
      (m : List Nat) (rev : Option (List Nat)) (vr : Option (List Nat)) (lfo : Bool) (dev : Option (List Nat)) (dt : List Nat) (wd : Int) (ht : Int) (fps fps2 : Int) (nf : Int) (nis : Int) (mbi : Int) (nas : List Nat) (mings : List Nat) (maxgs : List Nat) (dcs : Int) (sd : Option Int) (eas : Bool) (evs : Bool) (evt : Bool) (eco : Bool) (exa : Bool) (es : List Nat) (ad : Bool) (mmp : Int),
      fps ≠ fps2 →
      cache_key (svdS m rev vr lfo dev dt wd ht fps nf nis mbi nas mings maxgs dcs sd eas evs evt eco exa es ad mmp) img aud opts
        ≠ cache_key (svdS m rev vr lfo dev dt wd ht fps2 nf nis mbi nas mings maxgs dcs sd eas evs evt eco exa es ad mmp) img aud opts)
    ∧
    (∀ (img aud : List Nat) (opts : List (List Nat × JVal))
      (m : List Nat) (rev : Option (List Nat)) (vr : Option (List Nat)) (lfo : Bool) (dev : Option (List Nat)) (dt : List Nat) (wd : Int) (ht : Int) (fps : Int) (nf nf2 : Int) (nis : Int) (mbi : Int) (nas : List Nat) (mings : List Nat) (maxgs : List Nat) (dcs : Int) (sd : Option Int) (eas : Bool) (evs : Bool) (evt : Bool) (eco : Bool) (exa : Bool) (es : List Nat) (ad : Bool) (mmp : Int),
      nf ≠ nf2 →
      cache_key (svdS m rev vr lfo dev dt wd ht fps nf nis mbi nas mings maxgs dcs sd eas evs evt eco exa es ad mmp) img aud opts
        ≠ cache_key (svdS m rev vr lfo dev dt wd ht fps nf2 nis mbi nas mings maxgs dcs sd eas evs evt eco exa es ad mmp) img aud opts)
    ∧
    (∀ (img aud : List Nat) (opts : List (List Nat × JVal))
      (m : List Nat) (rev : Option (List Nat)) (vr : Option (List Nat)) (lfo : Bool) (dev : Option (List Nat)) (dt : List Nat) (wd : Int) (ht : Int) (fps : Int) (nf : Int) (nis nis2 : Int) (mbi : Int) (nas : List Nat) (mings : List Nat) (maxgs : List Nat) (dcs : Int) (sd : Option Int) (eas : Bool) (evs : Bool) (evt : Bool) (eco : Bool) (exa : Bool) (es : List Nat) (ad : Bool) (mmp : Int),
      nis ≠ nis2 →
      cache_key (svdS m rev vr lfo dev dt wd ht fps nf nis mbi nas mings maxgs dcs sd eas evs evt eco exa es ad mmp) img aud opts
        ≠ cache_key (svdS m rev vr lfo dev dt wd ht fps nf nis2 mbi nas mings maxgs dcs sd eas evs evt eco exa es ad mmp) img aud opts)
    ∧
    (∀ (img aud : List Nat) (opts : List (List Nat × JVal))
      (m : List Nat) (rev : Option (List Nat)) (vr : Option (List Nat)) (lfo : Bool) (dev : Option (List Nat)) (dt : List Nat) (wd : Int) (ht : Int) (fps : Int) (nf : Int) (nis : Int) (mbi mbi2 : Int) (nas : List Nat) (mings : List Nat) (maxgs : List Nat) (dcs : Int) (sd : Option Int) (eas : Bool) (evs : Bool) (evt : Bool) (eco : Bool) (exa : Bool) (es : List Nat) (ad : Bool) (mmp : Int),
      mbi ≠ mbi2 →
      cache_key (svdS m rev vr lfo dev dt wd ht fps nf nis mbi nas mings maxgs dcs sd eas evs evt eco exa es ad mmp) img aud opts
        ≠ cache_key (svdS m rev vr lfo dev dt wd ht fps nf nis mbi2 nas mings maxgs dcs sd eas evs evt eco exa es ad mmp) img aud opts)
    ∧
    (∀ (img aud : List Nat) (opts : List (List Nat × JVal))
      (m : List Nat) (rev : Option (List Nat)) (vr : Option (List Nat)) (lfo : Bool) (dev : Option (List Nat)) (dt : List Nat) (wd : Int) (ht : Int) (fps : Int) (nf : Int) (nis : Int) (mbi : Int) (nas nas2 : List Nat) (mings : List Nat) (maxgs : List Nat) (dcs : Int) (sd : Option Int) (eas : Bool) (evs : Bool) (evt : Bool) (eco : Bool) (exa : Bool) (es : List Nat) (ad : Bool) (mmp : Int),
      nas ≠ nas2 →
      cache_key (svdS m rev vr lfo dev dt wd ht fps nf nis mbi nas mings maxgs dcs sd eas evs evt eco exa es ad mmp) img aud opts
        ≠ cache_key (svdS m rev vr lfo dev dt wd ht fps nf nis mbi nas2 mings maxgs dcs sd eas evs evt eco exa es ad mmp) img aud opts)
    ∧
    (∀ (img aud : List Nat) (opts : List (List Nat × JVal))
      (m : List Nat) (rev : Option (List Nat)) (vr : Option (List Nat)) (lfo : Bool) (dev : Option (List Nat)) (dt : List Nat) (wd : Int) (ht : Int) (fps : Int) (nf : Int) (nis : Int) (mbi : Int) (nas : List Nat) (mings mings2 : List Nat) (maxgs : List Nat) (dcs : Int) (sd : Option Int) (eas : Bool) (evs : Bool) (evt : Bool) (eco : Bool) (exa : Bool) (es : List Nat) (ad : Bool) (mmp : Int),
      mings ≠ mings2 →
      cache_key (svdS m rev vr lfo dev dt wd ht fps nf nis mbi nas mings maxgs dcs sd eas evs evt eco exa es ad mmp) img aud opts
        ≠ cache_key (svdS m rev vr lfo dev dt wd ht fps nf nis mbi nas mings2 maxgs dcs sd eas evs evt eco exa es ad mmp) img aud opts)
    ∧
    (∀ (img aud : List Nat) (opts : List (List Nat × JVal))
      (m : List Nat) (rev : Option (List Nat)) (vr : Option (List Nat)) (lfo : Bool) (dev : Option (List Nat)) (dt : List Nat) (wd : Int) (ht : Int) (fps : Int) (nf : Int) (nis : Int) (mbi : Int) (nas : List Nat) (mings : List Nat) (maxgs maxgs2 : List Nat) (dcs : Int) (sd : Option Int) (eas : Bool) (evs : Bool) (evt : Bool) (eco : Bool) (exa : Bool) (es : List Nat) (ad : Bool) (mmp : Int),
      maxgs ≠ maxgs2 →
      cache_key (svdS m rev vr lfo dev dt wd ht fps nf nis mbi nas mings maxgs dcs sd eas evs evt eco exa es ad mmp) img aud opts
        ≠ cache_key (svdS m rev vr lfo dev dt wd ht fps nf nis mbi nas mings maxgs2 dcs sd eas evs evt eco exa es ad mmp) img aud opts)
    ∧
    (∀ (img aud : List Nat) (opts : List (List Nat × JVal))
      (m : List Nat) (rev : Option (List Nat)) (vr : Option (List Nat)) (lfo : Bool) (dev : Option (List Nat)) (dt : List Nat) (wd : Int) (ht : Int) (fps : Int) (nf : Int) (nis : Int) (mbi : Int) (nas : List Nat) (mings : List Nat) (maxgs : List Nat) (dcs dcs2 : Int) (sd : Option Int) (eas : Bool) (evs : Bool) (evt : Bool) (eco : Bool) (exa : Bool) (es : List Nat) (ad : Bool) (mmp : Int),
      dcs ≠ dcs2 →
      cache_key (svdS m rev vr lfo dev dt wd ht fps nf nis mbi nas mings maxgs dcs sd eas evs evt eco exa es ad mmp) img aud opts
        ≠ cache_key (svdS m rev vr lfo dev dt wd ht fps nf nis mbi nas mings maxgs dcs2 sd eas evs evt eco exa es ad mmp) img aud opts)
    ∧
    (∀ (img aud : List Nat) (opts : List (List Nat × JVal))
      (m : List Nat) (rev : Option (List Nat)) (vr : Option (List Nat)) (lfo : Bool) (dev : Option (List Nat)) (dt : List Nat) (wd : Int) (ht : Int) (fps : Int) (nf : Int) (nis : Int) (mbi : Int) (nas : List Nat) (mings : List Nat) (maxgs : List Nat) (dcs : Int) (sd sd2 : Option Int) (eas : Bool) (evs : Bool) (evt : Bool) (eco : Bool) (exa : Bool) (es : List Nat) (ad : Bool) (mmp : Int),
      sd ≠ sd2 →
      cache_key (svdS m rev vr lfo dev dt wd ht fps nf nis mbi nas mings maxgs dcs sd eas evs evt eco exa es ad mmp) img aud opts
        ≠ cache_key (svdS m rev vr lfo dev dt wd ht fps nf nis mbi nas mings maxgs dcs sd2 eas evs evt eco exa es ad mmp) img aud opts)
    ∧
    (∀ (img aud : List Nat) (opts : List (List Nat × JVal))
      (m : List Nat) (rev : Option (List Nat)) (vr : Option (List Nat)) (lfo : Bool) (dev : Option (List Nat)) (dt : List Nat) (wd : Int) (ht : Int) (fps : Int) (nf : Int) (nis : Int) (mbi : Int) (nas : List Nat) (mings : List Nat) (maxgs : List Nat) (dcs : Int) (sd : Option Int) (eas eas2 : Bool) (evs : Bool) (evt : Bool) (eco : Bool) (exa : Bool) (es : List Nat) (ad : Bool) (mmp : Int),
      eas ≠ eas2 →
      cache_key (svdS m rev vr lfo dev dt wd ht fps nf nis mbi nas mings maxgs dcs sd eas evs evt eco exa es ad mmp) img aud opts
        ≠ cache_key (svdS m rev vr lfo dev dt wd ht fps nf nis mbi nas mings maxgs dcs sd eas2 evs evt eco exa es ad mmp) img aud opts)
    ∧
    (∀ (img aud : List Nat) (opts : List (List Nat × JVal))
      (m : List Nat) (rev : Option (List Nat)) (vr : Option (List Nat)) (lfo : Bool) (dev : Option (List Nat)) (dt : List Nat) (wd : Int) (ht : Int) (fps : Int) (nf : Int) (nis : Int) (mbi : Int) (nas : List Nat) (mings : List Nat) (maxgs : List Nat) (dcs : Int) (sd : Option Int) (eas : Bool) (evs evs2 : Bool) (evt : Bool) (eco : Bool) (exa : Bool) (es : List Nat) (ad : Bool) (mmp : Int),
      evs ≠ evs2 →
      cache_key (svdS m rev vr lfo dev dt wd ht fps nf nis mbi nas mings maxgs dcs sd eas evs evt eco exa es ad mmp) img aud opts
        ≠ cache_key (svdS m rev vr lfo dev dt wd ht fps nf nis mbi nas mings maxgs dcs sd eas evs2 evt eco exa es ad mmp) img aud opts)
    ∧
    (∀ (img aud : List Nat) (opts : List (List Nat × JVal))
      (m : List Nat) (rev : Option (List Nat)) (vr : Option (List Nat)) (lfo : Bool) (dev : Option (List Nat)) (dt : List Nat) (wd : Int) (ht : Int) (fps : Int) (nf : Int) (nis : Int) (mbi : Int) (nas : List Nat) (mings : List Nat) (maxgs : List Nat) (dcs : Int) (sd : Option Int) (eas : Bool) (evs : Bool) (evt evt2 : Bool) (eco : Bool) (exa : Bool) (es : List Nat) (ad : Bool) (mmp : Int),
      evt ≠ evt2 →
      cache_key (svdS m rev vr lfo dev dt wd ht fps nf nis mbi nas mings maxgs dcs sd eas evs evt eco exa es ad mmp) img aud opts
        ≠ cache_key (svdS m rev vr lfo dev dt wd ht fps nf nis mbi nas mings maxgs dcs sd eas evs evt2 eco exa es ad mmp) img aud opts)
    ∧
    (∀ (img aud : List Nat) (opts : List (List Nat × JVal))
      (m : List Nat) (rev : Option (List Nat)) (vr : Option (List Nat)) (lfo : Bool) (dev : Option (List Nat)) (dt : List Nat) (wd : Int) (ht : Int) (fps : Int) (nf : Int) (nis : Int) (mbi : Int) (nas : List Nat) (mings : List Nat) (maxgs : List Nat) (dcs : Int) (sd : Option Int) (eas : Bool) (evs : Bool) (evt : Bool) (eco eco2 : Bool) (exa : Bool) (es : List Nat) (ad : Bool) (mmp : Int),
      eco ≠ eco2 →
      cache_key (svdS m rev vr lfo dev dt wd ht fps nf nis mbi nas mings maxgs dcs sd eas evs evt eco exa es ad mmp) img aud opts
        ≠ cache_key (svdS m rev vr lfo dev dt wd ht fps nf nis mbi nas mings maxgs dcs sd eas evs evt eco2 exa es ad mmp) img aud opts)
    ∧
    (∀ (img aud : List Nat) (opts : List (List Nat × JVal))
      (m : List Nat) (rev : Option (List Nat)) (vr : Option (List Nat)) (lfo : Bool) (dev : Option (List Nat)) (dt : List Nat) (wd : Int) (ht : Int) (fps : Int) (nf : Int) (nis : Int) (mbi : Int) (nas : List Nat) (mings : List Nat) (maxgs : List Nat) (dcs : Int) (sd : Option Int) (eas : Bool) (evs : Bool) (evt : Bool) (eco : Bool) (exa exa2 : Bool) (es : List Nat) (ad : Bool) (mmp : Int),
      exa ≠ exa2 →
      cache_key (svdS m rev vr lfo dev dt wd ht fps nf nis mbi nas mings maxgs dcs sd eas evs evt eco exa es ad mmp) img aud opts
        ≠ cache_key (svdS m rev vr lfo dev dt wd ht fps nf nis mbi nas mings maxgs dcs sd eas evs evt eco exa2 es ad mmp) img aud opts)
    ∧
    (∀ (img aud : List Nat) (opts : List (List Nat × JVal))
      (m : List Nat) (rev : Option (List Nat)) (vr : Option (List Nat)) (lfo : Bool) (dev : Option (List Nat)) (dt : List Nat) (wd : Int) (ht : Int) (fps : Int) (nf : Int) (nis : Int) (mbi : Int) (nas : List Nat) (mings : List Nat) (maxgs : List Nat) (dcs : Int) (sd : Option Int) (eas : Bool) (evs : Bool) (evt : Bool) (eco : Bool) (exa : Bool) (es es2 : List Nat) (ad : Bool) (mmp : Int),
      ValidCps es → ValidCps es2 → es ≠ es2 →
      cache_key (svdS m rev vr lfo dev dt wd ht fps nf nis mbi nas mings maxgs dcs sd eas evs evt eco exa es ad mmp) img aud opts
        ≠ cache_key (svdS m rev vr lfo dev dt wd ht fps nf nis mbi nas mings maxgs dcs sd eas evs evt eco exa es2 ad mmp) img aud opts)
    ∧
    (∀ (img aud : List Nat) (opts : List (List Nat × JVal))
      (m : List Nat) (rev : Option (List Nat)) (vr : Option (List Nat)) (lfo : Bool) (dev : Option (List Nat)) (dt : List Nat) (wd : Int) (ht : Int) (fps : Int) (nf : Int) (nis : Int) (mbi : Int) (nas : List Nat) (mings : List Nat) (maxgs : List Nat) (dcs : Int) (sd : Option Int) (eas : Bool) (evs : Bool) (evt : Bool) (eco : Bool) (exa : Bool) (es : List Nat) (ad ad2 : Bool) (mmp : Int),
      ad ≠ ad2 →
      cache_key (svdS m rev vr lfo dev dt wd ht fps nf nis mbi nas mings maxgs dcs sd eas evs evt eco exa es ad mmp) img aud opts
        ≠ cache_key (svdS m rev vr lfo dev dt wd ht fps nf nis mbi nas mings maxgs dcs sd eas evs evt eco exa es ad2 mmp) img aud opts)
    ∧
    (∀ (img aud : List Nat) (opts : List (List Nat × JVal))
      (m : List Nat) (rev : Option (List Nat)) (vr : Option (List Nat)) (lfo : Bool) (dev : Option (List Nat)) (dt : List Nat) (wd : Int) (ht : Int) (fps : Int) (nf : Int) (nis : Int) (mbi : Int) (nas : List Nat) (mings : List Nat) (maxgs : List Nat) (dcs : Int) (sd : Option Int) (eas : Bool) (evs : Bool) (evt : Bool) (eco : Bool) (exa : Bool) (es : List Nat) (ad : Bool) (mmp mmp2 : Int),
      mmp ≠ mmp2 →
      cache_key (svdS m rev vr lfo dev dt wd ht fps nf nis mbi nas mings maxgs dcs sd eas evs evt eco exa es ad mmp) img aud opts
        ≠ cache_key (svdS m rev vr lfo dev dt wd ht fps nf nis mbi nas mings maxgs dcs sd eas evs evt eco exa es ad mmp2) img aud opts)
    ∧
    (∀ (s : Settings) (img1 img2 aud : List Nat) (opts : List (List Nat × JVal)),
      img1.length = img2.length → img1 ≠ img2 →
      cache_key s img1 aud opts ≠ cache_key s img2 aud opts)
    ∧
    (∀ (s : Settings) (img aud1 aud2 : List Nat) (opts : List (List Nat × JVal)),
      aud1.length = aud2.length → aud1 ≠ aud2 →
      cache_key s img aud1 opts ≠ cache_key s img aud2 opts)
    ∧
    (∀ (s : Settings) (img aud : List Nat) (L R : List (List Nat × JVal)) (k : List Nat)
        (x1 x2 : JVal),
      List.Pairwise (fun a b => lexLtB a b = true)
        (List.map Prod.fst L ++ k :: List.map Prod.fst R) →
      FlatPair x1 x2 → x1 ≠ x2 →
      cache_key s img aud (L ++ (k, x1) :: R) ≠ cache_key s img aud (L ++ (k, x2) :: R)) :=
  ⟨key_sens_backend_name,
   key_sens_sad_repo_dir,
   key_sens_sad_python,
   key_sens_sad_size,
   key_sens_sad_preprocess,
   key_sens_sad_enhancer,
   key_sens_svd_model,
   key_sens_svd_revision,
   key_sens_svd_variant,
   key_sens_svd_local_files_only,
   key_sens_svd_device,
   key_sens_svd_dtype,
   key_sens_svd_width,
   key_sens_svd_height,
   key_sens_svd_fps,
   key_sens_svd_num_frames,
   key_sens_svd_num_inference_steps,
   key_sens_svd_motion_bucket_id,
   key_sens_svd_noise_aug_strength,
   key_sens_svd_min_guidance_scale,
   key_sens_svd_max_guidance_scale,
   key_sens_svd_decode_chunk_size,
   key_sens_svd_seed,
   key_sens_svd_enable_attention_slicing,
   key_sens_svd_enable_vae_slicing,
   key_sens_svd_enable_vae_tiling,
   key_sens_svd_enable_cpu_offload,
   key_sens_svd_extend_to_audio,
   key_sens_svd_extend_strategy,
   key_sens_svd_auto_downscale,
   key_sens_svd_mps_max_pixels,
   key_sens_image,
   key_sens_audio,
   key_sens_option_value⟩

/-- C6 counterexample: with ffmpeg absent from PATH, an uploaded .mp3 is
saved and returned unconverted, so the job whose speech source it is gets
dispatched with a non-WAV audio path. -/
theorem no_ffmpeg_skips_wav_conversion :
    ensure_audio_for_request ⟨false, false, false⟩ (cp "uploads/j1") none (some (cp "voice.mp3"))
      = .ok (cp "uploads/j1/audio.mp3")
    ∧ pyLower (pathSuffix (cp "uploads/j1/audio.mp3")) ≠ cp ".wav" := by
  constructor
  · decide
  · decide

end AvatarSpec
